import Mathlib

/-!
# Verification of the `ed25519-fun` Ed25519 implementation

A shallow embedding of the Rust sources of the `ed25519-fun` crate
(field arithmetic in radix 2^51, Edwards curve group element operations,
signature protocol glue) together with proofs and refutations of the
specification claims.

Machine integers are modelled as `Nat` with explicit wrapping (`% 2^64`,
`% 2^128`, `% 2^8`) exactly where the Rust types wrap; `i8`/`i32`
arithmetic is modelled on `Int` (or on two's-complement bit patterns)
where the source uses signed types.  Byte strings are `List Nat` with
every element intended to be `< 256`.
-/

namespace Ed25519Fun

set_option maxRecDepth 40000

/-- Wrap to `u64` (Rust release-mode wrapping semantics). -/
def w64 (x : Nat) : Nat := x % 18446744073709551616

/-- Wrap to `u128`. -/
def w128 (x : Nat) : Nat := x % 340282366920938463463374607431768211456

/-- Wrapping `u64` subtraction `a - b` (two's complement). -/
def sub64 (a b : Nat) : Nat := (a + 18446744073709551616 - b % 18446744073709551616) % 18446744073709551616

/-- `utils::m6464`: `(x as u128) * (y as u128)` for `x y : u64` — exact. -/
def m6464 (x y : Nat) : Nat := x * y

/-- `utils::load_8`: little-endian load of the first 8 bytes of a slice. -/
def load_8 (bytes : List Nat) : Nat :=
  bytes.getD 0 0 ||| (bytes.getD 1 0 <<< 8) ||| (bytes.getD 2 0 <<< 16) |||
  (bytes.getD 3 0 <<< 24) ||| (bytes.getD 4 0 <<< 32) ||| (bytes.getD 5 0 <<< 40) |||
  (bytes.getD 6 0 <<< 48) ||| (bytes.getD 7 0 <<< 56)

/-- `utils::equal`: constant-time equality of two bytes, returning `1` or `0`.
The result accumulates `xor >> i` for `i ∈ [0,8)` and flips the last bit. -/
def equal (b c : Nat) : Nat :=
  let xor := b ^^^ c
  let result := 0 ||| (xor >>> 0) ||| (xor >>> 1) ||| (xor >>> 2) ||| (xor >>> 3)
    ||| (xor >>> 4) ||| (xor >>> 5) ||| (xor >>> 6) ||| (xor >>> 7)
  (result ^^^ 1) &&& 1

/-- `curve25519_const::TwoP0`: limb 0 of `2 * (2^255 - 19)`. -/
def TwoP0 : Nat := 0x0fffffffffffda

/-- `curve25519_const::TwoP1234`: limbs 1–4 of `2 * (2^255 - 19)`. -/
def TwoP1234 : Nat := 0x0ffffffffffffe

/-- `curve25519_const::Reduce51Mask`: `(1 << 51) - 1`. -/
def Reduce51Mask : Nat := 2251799813685247

/-- `FieldElement`: five `u64` limbs in radix `2^51`
(`field_element.rs`, `pub struct FieldElement(pub [u64; 5])`). -/
structure FieldElement where
  l0 : Nat
  l1 : Nat
  l2 : Nat
  l3 : Nat
  l4 : Nat
deriving Repr, DecidableEq

namespace FieldElement

/-- The integer represented by a field element: `Σ f[i] * 2^(51*i)`. -/
def val (f : FieldElement) : Nat :=
  f.l0 + f.l1 * 2 ^ 51 + f.l2 * 2 ^ 102 + f.l3 * 2 ^ 153 + f.l4 * 2 ^ 204

/-- `FieldElement::add` (`impl Add`): limb-wise addition, no reduction. -/
def add (f g : FieldElement) : FieldElement :=
  ⟨w64 (f.l0 + g.l0), w64 (f.l1 + g.l1), w64 (f.l2 + g.l2),
   w64 (f.l3 + g.l3), w64 (f.l4 + g.l4)⟩

/-- `FieldElement::reduce`: carry propagation with the top carry times 19
folded into limb 0. -/
def reduce (f : FieldElement) : FieldElement :=
  let carry0 := w64 f.l0 >>> 51
  let limbs0 := w64 f.l0 &&& Reduce51Mask
  let limbs1 := w64 (w64 f.l1 + carry0)
  let carry1 := limbs1 >>> 51
  let limbs1' := limbs1 &&& Reduce51Mask
  let limbs2 := w64 (w64 f.l2 + carry1)
  let carry2 := limbs2 >>> 51
  let limbs2' := limbs2 &&& Reduce51Mask
  let limbs3 := w64 (w64 f.l3 + carry2)
  let carry3 := limbs3 >>> 51
  let limbs3' := limbs3 &&& Reduce51Mask
  let limbs4 := w64 (w64 f.l4 + carry3)
  let carry4 := limbs4 >>> 51
  let limbs4' := limbs4 &&& Reduce51Mask
  let limbs0' := w64 (limbs0 + w64 (carry4 * 19))
  ⟨limbs0', limbs1', limbs2', limbs3', limbs4'⟩

/-- `FieldElement::sub` (`impl Sub`): `(self + 2*P) - g`, then reduce. -/
def sub (f g : FieldElement) : FieldElement :=
  reduce ⟨sub64 (w64 (f.l0 + TwoP0)) g.l0,
          sub64 (w64 (f.l1 + TwoP1234)) g.l1,
          sub64 (w64 (f.l2 + TwoP1234)) g.l2,
          sub64 (w64 (f.l3 + TwoP1234)) g.l3,
          sub64 (w64 (f.l4 + TwoP1234)) g.l4⟩

/-- `FieldElement::negate`: `2*P - self`, then reduce. -/
def negate (f : FieldElement) : FieldElement :=
  reduce ⟨sub64 TwoP0 f.l0, sub64 TwoP1234 f.l1, sub64 TwoP1234 f.l2,
          sub64 TwoP1234 f.l3, sub64 TwoP1234 f.l4⟩

/-- `FieldElement::mul` (`impl Mul`): schoolbook 5×5 multiplication with the
`2^255 ≡ 19 (mod p)` folding and two carry passes, as in the source. -/
def mul (f g : FieldElement) : FieldElement :=
  let g1_19 := w64 (19 * g.l1)
  let g2_19 := w64 (19 * g.l2)
  let g3_19 := w64 (19 * g.l3)
  let g4_19 := w64 (19 * g.l4)
  let h0 := w128 (m6464 f.l0 g.l0 + m6464 f.l1 g4_19 + m6464 f.l2 g3_19 +
                  m6464 f.l3 g2_19 + m6464 f.l4 g1_19)
  let h1 := w128 (m6464 f.l0 g.l1 + m6464 f.l1 g.l0 + m6464 f.l2 g4_19 +
                  m6464 f.l3 g3_19 + m6464 f.l4 g2_19)
  let h2 := w128 (m6464 f.l0 g.l2 + m6464 f.l1 g.l1 + m6464 f.l2 g.l0 +
                  m6464 f.l3 g4_19 + m6464 f.l4 g3_19)
  let h3 := w128 (m6464 f.l0 g.l3 + m6464 f.l1 g.l2 + m6464 f.l2 g.l1 +
                  m6464 f.l3 g.l0 + m6464 f.l4 g4_19)
  let h4 := w128 (m6464 f.l0 g.l4 + m6464 f.l1 g.l3 + m6464 f.l2 g.l2 +
                  m6464 f.l3 g.l1 + m6464 f.l4 g.l0)
  let r0 := w64 h0 &&& Reduce51Mask
  let carry0 := w64 (h0 >>> 51)
  let h1' := w128 (h1 + carry0)
  let r1 := w64 h1' &&& Reduce51Mask
  let carry1 := w64 (h1' >>> 51)
  let h2' := w128 (h2 + carry1)
  let r2 := w64 h2' &&& Reduce51Mask
  let carry2 := w64 (h2' >>> 51)
  let h3' := w128 (h3 + carry2)
  let r3 := w64 h3' &&& Reduce51Mask
  let carry3 := w64 (h3' >>> 51)
  let h4' := w128 (h4 + carry3)
  let r4 := w64 h4' &&& Reduce51Mask
  let carry4 := w64 (h4' >>> 51)
  let r0' := w64 (r0 + w64 (carry4 * 19))
  let carry5 := r0' >>> 51
  let r0'' := r0' &&& Reduce51Mask
  let r1' := w64 (r1 + carry5)
  let carry6 := r1' >>> 51
  let r1'' := r1' &&& Reduce51Mask
  let r2' := w64 (r2 + carry6)
  ⟨r0'', r1'', r2', r3, r4⟩

/-- One squaring step of `FieldElement::square_times` (the loop body). -/
def squareStep (f : FieldElement) : FieldElement :=
  let z3_19 := w64 (19 * f.l3)
  let z4_19 := w64 (19 * f.l4)
  let c0 := w128 (m6464 f.l0 f.l0 + 2 * (m6464 f.l1 z4_19 + m6464 f.l2 z3_19))
  let c1 := w128 (m6464 f.l3 z3_19 + 2 * (m6464 f.l0 f.l1 + m6464 f.l2 z4_19))
  let c2 := w128 (m6464 f.l1 f.l1 + 2 * (m6464 f.l0 f.l2 + m6464 f.l4 z3_19))
  let c3 := w128 (m6464 f.l4 z4_19 + 2 * (m6464 f.l0 f.l3 + m6464 f.l1 f.l2))
  let c4 := w128 (m6464 f.l2 f.l2 + 2 * (m6464 f.l0 f.l4 + m6464 f.l1 f.l3))
  let r0 := w64 c0 &&& Reduce51Mask
  let carry0 := w64 (c0 >>> 51)
  let c1' := w128 (c1 + carry0)
  let r1 := w64 c1' &&& Reduce51Mask
  let carry1 := w64 (c1' >>> 51)
  let c2' := w128 (c2 + carry1)
  let r2 := w64 c2' &&& Reduce51Mask
  let carry2 := w64 (c2' >>> 51)
  let c3' := w128 (c3 + carry2)
  let r3 := w64 c3' &&& Reduce51Mask
  let carry3 := w64 (c3' >>> 51)
  let c4' := w128 (c4 + carry3)
  let r4 := w64 c4' &&& Reduce51Mask
  let carry4 := w64 (c4' >>> 51)
  let r0' := w64 (r0 + w64 (carry4 * 19))
  let carry5 := r0' >>> 51
  let r0'' := r0' &&& Reduce51Mask
  let r1' := w64 (r1 + carry5)
  let carry6 := r1' >>> 51
  let r1'' := r1' &&& Reduce51Mask
  let r2' := w64 (r2 + carry6)
  ⟨r0'', r1'', r2', r3, r4⟩

/-- `FieldElement::square_times`: `pow` iterated squarings (`pow ≥ 1`). -/
def square_times (f : FieldElement) : Nat → FieldElement
  | 0 => f
  | n + 1 => square_times (squareStep f) n

/-- `FieldElement::square`. -/
def square (f : FieldElement) : FieldElement := f.square_times 1

/-- `FieldElement::double_square`: square, then double every limb (`u64`). -/
def double_square (f : FieldElement) : FieldElement :=
  let s := f.square_times 1
  ⟨w64 (s.l0 * 2), w64 (s.l1 * 2), w64 (s.l2 * 2), w64 (s.l3 * 2), w64 (s.l4 * 2)⟩

/-- `FieldElement::encode`: re-reduce, add 19 to detect `≥ p`, propagate
carries discarding the `2^255` overflow, and pack into 32 bytes LE. -/
def encode (f : FieldElement) : List Nat :=
  let h := reduce f
  let q0 := w64 (h.l0 + 19) >>> 51
  let q1 := w64 (h.l1 + q0) >>> 51
  let q2 := w64 (h.l2 + q1) >>> 51
  let q3 := w64 (h.l3 + q2) >>> 51
  let q := w64 (h.l4 + q3) >>> 51
  let h0 := w64 (h.l0 + w64 (19 * q))
  let carry0 := h0 >>> 51
  let h0' := h0 &&& Reduce51Mask
  let h1 := w64 (h.l1 + carry0)
  let carry1 := h1 >>> 51
  let h1' := h1 &&& Reduce51Mask
  let h2 := w64 (h.l2 + carry1)
  let carry2 := h2 >>> 51
  let h2' := h2 &&& Reduce51Mask
  let h3 := w64 (h.l3 + carry2)
  let carry3 := h3 >>> 51
  let h3' := h3 &&& Reduce51Mask
  let h4 := w64 (h.l4 + carry3)
  let h4' := h4 &&& Reduce51Mask
  [h0' % 256, (h0' >>> 8) % 256, (h0' >>> 16) % 256, (h0' >>> 24) % 256,
   (h0' >>> 32) % 256, (h0' >>> 40) % 256,
   ((h0' >>> 48) ||| (h1' <<< 3)) % 256,
   (h1' >>> 5) % 256, (h1' >>> 13) % 256, (h1' >>> 21) % 256,
   (h1' >>> 29) % 256, (h1' >>> 37) % 256,
   ((h1' >>> 45) ||| (h2' <<< 6)) % 256,
   (h2' >>> 2) % 256, (h2' >>> 10) % 256, (h2' >>> 18) % 256,
   (h2' >>> 26) % 256, (h2' >>> 34) % 256, (h2' >>> 42) % 256,
   ((h2' >>> 50) ||| (h3' <<< 1)) % 256,
   (h3' >>> 7) % 256, (h3' >>> 15) % 256, (h3' >>> 23) % 256,
   (h3' >>> 31) % 256, (h3' >>> 39) % 256,
   ((h3' >>> 47) ||| (h4' <<< 4)) % 256,
   (h4' >>> 4) % 256, (h4' >>> 12) % 256, (h4' >>> 20) % 256,
   (h4' >>> 28) % 256, (h4' >>> 36) % 256, (h4' >>> 44) % 256]

/-- `FieldElement::decode`: unpack 32 LE bytes into five 51-bit limbs,
ignoring bit 255. -/
def decode (h : List Nat) : FieldElement :=
  ⟨load_8 h &&& Reduce51Mask,
   (load_8 (h.drop 6) >>> 3) &&& Reduce51Mask,
   (load_8 (h.drop 12) >>> 6) &&& Reduce51Mask,
   (load_8 (h.drop 19) >>> 1) &&& Reduce51Mask,
   (load_8 (h.drop 24) >>> 12) &&& Reduce51Mask⟩

/-- `FieldElement::is_zero`: constant-time comparison of `encode` with zeros. -/
def is_zero (f : FieldElement) : Bool := f.encode = List.replicate 32 0

/-- `FieldElement::is_negative`: least significant bit of the encoding. -/
def is_negative (f : FieldElement) : Nat := f.encode.getD 0 0 &&& 1

/-- `FieldElement::pow22501`: returns `(self^11, self^(2^250 - 1))`. -/
def pow22501 (f : FieldElement) : FieldElement × FieldElement :=
  let t0 := f.square
  let t1 := t0.square
  let t1 := t1.square
  let t1 := f.mul t1
  let t0 := t0.mul t1
  let t2 := t0.square
  let t1 := t1.mul t2
  let t2 := t1.square
  let t2 := t2.square_times 4
  let t1 := t2.mul t1
  let t2 := t1.square
  let t2 := t2.square_times 9
  let t2 := t2.mul t1
  let t3 := t2.square
  let t3 := t3.square_times 19
  let t2 := t2.mul t3
  let t2 := t2.square
  let t2 := t2.square_times 9
  let t1 := t2.mul t1
  let t2 := t1.square
  let t2 := t2.square_times 49
  let t2 := t2.mul t1
  let t3 := t2.square
  let t3 := t3.square_times 99
  let t2 := t3.mul t2
  let t2 := t2.square
  let t2 := t2.square_times 49
  (t0, t2.mul t1)

/-- `FieldElement::pow22523`: `self^(2^252 - 3)`. -/
def pow22523 (f : FieldElement) : FieldElement :=
  let a := (f.pow22501).2
  let a := a.square.square
  f.mul a

/-- `FieldElement::invert`: `self^(2^255 - 21) = self^(p - 2)`. -/
def invert (f : FieldElement) : FieldElement :=
  let p := f.pow22501
  let a := p.1
  let b := p.2
  let b := b.square
  let b := b.square
  let b := b.square
  let b := b.square
  let b := b.square
  a.mul b

end FieldElement

/-- `curve25519_const::D`: the Edwards constant `-121665/121666 (mod p)`. -/
def D : FieldElement :=
  ⟨929955233495203, 466365720129213, 1662059464998953, 2033849074728123, 1442794654840575⟩

/-- `curve25519_const::D2`: `2 * D (mod p)`. -/
def D2 : FieldElement :=
  ⟨1859910466990425, 932731440258426, 1072319116312658, 1815898335770999, 633789495995903⟩

/-- `curve25519_const::I`: a square root of `-1 (mod p)`. -/
def I : FieldElement :=
  ⟨1718705420411056, 234908883556509, 2233514472574048, 2117202627021982, 765476049583133⟩

/-- `curve25519_const::FieldZero`. -/
def FieldZero : FieldElement := ⟨0, 0, 0, 0, 0⟩

/-- `curve25519_const::FieldOne`. -/
def FieldOne : FieldElement := ⟨1, 0, 0, 0, 0⟩

/-- Projective representation `P2`: `(X : Y : Z)` with `x = X/Z`, `y = Y/Z`
(`group_element.rs`). -/
structure P2 where
  X : FieldElement
  Y : FieldElement
  Z : FieldElement
deriving Repr, DecidableEq

/-- Extended representation `P3`: `(X : Y : Z : T)` with `x = X/Z`, `y = Y/Z`,
`XY = ZT`. -/
structure P3 where
  X : FieldElement
  Y : FieldElement
  Z : FieldElement
  T : FieldElement
deriving Repr, DecidableEq

/-- Completed representation `P1P1`: `((X : Z), (Y : T))`. -/
structure P1P1 where
  X : FieldElement
  Y : FieldElement
  Z : FieldElement
  T : FieldElement
deriving Repr, DecidableEq

/-- Precomputed affine representation: `(y + x, y - x, 2*D*x*y)`. -/
structure Precomp where
  YpX : FieldElement
  YmX : FieldElement
  XY2d : FieldElement
deriving Repr, DecidableEq

/-- Cached representation: `(Y + X, Y - X, Z, 2*D*T)`. -/
structure Cached where
  YpX : FieldElement
  YmX : FieldElement
  Z : FieldElement
  T2d : FieldElement
deriving Repr, DecidableEq

/-- `P1P1::to_P2`. -/
def P1P1.to_P2 (p : P1P1) : P2 :=
  ⟨p.X.mul p.T, p.Y.mul p.Z, p.Z.mul p.T⟩

/-- `P1P1::to_P3`. -/
def P1P1.to_P3 (p : P1P1) : P3 :=
  ⟨p.X.mul p.T, p.Y.mul p.Z, p.Z.mul p.T, p.X.mul p.Y⟩

/-- `P2::zero`: the identity `(0, 1, 1)`. -/
def P2.zero : P2 := ⟨FieldZero, FieldOne, FieldOne⟩

/-- `P2::encode` (RFC 8032): encode `y = Y/Z` and xor the sign of `x = X/Z`
into bit 255. -/
def P2.encode (p : P2) : List Nat :=
  let recip := p.Z.invert
  let x := p.X.mul recip
  let y := p.Y.mul recip
  let s := y.encode
  s.set 31 (s.getD 31 0 ^^^ (x.is_negative <<< 7))

/-- `P2::double`: doubling into `P1P1`. -/
def P2.double (p : P2) : P1P1 :=
  let xx := p.X.square
  let yy := p.Y.square
  let a := p.Z.double_square
  let YpX := p.X.add p.Y
  let b := YpX.square
  let y := yy.add xx
  let z := yy.sub xx
  let x := b.sub y
  let t := a.sub z
  ⟨x, y, z, t⟩

/-- `P3::zero`: the identity `(0, 1, 1, 0)`. -/
def P3.zero : P3 := ⟨FieldZero, FieldOne, FieldOne, FieldZero⟩

/-- `P3::to_P2`. -/
def P3.to_P2 (p : P3) : P2 := ⟨p.X, p.Y, p.Z⟩

/-- `P3::to_Cached`. -/
def P3.to_Cached (p : P3) : Cached :=
  ⟨p.Y.add p.X, p.Y.sub p.X, p.Z, p.T.mul D2⟩

/-- `P3::encode`: same as `P2::encode`. -/
def P3.encode (p : P3) : List Nat :=
  let recip := p.Z.invert
  let x := p.X.mul recip
  let y := p.Y.mul recip
  let s := y.encode
  s.set 31 (s.getD 31 0 ^^^ (x.is_negative <<< 7))

/-- `P3::double`. -/
def P3.double (p : P3) : P1P1 := p.to_P2.double

/-- `impl Add<Cached> for P3`: mixed addition `P3 + Cached → P1P1`. -/
def P3.addCached (p : P3) (q : Cached) : P1P1 :=
  let YpX := p.Y.add p.X
  let YmX := p.Y.sub p.X
  let a := YpX.mul q.YpX
  let b := YmX.mul q.YmX
  let c := q.T2d.mul p.T
  let d := p.Z.mul q.Z
  let e := d.add d
  ⟨a.sub b, a.add b, e.add c, e.sub c⟩

/-- `impl Sub<Cached> for P3`: mixed subtraction `P3 - Cached → P1P1`. -/
def P3.subCached (p : P3) (q : Cached) : P1P1 :=
  let YpX := p.Y.add p.X
  let YmX := p.Y.sub p.X
  let a := YpX.mul q.YmX
  let b := YmX.mul q.YpX
  let c := q.T2d.mul p.T
  let d := p.Z.mul q.Z
  let e := d.add d
  ⟨a.sub b, a.add b, e.sub c, e.add c⟩

/-- `impl Add<Precomp> for P3`: mixed addition `P3 + Precomp → P1P1`. -/
def P3.addPrecomp (p : P3) (q : Precomp) : P1P1 :=
  let YpX := p.Y.add p.X
  let YmX := p.Y.sub p.X
  let a := YpX.mul q.YpX
  let b := YmX.mul q.YmX
  let c := q.XY2d.mul p.T
  let d := p.Z.add p.Z
  ⟨a.sub b, a.add b, d.add c, d.sub c⟩

/-- `impl Sub<Precomp> for P3`: mixed subtraction `P3 - Precomp → P1P1`. -/
def P3.subPrecomp (p : P3) (q : Precomp) : P1P1 :=
  let YpX := p.Y.add p.X
  let YmX := p.Y.sub p.X
  let a := YpX.mul q.YmX
  let b := YmX.mul q.YpX
  let c := q.XY2d.mul p.T
  let d := p.Z.add p.Z
  ⟨a.sub b, a.add b, d.sub c, d.add c⟩

/-- `P3::decode`: RFC 8032 decompression with sign recovery; returns `none`
when the candidate root passes neither `v*x^2 = u` nor `v*x^2 = -u`. -/
def P3.decode (enc : List Nat) : Option P3 :=
  let y := FieldElement.decode enc
  let yy := y.square
  let u := yy.sub FieldOne
  let v := (yy.mul D).add FieldOne
  let v3 := v.square.mul v
  let v7 := v3.square.mul v
  let x0 := (u.mul v7).pow22523
  let x1 := (x0.mul u).mul v3
  let vxx := x1.square.mul v
  let check := vxx.sub u
  let xCand : Option FieldElement :=
    if check.is_zero then some x1
    else
      let check2 := vxx.add u
      if check2.is_zero then some (x1.mul I) else none
  match xCand with
  | none => none
  | some x2 =>
    let x3 := if x2.is_negative = enc.getD 31 0 >>> 7 then x2.negate else x2
    some ⟨x3, y, FieldOne, x3.mul y⟩

/-- `P2::slide`: signed sliding-window recoding.  Inner carry loop
(`for k in i+b..256`): set the first zero digit to 1, zeroing ones on the
way; the carry is dropped if it would pass index 255.  `fuel = 256 - k`. -/
def slideCarry : Nat → Nat → List Int → List Int
  | 0, _, r => r
  | fuel + 1, k, r =>
    if r.getD k 0 = 0 then r.set k 1 else slideCarry fuel (k + 1) (r.set k 0)

/-- `P2::slide` inner window loop over `b ∈ [1, min(7, 256-i))`;
`fuel` counts the remaining iterations; `break` is modelled by returning. -/
def slideWindow : Nat → Nat → Nat → List Int → List Int
  | 0, _, _, r => r
  | fuel + 1, i, b, r =>
    if r.getD (i + b) 0 ≠ 0 then
      if r.getD i 0 + r.getD (i + b) 0 * 2 ^ b ≤ 15 then
        slideWindow fuel i (b + 1)
          ((r.set i (r.getD i 0 + r.getD (i + b) 0 * 2 ^ b)).set (i + b) 0)
      else if r.getD i 0 - r.getD (i + b) 0 * 2 ^ b ≥ -15 then
        slideWindow fuel i (b + 1)
          (slideCarry (256 - (i + b)) (i + b)
            (r.set i (r.getD i 0 - r.getD (i + b) 0 * 2 ^ b)))
      else r
    else slideWindow fuel i (b + 1) r

/-- `P2::slide` outer loop over `i ∈ [0, 256)`. -/
def slideMain : Nat → Nat → List Int → List Int
  | 0, _, r => r
  | fuel + 1, i, r =>
    let r' := if r.getD i 0 ≠ 0 then slideWindow (min 7 (256 - i) - 1) i 1 r else r
    slideMain fuel (i + 1) r'

/-- `P2::slide`: each bit of `a` at its own index, then local merging of
clusters into signed digits in `[-15, 15]`. -/
def P2.slide (a : List Nat) : List Int :=
  let r := (List.range 256).map (fun i => (((a.getD (i >>> 3) 0) >>> (i % 8)) &&& 1 : Nat))
  slideMain 256 0 (r.map (fun b => (b : Int)))

/-- `Precomp::zero`: `(1, 1, 0)`. -/
def Precomp.zero : Precomp := ⟨FieldOne, FieldOne, FieldZero⟩

/-- `subtle`-style conditional assignment on `Precomp` (external collaborator
`subtle::ConditionallySelectable`): take `b` when `choice = 1`. -/
def Precomp.cmov (t b : Precomp) (choice : Nat) : Precomp :=
  if choice = 1 then b else t

/-- The base-point x bytes `BXP` from
`Precomp::scalar_multiply_without_precomputation`. -/
def BXP : List Nat :=
  [0x1a, 0xd5, 0x25, 0x8f, 0x60, 0x2d, 0x56, 0xc9, 0xb2, 0xa7, 0x25, 0x95, 0x60, 0xc7,
   0x2c, 0x69, 0x5c, 0xdc, 0xd6, 0xfd, 0x31, 0xe2, 0xa4, 0xc0, 0xfe, 0x53, 0x6e, 0xcd,
   0xd3, 0x36, 0x69, 0x21]

/-- The base-point y bytes `BYP` (`4/5 mod p`). -/
def BYP : List Nat :=
  [0x58, 0x66, 0x66, 0x66, 0x66, 0x66, 0x66, 0x66, 0x66, 0x66, 0x66, 0x66, 0x66, 0x66,
   0x66, 0x66, 0x66, 0x66, 0x66, 0x66, 0x66, 0x66, 0x66, 0x66, 0x66, 0x66, 0x66, 0x66,
   0x66, 0x66, 0x66, 0x66]

/-- The Ed25519 base point `B` in `P3` form, as built by
`scalar_multiply_without_precomputation`. -/
def B_P3 : P3 :=
  let BX := FieldElement.decode BXP
  let BY := FieldElement.decode BYP
  ⟨BX, BY, FieldOne, BX.mul BY⟩

/-- Modelled from the spec: naive binary double-and-add multiple `n·P`
using the repository's own doubling and `P3 + Cached` addition.  Used as
the reference "naively computed" scalar multiple and to give values to
the precomputed tables of the missing `curve25519/precomp.rs`.
`fuel` bounds the recursion depth (bits of `n`). -/
def nsmulAux : Nat → Nat → P3 → P3
  | 0, _, _ => P3.zero
  | fuel + 1, n, P =>
    if n = 0 then P3.zero
    else
      let h := ((nsmulAux fuel (n / 2) P).double).to_P3
      if n % 2 = 1 then (h.addCached P.to_Cached).to_P3 else h

/-- Modelled from the spec: `n·P` for `n < 2^256`. -/
def nsmulP3 (n : Nat) (P : P3) : P3 := nsmulAux 256 n P

/-- Modelled from the spec: the `Precomp` (affine) form `(y+x, y-x, 2d·x·y)`
of a `P3` point, used to state the contents of the precomputed tables. -/
def P3.toPrecompForm (p : P3) : Precomp :=
  let recip := p.Z.invert
  let x := p.X.mul recip
  let y := p.Y.mul recip
  ⟨y.add x, y.sub x, (x.mul y).mul D2⟩

/-- Modelled from the spec: `curve25519/precomp.rs` is not in `src/`.
`PRECOMP_BASE[pos][j] = (j+1)·256^pos·B` in `Precomp` form,
for `pos ∈ [0,31]`, `j ∈ [0,7]` (spec §4.3 table layout). -/
def PRECOMP_BASE (pos j : Nat) : Precomp :=
  (nsmulP3 ((j + 1) * 256 ^ pos) B_P3).toPrecompForm

/-- Modelled from the spec: `curve25519/precomp.rs` is not in `src/`.
`BI[j] = (2j+1)·B` in `Precomp` form (odd multiples of the base point),
given as a literal table exactly as the missing source ships it; the
theorem `BI_matches_spec` checks every entry against `(2j+1)·B`. -/
def BI (j : Nat) : Precomp :=
  match j with
  | 0 => ⟨⟨3540182452943730, 2497478415033846, 2521227595762870, 1462984067271729, 2389212253076811⟩,
          ⟨62697248952638, 204681361388450, 631292143396476, 338455783676468, 1213667448819585⟩,
          ⟨301289933810280, 1259582250014073, 1422107436869536, 796239922652654, 1953934009299142⟩⟩
  | 1 => ⟨⟨1601611775252272, 1720807796594148, 1132070835939856, 3512254832574799, 2147779492816910⟩,
          ⟨316559037616741, 2177824224946892, 1459442586438991, 1461528397712656, 751590696113597⟩,
          ⟨1850748884277385, 1200145853858453, 1068094770532492, 672251375690438, 1586055907191707⟩⟩
  | 2 => ⟨⟨769950342298400, 2384754244604994, 3095885746880802, 3225892188161580, 2977876099231263⟩,
          ⟨425251763115706, 608463272472562, 442562545713235, 837766094556764, 374555092627893⟩,
          ⟨1086255230780037, 274979815921559, 1960002765731872, 929474102396301, 1190409889297339⟩⟩
  | 3 => ⟨⟨2916800678241215, 2065379846933858, 2622030924071124, 2602788184473875, 1233371373142984⟩,
          ⟨2019367628972465, 676711900706637, 110710997811333, 1108646842542025, 517791959672113⟩,
          ⟨965130719900578, 247011430587952, 526356006571389, 91986625355052, 2157223321444601⟩⟩
  | 4 => ⟨⟨1802695059464988, 1664899123557221, 2845359304426105, 2160434469266658, 3179370264440279⟩,
          ⟨1725674970513508, 1933645953859181, 1542344539275782, 1767788773573747, 1297447965928905⟩,
          ⟨1381809363726107, 1430341051343062, 2061843536018959, 1551778050872521, 2036394857967624⟩⟩
  | 5 => ⟨⟨4222693909998302, 2779866139518454, 1619374932191226, 2207306624415883, 1169170329061080⟩,
          ⟨2070390218572616, 1458919061857835, 624171843017421, 1055332792707765, 433987520732508⟩,
          ⟨893653801273833, 1168026499324677, 1242553501121234, 1306366254304474, 1086752658510815⟩⟩
  | 6 => ⟨⟨2465253816303469, 3191571337672685, 1159882208056013, 2569188183312765, 621213314200686⟩,
          ⟨1971678598905747, 338026507889165, 762398079972271, 655096486107477, 42299032696322⟩,
          ⟨177130678690680, 1754759263300204, 1864311296286618, 1180675631479880, 1292726903152791⟩⟩
  | 7 => ⟨⟨1913163449625248, 2712579013977241, 2193883288642313, 1008900146920800, 1721983679009502⟩,
          ⟨1070401523076875, 1272492007800961, 1910153608563310, 2075579521696771, 1191169788841221⟩,
          ⟨692896803108118, 500174642072499, 2068223309439677, 1162190621851337, 1426986007309901⟩⟩
  | _ => Precomp.zero

/-- `Precomp::select`: constant-time lookup of `|b|`-th entry of
`PRECOMP_BASE[pos]`, conditionally negated when `b < 0`.  The `i8`
arithmetic on `b` is modelled on its two's-complement bit pattern `nb`. -/
def Precomp.select (pos : Nat) (b : Int) : Precomp :=
  let nb := (b.emod 256).toNat
  let negative := nb >>> 7
  let absolute := (nb + 256 - ((((256 - negative) % 256) &&& nb) <<< 1) % 256) % 256
  let t := Precomp.zero
  let t := t.cmov (PRECOMP_BASE pos 0) (equal absolute 1)
  let t := t.cmov (PRECOMP_BASE pos 1) (equal absolute 2)
  let t := t.cmov (PRECOMP_BASE pos 2) (equal absolute 3)
  let t := t.cmov (PRECOMP_BASE pos 3) (equal absolute 4)
  let t := t.cmov (PRECOMP_BASE pos 4) (equal absolute 5)
  let t := t.cmov (PRECOMP_BASE pos 5) (equal absolute 6)
  let t := t.cmov (PRECOMP_BASE pos 6) (equal absolute 7)
  let t := t.cmov (PRECOMP_BASE pos 7) (equal absolute 8)
  let negative_t : Precomp := ⟨t.YmX, t.YpX, t.XY2d.negate⟩
  t.cmov negative_t negative

/-- `Precomp::radix16` carry pass (`for i in 0..63`), with the final
`e[63] += carry`.  The `i8` shifts are arithmetic, hence `Int.fdiv`. -/
def radixCarry : Nat → Nat → Int → List Int → List Int
  | 0, _, carry, e => e.set 63 (e.getD 63 0 + carry)
  | fuel + 1, i, carry, e =>
    let ei := e.getD i 0 + carry
    let carry' := Int.fdiv (ei + 8) 16
    radixCarry fuel (i + 1) carry' (e.set i (ei - carry' * 16))

/-- `Precomp::radix16`: split into 64 nibbles, then rebalance into signed
digits in `[-8, 7]`. -/
def Precomp.radix16 (a : List Nat) : List Int :=
  let e : List Int := (List.range 64).map (fun i =>
    if i % 2 = 0 then ((a.getD (i / 2) 0) &&& 15 : Nat)
    else (((a.getD (i / 2) 0) >>> 4) &&& 15 : Nat))
  radixCarry 63 0 0 e

/-- `Precomp::scalar_multiply`: `h = a·B` with the radix-16 precomputed
table: odd digits first, four doublings, then even digits. -/
def Precomp.scalar_multiply (a : List Nat) : P3 :=
  let e := Precomp.radix16 a
  let h := (List.range 64).foldl (fun h i =>
    if i % 2 = 1 then (h.addPrecomp (Precomp.select (i / 2) (e.getD i 0))).to_P3 else h)
    P3.zero
  let h := h.double.to_P2.double.to_P2.double.to_P2.double.to_P3
  (List.range 64).foldl (fun h i =>
    if i % 2 = 0 then (h.addPrecomp (Precomp.select (i / 2) (e.getD i 0))).to_P3 else h) h

/-- `Precomp::scalar_multiply_without_precomputation`: 256-step binary
double-and-add from the base point. -/
def Precomp.scalar_multiply_without_precomputation (scalar : List Nat) : P3 :=
  let q0 := B_P3
  let res := (List.range 256).foldl (fun (pq : P3 × P3) i =>
    let p := pq.1
    let q := pq.2
    let q_cached := q.to_Cached
    let ps := (p.addCached q_cached).to_P3
    let q' := (q.addCached q_cached).to_P3
    let b := ((scalar.getD (i >>> 3) 0) >>> (i % 8)) &&& 1
    (if b = 1 then ps else p, q')) (P3.zero, q0)
  res.1

/-- Zero-initialized `Cached` (the `AI` array initializer in
`double_scalar_multiply_vartime`). -/
def Cached.zeros : Cached := ⟨FieldZero, FieldZero, FieldZero, FieldZero⟩

/-- `double_scalar_multiply_vartime` leading-zero skip loop: find the
highest index (scanning from `i` down) where either slide is nonzero. -/
def dsmSkip (aslide bslide : List Int) : Nat → Option Nat
  | 0 => if aslide.getD 0 0 ≠ 0 ∨ bslide.getD 0 0 ≠ 0 then some 0 else none
  | i + 1 =>
    if aslide.getD (i + 1) 0 ≠ 0 ∨ bslide.getD (i + 1) 0 ≠ 0 then some (i + 1)
    else dsmSkip aslide bslide i

/-- `double_scalar_multiply_vartime` main loop from index `i` down to 0. -/
def dsmMain (aslide bslide : List Int) (AI : List Cached) : Nat → P2 → P2
  | i, r =>
    let t := r.double
    let t :=
      if aslide.getD i 0 > 0 then
        (t.to_P3).addCached (AI.getD ((aslide.getD i 0).toNat / 2) Cached.zeros)
      else if aslide.getD i 0 < 0 then
        (t.to_P3).subCached (AI.getD ((-aslide.getD i 0).toNat / 2) Cached.zeros)
      else t
    let t :=
      if bslide.getD i 0 > 0 then
        (t.to_P3).addPrecomp (BI ((bslide.getD i 0).toNat / 2))
      else if bslide.getD i 0 < 0 then
        (t.to_P3).subPrecomp (BI ((-bslide.getD i 0).toNat / 2))
      else t
    let r' := t.to_P2
    match i with
    | 0 => r'
    | i' + 1 => dsmMain aslide bslide AI i' r'

/-- `P2::double_scalar_multiply_vartime`: `a·A + b·B` by signed sliding
windows; variable time. -/
def P2.double_scalar_multiply_vartime (a b : List Nat) (A : P3) : P2 :=
  let aslide := P2.slide a
  let bslide := P2.slide b
  let AI0 := A.to_Cached
  let A2 := A.double.to_P3
  let AI1 := ((A2.addCached AI0).to_P3).to_Cached
  let AI2 := ((A2.addCached AI1).to_P3).to_Cached
  let AI3 := ((A2.addCached AI2).to_P3).to_Cached
  let AI4 := ((A2.addCached AI3).to_P3).to_Cached
  let AI5 := ((A2.addCached AI4).to_P3).to_Cached
  let AI6 := ((A2.addCached AI5).to_P3).to_Cached
  let AI7 := ((A2.addCached AI6).to_P3).to_Cached
  let AI := [AI0, AI1, AI2, AI3, AI4, AI5, AI6, AI7]
  match dsmSkip aslide bslide 255 with
  | none => P2.zero
  | some i => dsmMain aslide bslide AI i P2.zero

/-- `errors.rs`: the error taxonomy. -/
inductive Error where
  | SignatureMismatch
  | WeakPublicKey
  | InvalidPublicKey
  | InvalidSecretKey
  | InvalidSignature
  | InvalidNoise
  | InvalidKeypair
  | InvalidSignatureLength
deriving Repr, DecidableEq

/-- The constant `L` of `public.rs`: the bytes of the group order, as
written in the source (most significant byte first). -/
def Lconst : List Nat :=
  [0x10, 0x00, 0x00, 0x00, 0x00, 0x00, 0x00, 0x00, 0x00, 0x00, 0x00, 0x00, 0x00, 0x00,
   0x00, 0x00, 0x14, 0xde, 0xf9, 0xde, 0xa2, 0xf7, 0x9c, 0xd6, 0x58, 0x12, 0x63, 0x1a,
   0x5c, 0xf5, 0xd3, 0xed]

/-- `public.rs::check_lt_l`: constant-time byte loop from index 31 down to 0
over `(c, n)`; the `i32` arithmetic shifts are modelled with `Int.fdiv` and
the `as u8` casts with `.emod 256`. -/
def check_lt_l (s : List Nat) : Bool :=
  let step := fun (cn : Nat × Nat) (i : Nat) =>
    let si := s.getD i 0
    let Li := Lconst.getD i 0
    (cn.1 ||| ((((Int.fdiv ((si : Int) - (Li : Int)) 256)).emod 256).toNat &&& cn.2),
     cn.2 &&& (((Int.fdiv (((si ^^^ Li : Nat) : Int) - 1) 256)).emod 256).toNat)
  ((List.range 32).reverse.foldl step (0, 1)).1 == 0

/-- The group order `ℓ = 2^252 + 27742317777372353535851937790883648493`. -/
def lOrder : Nat := 7237005577332262213973186563042994240857116359379907606001950938285454250989

/-- Little-endian value of a byte string. -/
def leVal (bs : List Nat) : Nat := bs.foldr (fun b acc => b + 256 * acc) 0

/-- The `k` least-significant little-endian bytes of `n`. -/
def bytesLE (n k : Nat) : List Nat := (List.range k).map (fun i => (n >>> (8 * i)) % 256)

/-- Modelled from the spec: `curve25519/scalar_ops.rs` is not in `src/`.
`reduce(bytes)` (spec §4.2): replace the low 32 bytes of the buffer with the
32-byte little-endian canonical representative of the input integer modulo
`ℓ`; the tail of the buffer is left in place (only the low 32 bytes carry
weight for all later uses). -/
def reduce (r : List Nat) : List Nat :=
  bytesLE (leVal r % lOrder) 32 ++ r.drop 32

/-- Modelled from the spec: `curve25519/scalar_ops.rs` is not in `src/`.
`multiply_add(a, b, c) = (a·b + c) mod ℓ` on 32-byte little-endian scalars
(spec §4.2; of a 64-byte `c` only the low 32 bytes carry weight). -/
def multiply_add (a b c : List Nat) : List Nat :=
  bytesLE ((leVal (a.take 32) * leVal (b.take 32) + leVal (c.take 32)) % lOrder) 32

/-- `constants.rs::PublicKeySize`. -/
def PublicKeySize : Nat := 32

/-- `constants.rs::SecretKeySize`. -/
def SecretKeySize : Nat := 32

/-- `constants.rs::SignatureSize`. -/
def SignatureSize : Nat := 64

/-- `constants.rs`: `KeypairSize` (64, secret ‖ public). -/
def KeypairSize : Nat := 64

/-- `PublicKey::from_bytes`: accepts exactly 32-byte slices. -/
def PublicKey.from_bytes (bytes : List Nat) : Except Error (List Nat) :=
  if bytes.length ≠ PublicKeySize then .error .InvalidPublicKey else .ok bytes

/-- `SecretKey::from_bytes`: accepts exactly 32-byte slices. -/
def SecretKey.from_bytes (bytes : List Nat) : Except Error (List Nat) :=
  if bytes.length ≠ SecretKeySize then .error .InvalidSecretKey else .ok bytes

/-- `Signature::from_bytes`: accepts exactly 64-byte slices. -/
def Signature.from_bytes (bytes : List Nat) : Except Error (List Nat) :=
  if bytes.length ≠ SignatureSize then .error .InvalidSignatureLength else .ok bytes

/-- `Keypair::from_bytes`: accepts exactly 64-byte slices, splitting into
secret ‖ public. -/
def Keypair.from_bytes (bytes : List Nat) : Except Error (List Nat × List Nat) :=
  if bytes.length ≠ KeypairSize then .error .InvalidKeypair
  else .ok (bytes.take SecretKeySize, bytes.drop SecretKeySize)

/-! ## SHA-512 (external collaborator)

The spec (§6) treats the hash as an external collaborator with contract
"SHA-512 as specified by FIPS 180-4".  We model it concretely so that the
signature pipeline is executable. -/

namespace Sha512

/-- Right rotation on 64-bit words. -/
def rotr (x n : Nat) : Nat := w64 ((x >>> n) ||| (x <<< (64 - n)))

/-- Bitwise complement on 64-bit words. -/
def compl64 (x : Nat) : Nat := x ^^^ 0xFFFFFFFFFFFFFFFF

/-- FIPS 180-4 `Ch`. -/
def ch (e f g : Nat) : Nat := (e &&& f) ^^^ (compl64 e &&& g)

/-- FIPS 180-4 `Maj`. -/
def maj (a b c : Nat) : Nat := (a &&& b) ^^^ (a &&& c) ^^^ (b &&& c)

/-- FIPS 180-4 `Σ0`. -/
def bigS0 (x : Nat) : Nat := rotr x 28 ^^^ rotr x 34 ^^^ rotr x 39

/-- FIPS 180-4 `Σ1`. -/
def bigS1 (x : Nat) : Nat := rotr x 14 ^^^ rotr x 18 ^^^ rotr x 41

/-- FIPS 180-4 `σ0`. -/
def smallS0 (x : Nat) : Nat := rotr x 1 ^^^ rotr x 8 ^^^ (x >>> 7)

/-- FIPS 180-4 `σ1`. -/
def smallS1 (x : Nat) : Nat := rotr x 19 ^^^ rotr x 61 ^^^ (x >>> 6)

/-- The 80 SHA-512 round constants. -/
def K : List Nat :=
  [4794697086780616226, 8158064640168781261, 13096744586834688815, 16840607885511220156,
   4131703408338449720, 6480981068601479193, 10538285296894168987, 12329834152419229976,
   15566598209576043074, 1334009975649890238, 2608012711638119052, 6128411473006802146,
   8268148722764581231, 9286055187155687089, 11230858885718282805, 13951009754708518548,
   16472876342353939154, 17275323862435702243, 1135362057144423861, 2597628984639134821,
   3308224258029322869, 5365058923640841347, 6679025012923562964, 8573033837759648693,
   10970295158949994411, 12119686244451234320, 12683024718118986047, 13788192230050041572,
   14330467153632333762, 15395433587784984357, 489312712824947311, 1452737877330783856,
   2861767655752347644, 3322285676063803686, 5560940570517711597, 5996557281743188959,
   7280758554555802590, 8532644243296465576, 9350256976987008742, 10552545826968843579,
   11727347734174303076, 12113106623233404929, 14000437183269869457, 14369950271660146224,
   15101387698204529176, 15463397548674623760, 17586052441742319658, 1182934255886127544,
   1847814050463011016, 2177327727835720531, 2830643537854262169, 3796741975233480872,
   4115178125766777443, 5681478168544905931, 6601373596472566643, 7507060721942968483,
   8399075790359081724, 8693463985226723168, 9568029438360202098, 10144078919501101548,
   10430055236837252648, 11840083180663258601, 13761210420658862357, 14299343276471374635,
   14566680578165727644, 15097957966210449927, 16922976911328602910, 17689382322260857208,
   500013540394364858, 748580250866718886, 1242879168328830382, 1977374033974150939,
   2944078676154940804, 3659926193048069267, 4368137639120453308, 4836135668995329356,
   5532061633213252278, 6448918945643986474, 6902733635092675308, 7801388544844847127]

/-- Initial hash value `H(0)`. -/
def IV : List Nat :=
  [7640891576956012808, 13503953896175478587, 4354685564936845355, 11912009170470909681,
   5840696475078001361, 11170449401992604703, 2270897969802886507, 6620516959819538809]

/-- Message schedule: extend 16 words to 80, keeping the list in reverse
order (newest word first). -/
def schedAux : Nat → List Nat → List Nat
  | 0, w => w
  | fuel + 1, w =>
    let next := w64 (smallS1 (w.getD 1 0) + w.getD 6 0 + smallS0 (w.getD 14 0) + w.getD 15 0)
    schedAux fuel (next :: w)

/-- The 80-entry message schedule of a 16-word block. -/
def sched (block : List Nat) : List Nat := (schedAux 64 block.reverse).reverse

/-- One compression round. -/
def round (st : List Nat) (kw : Nat × Nat) : List Nat :=
  let a := st.getD 0 0
  let b := st.getD 1 0
  let c := st.getD 2 0
  let d := st.getD 3 0
  let e := st.getD 4 0
  let f := st.getD 5 0
  let g := st.getD 6 0
  let h := st.getD 7 0
  let T1 := w64 (h + bigS1 e + ch e f g + kw.1 + kw.2)
  let T2 := w64 (bigS0 a + maj a b c)
  [w64 (T1 + T2), a, b, c, w64 (d + T1), e, f, g]

/-- Compress one 16-word block into the running state. -/
def compress (H block : List Nat) : List Nat :=
  let W := sched block
  let st := (K.zip W).foldl round H
  (H.zip st).map (fun xy => w64 (xy.1 + xy.2))

/-- Big-endian 8-byte words from a 128-byte block. -/
def toWords (block : List Nat) : List Nat :=
  (List.range 16).map (fun i =>
    (List.range 8).foldl (fun acc j => acc * 256 + block.getD (8 * i + j) 0) 0)

/-- Split the padded message into 128-byte blocks (fuel-bounded). -/
def chunksAux : Nat → List Nat → List (List Nat)
  | 0, _ => []
  | fuel + 1, l => if l.length = 0 then [] else l.take 128 :: chunksAux fuel (l.drop 128)

/-- FIPS 180-4 padding: `0x80`, zeros, and the 128-bit big-endian bit length. -/
def pad (msg : List Nat) : List Nat :=
  let len := msg.length
  let zeros := (239 - len % 128) % 128
  let bitlen := 8 * len
  msg ++ [0x80] ++ List.replicate zeros 0 ++
    (List.range 16).map (fun i => (bitlen >>> (8 * (15 - i))) % 256)

/-- SHA-512 digest of a byte string, as 64 bytes. -/
def digest (msg : List Nat) : List Nat :=
  let blocks := chunksAux (msg.length / 128 + 2) (pad msg)
  let H := blocks.foldl (fun H b => compress H (toWords b)) IV
  H.foldr (fun w acc => (List.range 8).map (fun j => (w >>> (8 * (7 - j))) % 256) ++ acc) []

end Sha512

/-- `SecretKey::sign` step 1: SHA-512 the secret key and clamp
(`output[0] &= 248; output[31] &= 63; output[31] |= 64`). -/
def clampedHash (secret : List Nat) : List Nat :=
  let h := Sha512.digest secret
  (h.set 0 (h.getD 0 0 &&& 248)).set 31 ((h.getD 31 0 &&& 63) ||| 64)

/-- `PublicKey::generate`: clamped-hash scalar times the base point, encoded. -/
def PublicKey.generate (secret : List Nat) : List Nat :=
  (Precomp.scalar_multiply ((clampedHash secret).take 32)).encode

/-- `SecretKey::sign` (RFC 8032 signing, `secret.rs`). -/
def SecretKey.sign (secret publicKey message : List Nat) : List Nat :=
  let h := clampedHash secret
  let r := Sha512.digest ((h.drop 32).take 32 ++ message)
  let r := reduce r
  let R := Precomp.scalar_multiply (r.take 32)
  let k := Sha512.digest (R.encode ++ publicKey ++ message)
  let k := reduce k
  R.encode ++ multiply_add (k.take 32) (h.take 32) r

/-- `PublicKey::verify` (`public.rs`): range gate on `S`, decode of the
public key, recomputation of `k`, double-scalar multiplication, and the
xor-fold byte comparison with the first half of the signature. -/
def PublicKey.verify (pk message sig : List Nat) : Except Error Unit :=
  let s := (sig.drop 32).take 32
  if check_lt_l s then .error .InvalidSignature
  else
    match P3.decode pk with
    | none => .error .InvalidSignature
    | some A =>
      let k := reduce (Sha512.digest (sig.take 32 ++ pk ++ message))
      let eq := P2.double_scalar_multiply_vartime k s A
      if ((eq.encode.zip sig).foldl (fun acc xy => acc ||| (xy.1 ^^^ xy.2)) 0) = 0 then
        .ok ()
      else .error .SignatureMismatch

/-! ## Claim C9: the `from_bytes` constructors validate length only -/

/-- **C9**: `PublicKey::from_bytes`, `SecretKey::from_bytes` (32 bytes),
`Signature::from_bytes` and `Keypair::from_bytes` (64 bytes) return `Ok`
exactly on inputs of the expected length, whatever their content, and the
corresponding length error otherwise; a 32-byte string that is not a valid
curve-point encoding is accepted as a `PublicKey`, and the defect surfaces
only later as `Error::InvalidSignature` inside `verify`. -/
theorem C9_from_bytes_length_only :
    (∀ bytes : List Nat,
      (PublicKey.from_bytes bytes = Except.ok bytes ↔ bytes.length = 32) ∧
      (SecretKey.from_bytes bytes = Except.ok bytes ↔ bytes.length = 32) ∧
      (Signature.from_bytes bytes = Except.ok bytes ↔ bytes.length = 64) ∧
      (Keypair.from_bytes bytes = Except.ok (bytes.take 32, bytes.drop 32) ↔
        bytes.length = 64) ∧
      (bytes.length ≠ 32 → PublicKey.from_bytes bytes = Except.error Error.InvalidPublicKey) ∧
      (bytes.length ≠ 32 → SecretKey.from_bytes bytes = Except.error Error.InvalidSecretKey) ∧
      (bytes.length ≠ 64 →
        Signature.from_bytes bytes = Except.error Error.InvalidSignatureLength) ∧
      (bytes.length ≠ 64 → Keypair.from_bytes bytes = Except.error Error.InvalidKeypair)) ∧
    (∀ pk message sig : List Nat, P3.decode pk = none →
      PublicKey.verify pk message sig = Except.error Error.InvalidSignature) := by
  constructor
  · intro bytes
    simp only [PublicKey.from_bytes, SecretKey.from_bytes, Signature.from_bytes,
      Keypair.from_bytes, PublicKeySize, SecretKeySize, SignatureSize, KeypairSize]
    refine ⟨?_, ?_, ?_, ?_, ?_, ?_, ?_, ?_⟩ <;> split <;> simp_all
  · intro pk message sig hnone
    unfold PublicKey.verify
    split
    all_goals simp_all [ite_self]

/-- The Edwards field prime `p = 2 ^ 255 - 19`. -/
def pEd : Nat := 2 ^ 255 - 19

/-- Modular exponentiation by fuel-bounded binary splitting. -/
def powMod : Nat → Nat → Nat → Nat → Nat
  | 0, _, _, n => 1 % n
  | fuel + 1, a, b, n =>
    if b = 0 then 1 % n
    else
      let h := powMod fuel (a * a % n) (b / 2) n
      if b % 2 = 1 then h * (a % n) % n else h

/-- Limbs in the range produced by `reduce`/`mul`/`squareStep` outputs. -/
def good (f : FieldElement) : Prop :=
  f.l0 < 2 ^ 52 ∧ f.l1 < 2 ^ 52 ∧ f.l2 < 2 ^ 52 ∧ f.l3 < 2 ^ 52 ∧ f.l4 < 2 ^ 52

/-- Limbs in the tighter range produced by `reduce`/`mul`/`squareStep`
outputs: low enough to be safely subtracted from the `2p` offset. -/
def tight (f : FieldElement) : Prop :=
  f.l0 < 2 ^ 51 + 8192 ∧ f.l1 < 2 ^ 51 + 8192 ∧ f.l2 < 2 ^ 51 + 8192 ∧
  f.l3 < 2 ^ 51 + 8192 ∧ f.l4 < 2 ^ 51 + 8192

/-- The field value represented by a `FieldElement`. -/
def toZ (f : FieldElement) : ZMod pEd := (FieldElement.val f : ZMod pEd)

/-- Disjoint or is addition: if `a < 2^k` then `a ||| b <<< k = a + b <<< k`. -/
theorem lor_shiftLeft_eq_add : ∀ (k a b : Nat), a < 2 ^ k → a ||| (b <<< k) = a + b <<< k := by
  intro k
  induction k with
  | zero =>
    intro a b ha
    have : a = 0 := by omega
    subst this
    simp
  | succ n ih =>
    intro a b ha
    have hq : a / 2 < 2 ^ n := by
      apply Nat.div_lt_of_lt_mul
      rw [Nat.pow_succ] at ha
      omega
    have hbit : Nat.bit (a.testBit 0) (a >>> 1) = a := Nat.bit_testBit_zero_shiftRight_one a
    have hshift : b <<< (n + 1) = Nat.bit false (b <<< n) := by
      simp [Nat.bit, Nat.shiftLeft_eq, Nat.pow_succ]
      ring
    calc a ||| b <<< (n + 1)
        = Nat.bit (a.testBit 0) (a >>> 1) ||| Nat.bit false (b <<< n) := by rw [hbit, hshift]
      _ = Nat.bit (a.testBit 0 || false) ((a >>> 1) ||| (b <<< n)) := Nat.lor_bit _ _ _ _
      _ = Nat.bit (a.testBit 0) ((a >>> 1) + (b <<< n)) := by
          rw [Bool.or_false, ih _ b (by simpa [Nat.shiftRight_succ, Nat.shiftRight_zero] using hq)]
      _ = a + b <<< (n + 1) := by
          have hsr : a >>> 1 = a / 2 := Nat.shiftRight_one a
          have hsl : b <<< (n + 1) = 2 * (b <<< n) := by
            simp [Nat.shiftLeft_eq, Nat.pow_succ]
            ring
          rw [Nat.bit_val, hsr, hsl, Nat.testBit_zero]
          rcases Nat.mod_two_eq_zero_or_one a with h | h <;> simp [h] <;> omega

theorem and_mask_eq_mod (x : Nat) : x &&& Reduce51Mask = x % 2 ^ 51 := by
  have := Nat.and_pow_two_sub_one_eq_mod x 51
  simpa [Reduce51Mask] using this




/-- Closed form of `FieldElement.reduce` for bounded limbs: the `u64`
wrapping is a no-op, masks are `% 2^51`, shifts are division. -/
theorem reduce_eq (l0 l1 l2 l3 l4 : Nat)
    (b0 : l0 < 2 ^ 54) (b1 : l1 < 2 ^ 54) (b2 : l2 < 2 ^ 54)
    (b3 : l3 < 2 ^ 54) (b4 : l4 < 2 ^ 54) :
    FieldElement.reduce ⟨l0, l1, l2, l3, l4⟩ =
      ⟨l0 % 2 ^ 51 +
         (l4 + (l3 + (l2 + (l1 + l0 / 2 ^ 51) / 2 ^ 51) / 2 ^ 51) / 2 ^ 51) / 2 ^ 51 * 19,
       (l1 + l0 / 2 ^ 51) % 2 ^ 51,
       (l2 + (l1 + l0 / 2 ^ 51) / 2 ^ 51) % 2 ^ 51,
       (l3 + (l2 + (l1 + l0 / 2 ^ 51) / 2 ^ 51) / 2 ^ 51) % 2 ^ 51,
       (l4 + (l3 + (l2 + (l1 + l0 / 2 ^ 51) / 2 ^ 51) / 2 ^ 51) / 2 ^ 51) % 2 ^ 51⟩ := by
  have A0 : w64 l0 = l0 := Nat.mod_eq_of_lt (by omega)
  have A1 : w64 l1 = l1 := Nat.mod_eq_of_lt (by omega)
  have A2 : w64 l2 = l2 := Nat.mod_eq_of_lt (by omega)
  have A3 : w64 l3 = l3 := Nat.mod_eq_of_lt (by omega)
  have A4 : w64 l4 = l4 := Nat.mod_eq_of_lt (by omega)
  have B1 : w64 (l1 + l0 / 2 ^ 51) = l1 + l0 / 2 ^ 51 := by
    unfold w64; omega
  have B2 : w64 (l2 + (l1 + l0 / 2 ^ 51) / 2 ^ 51) = l2 + (l1 + l0 / 2 ^ 51) / 2 ^ 51 := by
    unfold w64; omega
  have B3 : w64 (l3 + (l2 + (l1 + l0 / 2 ^ 51) / 2 ^ 51) / 2 ^ 51) =
      l3 + (l2 + (l1 + l0 / 2 ^ 51) / 2 ^ 51) / 2 ^ 51 := by
    unfold w64; omega
  have B4 : w64 (l4 + (l3 + (l2 + (l1 + l0 / 2 ^ 51) / 2 ^ 51) / 2 ^ 51) / 2 ^ 51) =
      l4 + (l3 + (l2 + (l1 + l0 / 2 ^ 51) / 2 ^ 51) / 2 ^ 51) / 2 ^ 51 := by
    unfold w64; omega
  have C1 : w64 ((l4 + (l3 + (l2 + (l1 + l0 / 2 ^ 51) / 2 ^ 51) / 2 ^ 51) / 2 ^ 51) / 2 ^ 51
      * 19) = (l4 + (l3 + (l2 + (l1 + l0 / 2 ^ 51) / 2 ^ 51) / 2 ^ 51) / 2 ^ 51) / 2 ^ 51
      * 19 := by
    unfold w64; omega
  have D1 : w64 (l0 % 2 ^ 51 +
      (l4 + (l3 + (l2 + (l1 + l0 / 2 ^ 51) / 2 ^ 51) / 2 ^ 51) / 2 ^ 51) / 2 ^ 51 * 19) =
      l0 % 2 ^ 51 +
      (l4 + (l3 + (l2 + (l1 + l0 / 2 ^ 51) / 2 ^ 51) / 2 ^ 51) / 2 ^ 51) / 2 ^ 51 * 19 := by
    unfold w64; omega
  simp only [FieldElement.reduce, and_mask_eq_mod, Nat.shiftRight_eq_div_pow,
    A0, A1, A2, A3, A4, B1, B2, B3, B4, C1, D1]

/-- `reduce` preserves the represented value modulo `p` and produces
51-bit limbs (with a small excess on limb 0). -/
theorem reduce_spec (f : FieldElement)
    (b0 : f.l0 < 2 ^ 54) (b1 : f.l1 < 2 ^ 54) (b2 : f.l2 < 2 ^ 54)
    (b3 : f.l3 < 2 ^ 54) (b4 : f.l4 < 2 ^ 54) :
    (f.reduce).val % pEd = f.val % pEd ∧
    (f.reduce).l0 < 2 ^ 51 + 152 ∧ (f.reduce).l1 < 2 ^ 51 ∧
    (f.reduce).l2 < 2 ^ 51 ∧ (f.reduce).l3 < 2 ^ 51 ∧ (f.reduce).l4 < 2 ^ 51 := by
  obtain ⟨l0, l1, l2, l3, l4⟩ := f
  dsimp only at b0 b1 b2 b3 b4
  rw [reduce_eq l0 l1 l2 l3 l4 b0 b1 b2 b3 b4]
  simp only [FieldElement.val]
  refine ⟨?_, by omega, by omega, by omega, by omega, by omega⟩
  set c4 := (l4 + (l3 + (l2 + (l1 + l0 / 2 ^ 51) / 2 ^ 51) / 2 ^ 51) / 2 ^ 51) / 2 ^ 51 with hc4
  have hid : l0 + l1 * 2 ^ 51 + l2 * 2 ^ 102 + l3 * 2 ^ 153 + l4 * 2 ^ 204 =
      (l0 % 2 ^ 51 + c4 * 19 + (l1 + l0 / 2 ^ 51) % 2 ^ 51 * 2 ^ 51 +
        (l2 + (l1 + l0 / 2 ^ 51) / 2 ^ 51) % 2 ^ 51 * 2 ^ 102 +
        (l3 + (l2 + (l1 + l0 / 2 ^ 51) / 2 ^ 51) / 2 ^ 51) % 2 ^ 51 * 2 ^ 153 +
        (l4 + (l3 + (l2 + (l1 + l0 / 2 ^ 51) / 2 ^ 51) / 2 ^ 51) / 2 ^ 51) % 2 ^ 51 * 2 ^ 204) +
      c4 * pEd := by
    have d0 := Nat.div_add_mod l0 (2 ^ 51)
    have d1 := Nat.div_add_mod (l1 + l0 / 2 ^ 51) (2 ^ 51)
    have d2 := Nat.div_add_mod (l2 + (l1 + l0 / 2 ^ 51) / 2 ^ 51) (2 ^ 51)
    have d3 := Nat.div_add_mod (l3 + (l2 + (l1 + l0 / 2 ^ 51) / 2 ^ 51) / 2 ^ 51) (2 ^ 51)
    have d4 := Nat.div_add_mod
      (l4 + (l3 + (l2 + (l1 + l0 / 2 ^ 51) / 2 ^ 51) / 2 ^ 51) / 2 ^ 51) (2 ^ 51)
    simp only [pEd, hc4]
    zify [show (19 : ℕ) ≤ 2 ^ 255 by norm_num] at d0 d1 d2 d3 d4 ⊢
    linear_combination (-1 : ℤ) * d0 - 2 ^ 51 * d1 - 2 ^ 102 * d2 - 2 ^ 153 * d3 - 2 ^ 204 * d4
  rw [hid, Nat.add_mul_mod_self_right]


/-- `(a + b / c) / d = (a * c + b) / (c * d)`: merging nested divisions. -/
theorem div_add_div_helper (a b c d : Nat) (hc : 0 < c) :
    (a + b / c) / d = (a * c + b) / (c * d) := by
  rw [← Nat.div_div_eq_div_mul]
  congr 1
  rw [Nat.add_comm (a * c) b, Nat.add_mul_div_right b a hc, Nat.add_comm]

theorem leVal_cons (a : Nat) (l : List Nat) : leVal (a :: l) = a + 256 * leVal l := rfl

/-- Little-endian digit reconstruction: the base-256 digits of `V` sum to
`V mod 256^k`. -/
theorem leVal_digits (k : Nat) : ∀ V : Nat,
    leVal ((List.range k).map (fun j => V / 256 ^ j % 256)) = V % 256 ^ k := by
  induction k with
  | zero => intro V; simp [leVal, Nat.mod_one]
  | succ n ih =>
    intro V
    rw [List.range_succ_eq_map]
    simp only [List.map_cons, List.map_map]
    have hcomp : ((fun j => V / 256 ^ j % 256) ∘ Nat.succ) =
        (fun j => (V / 256) / 256 ^ j % 256) := by
      funext j
      simp only [Function.comp_apply]
      rw [pow_succ, mul_comm, Nat.div_div_eq_div_mul]
    rw [hcomp, leVal_cons, ih (V / 256)]
    rw [pow_zero, Nat.div_one, pow_succ, mul_comm (256 ^ n) 256, Nat.mod_mul]

/-- Final step of the canonical encoding: the packed value equals
`V mod p`. -/
theorem canonical_from_chain (V S c q : Nat) (hS : S < 2 ^ 255) (hVlt : V < 2 ^ 255 + 2 ^ 9)
    (hq : (V + 19) / 2 ^ 255 = q) (hc : c ≤ 1) (hq1 : q ≤ 1)
    (hid : S + 2 ^ 255 * c = V + 19 * q) :
    S = V % (2 ^ 255 - 19) := by
  interval_cases q <;> interval_cases c <;> omega


theorem byte_of_shift (S L m b : Nat) (hS : S = L + 2 ^ b * m) (hL : L < 2 ^ b) :
    S / 2 ^ b = m := by
  subst hS
  rw [Nat.add_mul_div_left _ _ (by positivity : (0:Nat) < 2 ^ b),
    Nat.div_eq_of_lt hL, Nat.zero_add]

set_option maxHeartbeats 3200000 in
/-- The canonical value computed by `FieldElement.encode`: for limbs below
`2^52` the 32 output bytes, read little-endian, are exactly
`val mod (2^255 - 19)`. -/
theorem encode_digits (l0 l1 l2 l3 l4 : Nat)
    (b0 : l0 < 2 ^ 53) (b1 : l1 < 2 ^ 53) (b2 : l2 < 2 ^ 53)
    (b3 : l3 < 2 ^ 53) (b4 : l4 < 2 ^ 53) :
    FieldElement.encode ⟨l0, l1, l2, l3, l4⟩ = (List.range 32).map
      (fun i => FieldElement.val ⟨l0, l1, l2, l3, l4⟩ % pEd / 256 ^ i % 256) := by
  rw [show List.range 32 = [0, 1, 2, 3, 4, 5, 6, 7, 8, 9, 10, 11, 12, 13, 14, 15, 16, 17, 18, 19, 20, 21, 22, 23, 24, 25, 26, 27, 28, 29, 30, 31] from by decide]
  simp only [List.map_cons, List.map_nil]
  have hred := reduce_spec ⟨l0, l1, l2, l3, l4⟩ (by dsimp only; omega) (by dsimp only; omega)
    (by dsimp only; omega) (by dsimp only; omega) (by dsimp only; omega)
  obtain ⟨hval, hm0, hm1, hm2, hm3, hm4⟩ := hred
  rw [← hval]
  simp only [FieldElement.encode]
  generalize hG : FieldElement.reduce ⟨l0, l1, l2, l3, l4⟩ = g at *
  obtain ⟨m0, m1, m2, m3, m4⟩ := g
  dsimp only at hm0 hm1 hm2 hm3 hm4 ⊢
  simp only [FieldElement.val, Nat.shiftRight_eq_div_pow]
  -- clean the wrapping in the q chain
  have w1 : w64 (m0 + 19) = m0 + 19 := by unfold w64; omega
  rw [w1]
  have w2 : w64 (m1 + (m0 + 19) / 2 ^ 51) = m1 + (m0 + 19) / 2 ^ 51 := by
    unfold w64; omega
  rw [w2]
  have w3 : w64 (m2 + (m1 + (m0 + 19) / 2 ^ 51) / 2 ^ 51) =
      m2 + (m1 + (m0 + 19) / 2 ^ 51) / 2 ^ 51 := by
    unfold w64; omega
  rw [w3]
  have w4 : w64 (m3 + (m2 + (m1 + (m0 + 19) / 2 ^ 51) / 2 ^ 51) / 2 ^ 51) =
      m3 + (m2 + (m1 + (m0 + 19) / 2 ^ 51) / 2 ^ 51) / 2 ^ 51 := by
    unfold w64; omega
  rw [w4]
  have w5 : w64 (m4 + (m3 + (m2 + (m1 + (m0 + 19) / 2 ^ 51) / 2 ^ 51) / 2 ^ 51) / 2 ^ 51) =
      m4 + (m3 + (m2 + (m1 + (m0 + 19) / 2 ^ 51) / 2 ^ 51) / 2 ^ 51) / 2 ^ 51 := by
    unfold w64; omega
  rw [w5]
  -- characterize the quotient q
  have hq : (m4 + (m3 + (m2 + (m1 + (m0 + 19) / 2 ^ 51) / 2 ^ 51) / 2 ^ 51) / 2 ^ 51) / 2 ^ 51 =
      (m0 + m1 * 2 ^ 51 + m2 * 2 ^ 102 + m3 * 2 ^ 153 + m4 * 2 ^ 204 + 19) / 2 ^ 255 := by
    rw [show m1 + (m0 + 19) / 2 ^ 51 = m1 + (m0 + 19) / 2 ^ 51 from rfl,
      div_add_div_helper m1 (m0 + 19) (2 ^ 51) (2 ^ 51) (by norm_num),
      div_add_div_helper m2 _ (2 ^ 51 * 2 ^ 51) (2 ^ 51) (by positivity),
      div_add_div_helper m3 _ (2 ^ 51 * 2 ^ 51 * 2 ^ 51) (2 ^ 51) (by positivity),
      div_add_div_helper m4 _ (2 ^ 51 * 2 ^ 51 * 2 ^ 51 * 2 ^ 51) (2 ^ 51) (by positivity)]
    norm_num
    congr 1
    ring
  rw [hq]
  generalize hV : m0 + m1 * 2 ^ 51 + m2 * 2 ^ 102 + m3 * 2 ^ 153 + m4 * 2 ^ 204 = V at *
  have hVlt : V < 2 ^ 255 + 2 ^ 9 := by omega
  generalize hQ : (V + 19) / 2 ^ 255 = q at *
  have hq01 : q ≤ 1 := by omega
  -- clean the wrapping in the final carry chain
  have x1 : w64 (19 * q) = 19 * q := by unfold w64; omega
  rw [x1]
  have x2 : w64 (m0 + 19 * q) = m0 + 19 * q := by unfold w64; omega
  rw [x2]
  simp only [and_mask_eq_mod]
  have y1 : w64 (m1 + (m0 + 19 * q) / 2 ^ 51) = m1 + (m0 + 19 * q) / 2 ^ 51 := by
    unfold w64; omega
  rw [y1]
  have y2 : w64 (m2 + (m1 + (m0 + 19 * q) / 2 ^ 51) / 2 ^ 51) =
      m2 + (m1 + (m0 + 19 * q) / 2 ^ 51) / 2 ^ 51 := by
    unfold w64; omega
  rw [y2]
  have y3 : w64 (m3 + (m2 + (m1 + (m0 + 19 * q) / 2 ^ 51) / 2 ^ 51) / 2 ^ 51) =
      m3 + (m2 + (m1 + (m0 + 19 * q) / 2 ^ 51) / 2 ^ 51) / 2 ^ 51 := by
    unfold w64; omega
  rw [y3]
  have y4 : w64 (m4 + (m3 + (m2 + (m1 + (m0 + 19 * q) / 2 ^ 51) / 2 ^ 51) / 2 ^ 51) / 2 ^ 51) =
      m4 + (m3 + (m2 + (m1 + (m0 + 19 * q) / 2 ^ 51) / 2 ^ 51) / 2 ^ 51) / 2 ^ 51 := by
    unfold w64; omega
  rw [y4]
  -- bounds for the chain limbs
  have nb0 : (m0 + 19 * q) % 2 ^ 51 < 2 ^ 51 := Nat.mod_lt _ (by norm_num)
  have nb1 : (m1 + (m0 + 19 * q) / 2 ^ 51) % 2 ^ 51 < 2 ^ 51 := Nat.mod_lt _ (by norm_num)
  have nb2 : (m2 + (m1 + (m0 + 19 * q) / 2 ^ 51) / 2 ^ 51) % 2 ^ 51 < 2 ^ 51 :=
    Nat.mod_lt _ (by norm_num)
  have nb3 : (m3 + (m2 + (m1 + (m0 + 19 * q) / 2 ^ 51) / 2 ^ 51) / 2 ^ 51) % 2 ^ 51 < 2 ^ 51 :=
    Nat.mod_lt _ (by norm_num)
  have nb4 : (m4 + (m3 + (m2 + (m1 + (m0 + 19 * q) / 2 ^ 51) / 2 ^ 51) / 2 ^ 51) / 2 ^ 51)
      % 2 ^ 51 < 2 ^ 51 := Nat.mod_lt _ (by norm_num)
  have cb4 : (m4 + (m3 + (m2 + (m1 + (m0 + 19 * q) / 2 ^ 51) / 2 ^ 51) / 2 ^ 51) / 2 ^ 51)
      / 2 ^ 51 ≤ 1 := by omega
  -- the chain preserves the value V + 19q up to the discarded 2^255 carry
  have hId : (m0 + 19 * q) % 2 ^ 51 +
      (m1 + (m0 + 19 * q) / 2 ^ 51) % 2 ^ 51 * 2 ^ 51 +
      (m2 + (m1 + (m0 + 19 * q) / 2 ^ 51) / 2 ^ 51) % 2 ^ 51 * 2 ^ 102 +
      (m3 + (m2 + (m1 + (m0 + 19 * q) / 2 ^ 51) / 2 ^ 51) / 2 ^ 51) % 2 ^ 51 * 2 ^ 153 +
      (m4 + (m3 + (m2 + (m1 + (m0 + 19 * q) / 2 ^ 51) / 2 ^ 51) / 2 ^ 51) / 2 ^ 51)
        % 2 ^ 51 * 2 ^ 204 +
      2 ^ 255 * ((m4 + (m3 + (m2 + (m1 + (m0 + 19 * q) / 2 ^ 51) / 2 ^ 51) / 2 ^ 51) / 2 ^ 51)
        / 2 ^ 51) = V + 19 * q := by
    have d0 := Nat.div_add_mod (m0 + 19 * q) (2 ^ 51)
    have d1 := Nat.div_add_mod (m1 + (m0 + 19 * q) / 2 ^ 51) (2 ^ 51)
    have d2 := Nat.div_add_mod (m2 + (m1 + (m0 + 19 * q) / 2 ^ 51) / 2 ^ 51) (2 ^ 51)
    have d3 := Nat.div_add_mod
      (m3 + (m2 + (m1 + (m0 + 19 * q) / 2 ^ 51) / 2 ^ 51) / 2 ^ 51) (2 ^ 51)
    have d4 := Nat.div_add_mod
      (m4 + (m3 + (m2 + (m1 + (m0 + 19 * q) / 2 ^ 51) / 2 ^ 51) / 2 ^ 51) / 2 ^ 51) (2 ^ 51)
    zify at d0 d1 d2 d3 d4 hV ⊢
    linear_combination d0 + 2 ^ 51 * d1 + 2 ^ 102 * d2 + 2 ^ 153 * d3 + 2 ^ 204 * d4 + hV
  -- name the output limbs
  generalize hN0 : (m0 + 19 * q) % 2 ^ 51 = n0 at *
  generalize hN1 : (m1 + (m0 + 19 * q) / 2 ^ 51) % 2 ^ 51 = n1 at *
  generalize hN2 : (m2 + (m1 + (m0 + 19 * q) / 2 ^ 51) / 2 ^ 51) % 2 ^ 51 = n2 at *
  generalize hN3 :
    (m3 + (m2 + (m1 + (m0 + 19 * q) / 2 ^ 51) / 2 ^ 51) / 2 ^ 51) % 2 ^ 51 = n3 at *
  generalize hN4 : (m4 + (m3 + (m2 + (m1 + (m0 + 19 * q) / 2 ^ 51) / 2 ^ 51) / 2 ^ 51)
    / 2 ^ 51) % 2 ^ 51 = n4 at *
  generalize hC : (m4 + (m3 + (m2 + (m1 + (m0 + 19 * q) / 2 ^ 51) / 2 ^ 51) / 2 ^ 51)
    / 2 ^ 51) / 2 ^ 51 = c at *
  -- the packed value is the canonical representative
  have hS255 : n0 + n1 * 2 ^ 51 + n2 * 2 ^ 102 + n3 * 2 ^ 153 + n4 * 2 ^ 204 < 2 ^ 255 := by
    omega
  have hSV : n0 + n1 * 2 ^ 51 + n2 * 2 ^ 102 + n3 * 2 ^ 153 + n4 * 2 ^ 204 = V % pEd := by
    simp only [pEd]
    exact canonical_from_chain V _ c q hS255 hVlt hQ cb4 hq01 hId
  -- resolve the byte packing
  have hor6 : n0 / 2 ^ 48 ||| n1 <<< 3 = n0 / 2 ^ 48 + n1 <<< 3 :=
    lor_shiftLeft_eq_add 3 _ n1 (by omega)
  have hor12 : n1 / 2 ^ 45 ||| n2 <<< 6 = n1 / 2 ^ 45 + n2 <<< 6 :=
    lor_shiftLeft_eq_add 6 _ n2 (by omega)
  have hor19 : n2 / 2 ^ 50 ||| n3 <<< 1 = n2 / 2 ^ 50 + n3 <<< 1 :=
    lor_shiftLeft_eq_add 1 _ n3 (by omega)
  have hor25 : n3 / 2 ^ 47 ||| n4 <<< 4 = n3 / 2 ^ 47 + n4 <<< 4 :=
    lor_shiftLeft_eq_add 4 _ n4 (by omega)
  rw [hor6, hor12, hor19, hor25]
  simp only [Nat.shiftLeft_eq]
  rw [← hSV]
  simp only [List.cons.injEq]
  clear hId hSV hV hVlt hQ hq01 cb4 hor6 hor12 hor19 hor25 hS255
  refine ⟨?_, ?_, ?_, ?_, ?_, ?_, ?_, ?_, ?_, ?_, ?_, ?_, ?_, ?_, ?_, ?_, ?_, ?_, ?_, ?_, ?_, ?_, ?_, ?_, ?_, ?_, ?_, ?_, ?_, ?_, ?_, ?_, trivial⟩
  · omega
  · omega
  · omega
  · omega
  · omega
  · omega
  · omega
  · rw [show (256:Nat) ^ 7 = 2 ^ 56 from by norm_num,
      byte_of_shift (n0 + n1 * 2 ^ 51 + n2 * 2 ^ 102 + n3 * 2 ^ 153 + n4 * 2 ^ 204)
        (n0 + n1 % 2 ^ 5 * 2 ^ 51)
        (n1 / 2 ^ 5 + n2 * 2 ^ 46 + n3 * 2 ^ 97 + n4 * 2 ^ 148) 56 (by omega) (by omega)]
    omega
  · rw [show (256:Nat) ^ 8 = 2 ^ 64 from by norm_num,
      byte_of_shift (n0 + n1 * 2 ^ 51 + n2 * 2 ^ 102 + n3 * 2 ^ 153 + n4 * 2 ^ 204)
        (n0 + n1 % 2 ^ 13 * 2 ^ 51)
        (n1 / 2 ^ 13 + n2 * 2 ^ 38 + n3 * 2 ^ 89 + n4 * 2 ^ 140) 64 (by omega) (by omega)]
    omega
  · rw [show (256:Nat) ^ 9 = 2 ^ 72 from by norm_num,
      byte_of_shift (n0 + n1 * 2 ^ 51 + n2 * 2 ^ 102 + n3 * 2 ^ 153 + n4 * 2 ^ 204)
        (n0 + n1 % 2 ^ 21 * 2 ^ 51)
        (n1 / 2 ^ 21 + n2 * 2 ^ 30 + n3 * 2 ^ 81 + n4 * 2 ^ 132) 72 (by omega) (by omega)]
    omega
  · rw [show (256:Nat) ^ 10 = 2 ^ 80 from by norm_num,
      byte_of_shift (n0 + n1 * 2 ^ 51 + n2 * 2 ^ 102 + n3 * 2 ^ 153 + n4 * 2 ^ 204)
        (n0 + n1 % 2 ^ 29 * 2 ^ 51)
        (n1 / 2 ^ 29 + n2 * 2 ^ 22 + n3 * 2 ^ 73 + n4 * 2 ^ 124) 80 (by omega) (by omega)]
    omega
  · rw [show (256:Nat) ^ 11 = 2 ^ 88 from by norm_num,
      byte_of_shift (n0 + n1 * 2 ^ 51 + n2 * 2 ^ 102 + n3 * 2 ^ 153 + n4 * 2 ^ 204)
        (n0 + n1 % 2 ^ 37 * 2 ^ 51)
        (n1 / 2 ^ 37 + n2 * 2 ^ 14 + n3 * 2 ^ 65 + n4 * 2 ^ 116) 88 (by omega) (by omega)]
    omega
  · rw [show (256:Nat) ^ 12 = 2 ^ 96 from by norm_num,
      byte_of_shift (n0 + n1 * 2 ^ 51 + n2 * 2 ^ 102 + n3 * 2 ^ 153 + n4 * 2 ^ 204)
        (n0 + n1 % 2 ^ 45 * 2 ^ 51)
        (n1 / 2 ^ 45 + n2 * 2 ^ 6 + n3 * 2 ^ 57 + n4 * 2 ^ 108) 96 (by omega) (by omega)]
    omega
  · rw [show (256:Nat) ^ 13 = 2 ^ 104 from by norm_num,
      byte_of_shift (n0 + n1 * 2 ^ 51 + n2 * 2 ^ 102 + n3 * 2 ^ 153 + n4 * 2 ^ 204)
        (n0 + n1 * 2 ^ 51 + n2 % 2 ^ 2 * 2 ^ 102)
        (n2 / 2 ^ 2 + n3 * 2 ^ 49 + n4 * 2 ^ 100) 104 (by omega) (by omega)]
    omega
  · rw [show (256:Nat) ^ 14 = 2 ^ 112 from by norm_num,
      byte_of_shift (n0 + n1 * 2 ^ 51 + n2 * 2 ^ 102 + n3 * 2 ^ 153 + n4 * 2 ^ 204)
        (n0 + n1 * 2 ^ 51 + n2 % 2 ^ 10 * 2 ^ 102)
        (n2 / 2 ^ 10 + n3 * 2 ^ 41 + n4 * 2 ^ 92) 112 (by omega) (by omega)]
    omega
  · rw [show (256:Nat) ^ 15 = 2 ^ 120 from by norm_num,
      byte_of_shift (n0 + n1 * 2 ^ 51 + n2 * 2 ^ 102 + n3 * 2 ^ 153 + n4 * 2 ^ 204)
        (n0 + n1 * 2 ^ 51 + n2 % 2 ^ 18 * 2 ^ 102)
        (n2 / 2 ^ 18 + n3 * 2 ^ 33 + n4 * 2 ^ 84) 120 (by omega) (by omega)]
    omega
  · rw [show (256:Nat) ^ 16 = 2 ^ 128 from by norm_num,
      byte_of_shift (n0 + n1 * 2 ^ 51 + n2 * 2 ^ 102 + n3 * 2 ^ 153 + n4 * 2 ^ 204)
        (n0 + n1 * 2 ^ 51 + n2 % 2 ^ 26 * 2 ^ 102)
        (n2 / 2 ^ 26 + n3 * 2 ^ 25 + n4 * 2 ^ 76) 128 (by omega) (by omega)]
    omega
  · rw [show (256:Nat) ^ 17 = 2 ^ 136 from by norm_num,
      byte_of_shift (n0 + n1 * 2 ^ 51 + n2 * 2 ^ 102 + n3 * 2 ^ 153 + n4 * 2 ^ 204)
        (n0 + n1 * 2 ^ 51 + n2 % 2 ^ 34 * 2 ^ 102)
        (n2 / 2 ^ 34 + n3 * 2 ^ 17 + n4 * 2 ^ 68) 136 (by omega) (by omega)]
    omega
  · rw [show (256:Nat) ^ 18 = 2 ^ 144 from by norm_num,
      byte_of_shift (n0 + n1 * 2 ^ 51 + n2 * 2 ^ 102 + n3 * 2 ^ 153 + n4 * 2 ^ 204)
        (n0 + n1 * 2 ^ 51 + n2 % 2 ^ 42 * 2 ^ 102)
        (n2 / 2 ^ 42 + n3 * 2 ^ 9 + n4 * 2 ^ 60) 144 (by omega) (by omega)]
    omega
  · rw [show (256:Nat) ^ 19 = 2 ^ 152 from by norm_num,
      byte_of_shift (n0 + n1 * 2 ^ 51 + n2 * 2 ^ 102 + n3 * 2 ^ 153 + n4 * 2 ^ 204)
        (n0 + n1 * 2 ^ 51 + n2 % 2 ^ 50 * 2 ^ 102)
        (n2 / 2 ^ 50 + n3 * 2 ^ 1 + n4 * 2 ^ 52) 152 (by omega) (by omega)]
    omega
  · rw [show (256:Nat) ^ 20 = 2 ^ 160 from by norm_num,
      byte_of_shift (n0 + n1 * 2 ^ 51 + n2 * 2 ^ 102 + n3 * 2 ^ 153 + n4 * 2 ^ 204)
        (n0 + n1 * 2 ^ 51 + n2 * 2 ^ 102 + n3 % 2 ^ 7 * 2 ^ 153)
        (n3 / 2 ^ 7 + n4 * 2 ^ 44) 160 (by omega) (by omega)]
    omega
  · rw [show (256:Nat) ^ 21 = 2 ^ 168 from by norm_num,
      byte_of_shift (n0 + n1 * 2 ^ 51 + n2 * 2 ^ 102 + n3 * 2 ^ 153 + n4 * 2 ^ 204)
        (n0 + n1 * 2 ^ 51 + n2 * 2 ^ 102 + n3 % 2 ^ 15 * 2 ^ 153)
        (n3 / 2 ^ 15 + n4 * 2 ^ 36) 168 (by omega) (by omega)]
    omega
  · rw [show (256:Nat) ^ 22 = 2 ^ 176 from by norm_num,
      byte_of_shift (n0 + n1 * 2 ^ 51 + n2 * 2 ^ 102 + n3 * 2 ^ 153 + n4 * 2 ^ 204)
        (n0 + n1 * 2 ^ 51 + n2 * 2 ^ 102 + n3 % 2 ^ 23 * 2 ^ 153)
        (n3 / 2 ^ 23 + n4 * 2 ^ 28) 176 (by omega) (by omega)]
    omega
  · rw [show (256:Nat) ^ 23 = 2 ^ 184 from by norm_num,
      byte_of_shift (n0 + n1 * 2 ^ 51 + n2 * 2 ^ 102 + n3 * 2 ^ 153 + n4 * 2 ^ 204)
        (n0 + n1 * 2 ^ 51 + n2 * 2 ^ 102 + n3 % 2 ^ 31 * 2 ^ 153)
        (n3 / 2 ^ 31 + n4 * 2 ^ 20) 184 (by omega) (by omega)]
    omega
  · rw [show (256:Nat) ^ 24 = 2 ^ 192 from by norm_num,
      byte_of_shift (n0 + n1 * 2 ^ 51 + n2 * 2 ^ 102 + n3 * 2 ^ 153 + n4 * 2 ^ 204)
        (n0 + n1 * 2 ^ 51 + n2 * 2 ^ 102 + n3 % 2 ^ 39 * 2 ^ 153)
        (n3 / 2 ^ 39 + n4 * 2 ^ 12) 192 (by omega) (by omega)]
    omega
  · rw [show (256:Nat) ^ 25 = 2 ^ 200 from by norm_num,
      byte_of_shift (n0 + n1 * 2 ^ 51 + n2 * 2 ^ 102 + n3 * 2 ^ 153 + n4 * 2 ^ 204)
        (n0 + n1 * 2 ^ 51 + n2 * 2 ^ 102 + n3 % 2 ^ 47 * 2 ^ 153)
        (n3 / 2 ^ 47 + n4 * 2 ^ 4) 200 (by omega) (by omega)]
  · rw [show (256:Nat) ^ 26 = 2 ^ 208 from by norm_num,
      byte_of_shift (n0 + n1 * 2 ^ 51 + n2 * 2 ^ 102 + n3 * 2 ^ 153 + n4 * 2 ^ 204)
        (n0 + n1 * 2 ^ 51 + n2 * 2 ^ 102 + n3 * 2 ^ 153 + n4 % 2 ^ 4 * 2 ^ 204)
        (n4 / 2 ^ 4) 208 (by omega) (by omega)]
  · rw [show (256:Nat) ^ 27 = 2 ^ 216 from by norm_num,
      byte_of_shift (n0 + n1 * 2 ^ 51 + n2 * 2 ^ 102 + n3 * 2 ^ 153 + n4 * 2 ^ 204)
        (n0 + n1 * 2 ^ 51 + n2 * 2 ^ 102 + n3 * 2 ^ 153 + n4 % 2 ^ 12 * 2 ^ 204)
        (n4 / 2 ^ 12) 216 (by omega) (by omega)]
  · rw [show (256:Nat) ^ 28 = 2 ^ 224 from by norm_num,
      byte_of_shift (n0 + n1 * 2 ^ 51 + n2 * 2 ^ 102 + n3 * 2 ^ 153 + n4 * 2 ^ 204)
        (n0 + n1 * 2 ^ 51 + n2 * 2 ^ 102 + n3 * 2 ^ 153 + n4 % 2 ^ 20 * 2 ^ 204)
        (n4 / 2 ^ 20) 224 (by omega) (by omega)]
  · rw [show (256:Nat) ^ 29 = 2 ^ 232 from by norm_num,
      byte_of_shift (n0 + n1 * 2 ^ 51 + n2 * 2 ^ 102 + n3 * 2 ^ 153 + n4 * 2 ^ 204)
        (n0 + n1 * 2 ^ 51 + n2 * 2 ^ 102 + n3 * 2 ^ 153 + n4 % 2 ^ 28 * 2 ^ 204)
        (n4 / 2 ^ 28) 232 (by omega) (by omega)]
  · rw [show (256:Nat) ^ 30 = 2 ^ 240 from by norm_num,
      byte_of_shift (n0 + n1 * 2 ^ 51 + n2 * 2 ^ 102 + n3 * 2 ^ 153 + n4 * 2 ^ 204)
        (n0 + n1 * 2 ^ 51 + n2 * 2 ^ 102 + n3 * 2 ^ 153 + n4 % 2 ^ 36 * 2 ^ 204)
        (n4 / 2 ^ 36) 240 (by omega) (by omega)]
  · rw [show (256:Nat) ^ 31 = 2 ^ 248 from by norm_num,
      byte_of_shift (n0 + n1 * 2 ^ 51 + n2 * 2 ^ 102 + n3 * 2 ^ 153 + n4 * 2 ^ 204)
        (n0 + n1 * 2 ^ 51 + n2 * 2 ^ 102 + n3 * 2 ^ 153 + n4 % 2 ^ 44 * 2 ^ 204)
        (n4 / 2 ^ 44) 248 (by omega) (by omega)]

/-- The canonical value computed by `FieldElement.encode`: for limbs below
`2 ^ 52`, the little-endian value of the encoding is `val % p`. -/
theorem encode_val (l0 l1 l2 l3 l4 : Nat)
    (b0 : l0 < 2 ^ 53) (b1 : l1 < 2 ^ 53) (b2 : l2 < 2 ^ 53)
    (b3 : l3 < 2 ^ 53) (b4 : l4 < 2 ^ 53) :
    leVal (FieldElement.encode ⟨l0, l1, l2, l3, l4⟩) =
      FieldElement.val ⟨l0, l1, l2, l3, l4⟩ % pEd := by
  rw [encode_digits l0 l1 l2 l3 l4 b0 b1 b2 b3 b4, leVal_digits,
    Nat.mod_eq_of_lt (lt_of_lt_of_le (Nat.mod_lt _ (by norm_num [pEd]))
      (by norm_num [pEd]))]

/-- Encodings are extensional in the represented value: two field elements
with limbs below `2 ^ 52` and the same value modulo `p` encode identically. -/
theorem encode_ext (l0 l1 l2 l3 l4 m0 m1 m2 m3 m4 : Nat)
    (b0 : l0 < 2 ^ 52) (b1 : l1 < 2 ^ 52) (b2 : l2 < 2 ^ 52)
    (b3 : l3 < 2 ^ 52) (b4 : l4 < 2 ^ 52)
    (c0 : m0 < 2 ^ 52) (c1 : m1 < 2 ^ 52) (c2 : m2 < 2 ^ 52)
    (c3 : m3 < 2 ^ 52) (c4 : m4 < 2 ^ 52)
    (h : FieldElement.val ⟨l0, l1, l2, l3, l4⟩ % pEd =
      FieldElement.val ⟨m0, m1, m2, m3, m4⟩ % pEd) :
    FieldElement.encode ⟨l0, l1, l2, l3, l4⟩ =
      FieldElement.encode ⟨m0, m1, m2, m3, m4⟩ := by
  rw [encode_digits l0 l1 l2 l3 l4 (by omega) (by omega) (by omega) (by omega) (by omega),
    encode_digits m0 m1 m2 m3 m4 (by omega) (by omega) (by omega) (by omega) (by omega), h]

/-- C5: For every field element whose five limbs are below `2 ^ 52` (the range
produced by `reduce`/`mul` outputs), the 32 bytes returned by
`FieldElement.encode`, read as a little-endian integer, equal the canonical
representative `val % p` with `p = 2 ^ 255 - 19`; hence they lie in `[0, p)`,
are below `2 ^ 255` (bit 255 of the output is zero, the last byte is below
128), the output has exactly 32 bytes, and every byte is below 256. -/
theorem C5_encode_canonical (l0 l1 l2 l3 l4 : Nat)
    (b0 : l0 < 2 ^ 52) (b1 : l1 < 2 ^ 52) (b2 : l2 < 2 ^ 52)
    (b3 : l3 < 2 ^ 52) (b4 : l4 < 2 ^ 52) :
    (FieldElement.encode ⟨l0, l1, l2, l3, l4⟩).length = 32 ∧
    leVal (FieldElement.encode ⟨l0, l1, l2, l3, l4⟩) =
      FieldElement.val ⟨l0, l1, l2, l3, l4⟩ % pEd ∧
    leVal (FieldElement.encode ⟨l0, l1, l2, l3, l4⟩) < pEd ∧
    leVal (FieldElement.encode ⟨l0, l1, l2, l3, l4⟩) < 2 ^ 255 ∧
    (∀ b ∈ FieldElement.encode ⟨l0, l1, l2, l3, l4⟩, b < 256) ∧
    (FieldElement.encode ⟨l0, l1, l2, l3, l4⟩).getLastD 0 < 128 := by
  have hv := encode_val l0 l1 l2 l3 l4 (by omega) (by omega) (by omega) (by omega) (by omega)
  have hp : 0 < pEd := by norm_num [pEd]
  have hlt : leVal (FieldElement.encode ⟨l0, l1, l2, l3, l4⟩) < pEd := by
    rw [hv]; exact Nat.mod_lt _ hp
  refine ⟨rfl, hv, hlt, ?_, ?_, ?_⟩
  · have : pEd < 2 ^ 255 := by norm_num [pEd]
    omega
  · intro b hb
    simp only [FieldElement.encode, List.mem_cons, List.not_mem_nil, or_false] at hb
    rcases hb with rfl | rfl | rfl | rfl | rfl | rfl | rfl | rfl | rfl | rfl | rfl | rfl |
      rfl | rfl | rfl | rfl | rfl | rfl | rfl | rfl | rfl | rfl | rfl | rfl | rfl | rfl |
      rfl | rfl | rfl | rfl | rfl | rfl
    all_goals exact Nat.mod_lt _ (by norm_num)
  · simp only [FieldElement.encode, List.getLastD_cons, List.getLastD_nil]
    rw [show Reduce51Mask = 2 ^ 51 - 1 from rfl, Nat.and_pow_two_sub_one_eq_mod,
      Nat.shiftRight_eq_div_pow]
    omega

theorem C5_encode_canonical_witness :
    (FieldElement.encode ⟨1, 2, 3, 4, 5⟩).length = 32 ∧
    leVal (FieldElement.encode ⟨1, 2, 3, 4, 5⟩) =
      FieldElement.val ⟨1, 2, 3, 4, 5⟩ % pEd ∧
    leVal (FieldElement.encode ⟨1, 2, 3, 4, 5⟩) < pEd ∧
    leVal (FieldElement.encode ⟨1, 2, 3, 4, 5⟩) < 2 ^ 255 ∧
    (∀ b ∈ FieldElement.encode ⟨1, 2, 3, 4, 5⟩, b < 256) ∧
    (FieldElement.encode ⟨1, 2, 3, 4, 5⟩).getLastD 0 < 128 :=
  C5_encode_canonical 1 2 3 4 5 (by norm_num) (by norm_num) (by norm_num)
    (by norm_num) (by norm_num)

theorem w64_mod51 (a : Nat) : w64 a % 2 ^ 51 = a % 2 ^ 51 := by
  unfold w64
  exact Nat.mod_mod_of_dvd a ⟨2 ^ 13, by norm_num⟩

theorem w128_mod51 (a : Nat) : w128 a % 2 ^ 51 = a % 2 ^ 51 := by
  unfold w128
  exact Nat.mod_mod_of_dvd a ⟨2 ^ 77, by norm_num⟩

set_option maxHeartbeats 3200000 in
/-- `FieldElement::mul` computes the product modulo `p` and returns limbs
below `2 ^ 52` whenever both inputs have limbs below `2 ^ 52`. -/
theorem mul_spec (f0 f1 f2 f3 f4 g0 g1 g2 g3 g4 : Nat)
    (a0 : f0 < 2 ^ 52) (a1 : f1 < 2 ^ 52) (a2 : f2 < 2 ^ 52)
    (a3 : f3 < 2 ^ 52) (a4 : f4 < 2 ^ 52)
    (c0 : g0 < 2 ^ 52) (c1 : g1 < 2 ^ 52) (c2 : g2 < 2 ^ 52)
    (c3 : g3 < 2 ^ 52) (c4 : g4 < 2 ^ 52) :
    (FieldElement.mul ⟨f0, f1, f2, f3, f4⟩ ⟨g0, g1, g2, g3, g4⟩).val % pEd =
      (FieldElement.val ⟨f0, f1, f2, f3, f4⟩ *
        FieldElement.val ⟨g0, g1, g2, g3, g4⟩) % pEd ∧
    (FieldElement.mul ⟨f0, f1, f2, f3, f4⟩ ⟨g0, g1, g2, g3, g4⟩).l0 < 2 ^ 51 + 1 ∧
    (FieldElement.mul ⟨f0, f1, f2, f3, f4⟩ ⟨g0, g1, g2, g3, g4⟩).l1 < 2 ^ 51 + 1 ∧
    (FieldElement.mul ⟨f0, f1, f2, f3, f4⟩ ⟨g0, g1, g2, g3, g4⟩).l2 < 2 ^ 51 + 1 ∧
    (FieldElement.mul ⟨f0, f1, f2, f3, f4⟩ ⟨g0, g1, g2, g3, g4⟩).l3 < 2 ^ 51 + 1 ∧
    (FieldElement.mul ⟨f0, f1, f2, f3, f4⟩ ⟨g0, g1, g2, g3, g4⟩).l4 < 2 ^ 51 + 1 := by
  have q00 : f0 * g0 ≤ (2 ^ 52 - 1) * (2 ^ 52 - 1) :=
    Nat.mul_le_mul (by omega) (by omega)
  have q01 : f0 * g1 ≤ (2 ^ 52 - 1) * (2 ^ 52 - 1) :=
    Nat.mul_le_mul (by omega) (by omega)
  have q10 : f1 * g0 ≤ (2 ^ 52 - 1) * (2 ^ 52 - 1) :=
    Nat.mul_le_mul (by omega) (by omega)
  have q02 : f0 * g2 ≤ (2 ^ 52 - 1) * (2 ^ 52 - 1) :=
    Nat.mul_le_mul (by omega) (by omega)
  have q11 : f1 * g1 ≤ (2 ^ 52 - 1) * (2 ^ 52 - 1) :=
    Nat.mul_le_mul (by omega) (by omega)
  have q20 : f2 * g0 ≤ (2 ^ 52 - 1) * (2 ^ 52 - 1) :=
    Nat.mul_le_mul (by omega) (by omega)
  have q03 : f0 * g3 ≤ (2 ^ 52 - 1) * (2 ^ 52 - 1) :=
    Nat.mul_le_mul (by omega) (by omega)
  have q12 : f1 * g2 ≤ (2 ^ 52 - 1) * (2 ^ 52 - 1) :=
    Nat.mul_le_mul (by omega) (by omega)
  have q21 : f2 * g1 ≤ (2 ^ 52 - 1) * (2 ^ 52 - 1) :=
    Nat.mul_le_mul (by omega) (by omega)
  have q30 : f3 * g0 ≤ (2 ^ 52 - 1) * (2 ^ 52 - 1) :=
    Nat.mul_le_mul (by omega) (by omega)
  have q04 : f0 * g4 ≤ (2 ^ 52 - 1) * (2 ^ 52 - 1) :=
    Nat.mul_le_mul (by omega) (by omega)
  have q13 : f1 * g3 ≤ (2 ^ 52 - 1) * (2 ^ 52 - 1) :=
    Nat.mul_le_mul (by omega) (by omega)
  have q22 : f2 * g2 ≤ (2 ^ 52 - 1) * (2 ^ 52 - 1) :=
    Nat.mul_le_mul (by omega) (by omega)
  have q31 : f3 * g1 ≤ (2 ^ 52 - 1) * (2 ^ 52 - 1) :=
    Nat.mul_le_mul (by omega) (by omega)
  have q40 : f4 * g0 ≤ (2 ^ 52 - 1) * (2 ^ 52 - 1) :=
    Nat.mul_le_mul (by omega) (by omega)
  have r14 : f1 * (19 * g4) ≤ (2 ^ 52 - 1) * (19 * (2 ^ 52 - 1)) :=
    Nat.mul_le_mul (by omega) (by omega)
  have r23 : f2 * (19 * g3) ≤ (2 ^ 52 - 1) * (19 * (2 ^ 52 - 1)) :=
    Nat.mul_le_mul (by omega) (by omega)
  have r32 : f3 * (19 * g2) ≤ (2 ^ 52 - 1) * (19 * (2 ^ 52 - 1)) :=
    Nat.mul_le_mul (by omega) (by omega)
  have r41 : f4 * (19 * g1) ≤ (2 ^ 52 - 1) * (19 * (2 ^ 52 - 1)) :=
    Nat.mul_le_mul (by omega) (by omega)
  have r24 : f2 * (19 * g4) ≤ (2 ^ 52 - 1) * (19 * (2 ^ 52 - 1)) :=
    Nat.mul_le_mul (by omega) (by omega)
  have r33 : f3 * (19 * g3) ≤ (2 ^ 52 - 1) * (19 * (2 ^ 52 - 1)) :=
    Nat.mul_le_mul (by omega) (by omega)
  have r42 : f4 * (19 * g2) ≤ (2 ^ 52 - 1) * (19 * (2 ^ 52 - 1)) :=
    Nat.mul_le_mul (by omega) (by omega)
  have r34 : f3 * (19 * g4) ≤ (2 ^ 52 - 1) * (19 * (2 ^ 52 - 1)) :=
    Nat.mul_le_mul (by omega) (by omega)
  have r43 : f4 * (19 * g3) ≤ (2 ^ 52 - 1) * (19 * (2 ^ 52 - 1)) :=
    Nat.mul_le_mul (by omega) (by omega)
  have r44 : f4 * (19 * g4) ≤ (2 ^ 52 - 1) * (19 * (2 ^ 52 - 1)) :=
    Nat.mul_le_mul (by omega) (by omega)
  have hMident : f0 * g0 + f1 * (19 * g4) + f2 * (19 * g3) + f3 * (19 * g2) + f4 * (19 * g1) +
      (f0 * g1 + f1 * g0 + f2 * (19 * g4) + f3 * (19 * g3) + f4 * (19 * g2)) * 2 ^ 51 + (f0 * g2 + f1 * g1 + f2 * g0 + f3 * (19 * g4) + f4 * (19 * g3)) * 2 ^ 102 +
      (f0 * g3 + f1 * g2 + f2 * g1 + f3 * g0 + f4 * (19 * g4)) * 2 ^ 153 + (f0 * g4 + f1 * g3 + f2 * g2 + f3 * g1 + f4 * g0) * 2 ^ 204 +
      2 ^ 255 * (f1 * g4 + f2 * g3 + f3 * g2 + f4 * g1 + (f2 * g4 + f3 * g3 + f4 * g2) * 2 ^ 51 + (f3 * g4 + f4 * g3) * 2 ^ 102 + f4 * g4 * 2 ^ 153) =
      (f0 + f1 * 2 ^ 51 + f2 * 2 ^ 102 + f3 * 2 ^ 153 + f4 * 2 ^ 204) * (g0 + g1 * 2 ^ 51 + g2 * 2 ^ 102 + g3 * 2 ^ 153 + g4 * 2 ^ 204) + 19 * (f1 * g4 + f2 * g3 + f3 * g2 + f4 * g1 + (f2 * g4 + f3 * g3 + f4 * g2) * 2 ^ 51 + (f3 * g4 + f4 * g3) * 2 ^ 102 + f4 * g4 * 2 ^ 153) := by
    ring
  simp only [FieldElement.mul, FieldElement.val, m6464, Nat.shiftRight_eq_div_pow,
    and_mask_eq_mod, w64_mod51, w128_mod51]
  rw [show w64 (19 * g1) = 19 * g1 from by unfold w64; omega]
  rw [show w64 (19 * g2) = 19 * g2 from by unfold w64; omega]
  rw [show w64 (19 * g3) = 19 * g3 from by unfold w64; omega]
  rw [show w64 (19 * g4) = 19 * g4 from by unfold w64; omega]
  rw [show w128 (f0 * g0 + f1 * (19 * g4) + f2 * (19 * g3) + f3 * (19 * g2) + f4 * (19 * g1)) = f0 * g0 + f1 * (19 * g4) + f2 * (19 * g3) + f3 * (19 * g2) + f4 * (19 * g1) from by unfold w128; omega]
  rw [show w128 (f0 * g1 + f1 * g0 + f2 * (19 * g4) + f3 * (19 * g3) + f4 * (19 * g2)) = f0 * g1 + f1 * g0 + f2 * (19 * g4) + f3 * (19 * g3) + f4 * (19 * g2) from by unfold w128; omega]
  rw [show w128 (f0 * g2 + f1 * g1 + f2 * g0 + f3 * (19 * g4) + f4 * (19 * g3)) = f0 * g2 + f1 * g1 + f2 * g0 + f3 * (19 * g4) + f4 * (19 * g3) from by unfold w128; omega]
  rw [show w128 (f0 * g3 + f1 * g2 + f2 * g1 + f3 * g0 + f4 * (19 * g4)) = f0 * g3 + f1 * g2 + f2 * g1 + f3 * g0 + f4 * (19 * g4) from by unfold w128; omega]
  rw [show w128 (f0 * g4 + f1 * g3 + f2 * g2 + f3 * g1 + f4 * g0) = f0 * g4 + f1 * g3 + f2 * g2 + f3 * g1 + f4 * g0 from by unfold w128; omega]
  rw [show w64 ((f0 * g0 + f1 * (19 * g4) + f2 * (19 * g3) + f3 * (19 * g2) + f4 * (19 * g1)) / 2 ^ 51) = (f0 * g0 + f1 * (19 * g4) + f2 * (19 * g3) + f3 * (19 * g2) + f4 * (19 * g1)) / 2 ^ 51 from by unfold w64; omega]
  rw [show w128 (f0 * g1 + f1 * g0 + f2 * (19 * g4) + f3 * (19 * g3) + f4 * (19 * g2) + (f0 * g0 + f1 * (19 * g4) + f2 * (19 * g3) + f3 * (19 * g2) + f4 * (19 * g1)) / 2 ^ 51) = f0 * g1 + f1 * g0 + f2 * (19 * g4) + f3 * (19 * g3) + f4 * (19 * g2) + (f0 * g0 + f1 * (19 * g4) + f2 * (19 * g3) + f3 * (19 * g2) + f4 * (19 * g1)) / 2 ^ 51 from by unfold w128; omega]
  rw [show w64 ((f0 * g1 + f1 * g0 + f2 * (19 * g4) + f3 * (19 * g3) + f4 * (19 * g2) + (f0 * g0 + f1 * (19 * g4) + f2 * (19 * g3) + f3 * (19 * g2) + f4 * (19 * g1)) / 2 ^ 51) / 2 ^ 51) = (f0 * g1 + f1 * g0 + f2 * (19 * g4) + f3 * (19 * g3) + f4 * (19 * g2) + (f0 * g0 + f1 * (19 * g4) + f2 * (19 * g3) + f3 * (19 * g2) + f4 * (19 * g1)) / 2 ^ 51) / 2 ^ 51 from by unfold w64; omega]
  rw [show w128 (f0 * g2 + f1 * g1 + f2 * g0 + f3 * (19 * g4) + f4 * (19 * g3) + (f0 * g1 + f1 * g0 + f2 * (19 * g4) + f3 * (19 * g3) + f4 * (19 * g2) + (f0 * g0 + f1 * (19 * g4) + f2 * (19 * g3) + f3 * (19 * g2) + f4 * (19 * g1)) / 2 ^ 51) / 2 ^ 51) = f0 * g2 + f1 * g1 + f2 * g0 + f3 * (19 * g4) + f4 * (19 * g3) + (f0 * g1 + f1 * g0 + f2 * (19 * g4) + f3 * (19 * g3) + f4 * (19 * g2) + (f0 * g0 + f1 * (19 * g4) + f2 * (19 * g3) + f3 * (19 * g2) + f4 * (19 * g1)) / 2 ^ 51) / 2 ^ 51 from by unfold w128; omega]
  rw [show w64 ((f0 * g2 + f1 * g1 + f2 * g0 + f3 * (19 * g4) + f4 * (19 * g3) + (f0 * g1 + f1 * g0 + f2 * (19 * g4) + f3 * (19 * g3) + f4 * (19 * g2) + (f0 * g0 + f1 * (19 * g4) + f2 * (19 * g3) + f3 * (19 * g2) + f4 * (19 * g1)) / 2 ^ 51) / 2 ^ 51) / 2 ^ 51) = (f0 * g2 + f1 * g1 + f2 * g0 + f3 * (19 * g4) + f4 * (19 * g3) + (f0 * g1 + f1 * g0 + f2 * (19 * g4) + f3 * (19 * g3) + f4 * (19 * g2) + (f0 * g0 + f1 * (19 * g4) + f2 * (19 * g3) + f3 * (19 * g2) + f4 * (19 * g1)) / 2 ^ 51) / 2 ^ 51) / 2 ^ 51 from by unfold w64; omega]
  rw [show w128 (f0 * g3 + f1 * g2 + f2 * g1 + f3 * g0 + f4 * (19 * g4) + (f0 * g2 + f1 * g1 + f2 * g0 + f3 * (19 * g4) + f4 * (19 * g3) + (f0 * g1 + f1 * g0 + f2 * (19 * g4) + f3 * (19 * g3) + f4 * (19 * g2) + (f0 * g0 + f1 * (19 * g4) + f2 * (19 * g3) + f3 * (19 * g2) + f4 * (19 * g1)) / 2 ^ 51) / 2 ^ 51) / 2 ^ 51) = f0 * g3 + f1 * g2 + f2 * g1 + f3 * g0 + f4 * (19 * g4) + (f0 * g2 + f1 * g1 + f2 * g0 + f3 * (19 * g4) + f4 * (19 * g3) + (f0 * g1 + f1 * g0 + f2 * (19 * g4) + f3 * (19 * g3) + f4 * (19 * g2) + (f0 * g0 + f1 * (19 * g4) + f2 * (19 * g3) + f3 * (19 * g2) + f4 * (19 * g1)) / 2 ^ 51) / 2 ^ 51) / 2 ^ 51 from by unfold w128; omega]
  rw [show w64 ((f0 * g3 + f1 * g2 + f2 * g1 + f3 * g0 + f4 * (19 * g4) + (f0 * g2 + f1 * g1 + f2 * g0 + f3 * (19 * g4) + f4 * (19 * g3) + (f0 * g1 + f1 * g0 + f2 * (19 * g4) + f3 * (19 * g3) + f4 * (19 * g2) + (f0 * g0 + f1 * (19 * g4) + f2 * (19 * g3) + f3 * (19 * g2) + f4 * (19 * g1)) / 2 ^ 51) / 2 ^ 51) / 2 ^ 51) / 2 ^ 51) = (f0 * g3 + f1 * g2 + f2 * g1 + f3 * g0 + f4 * (19 * g4) + (f0 * g2 + f1 * g1 + f2 * g0 + f3 * (19 * g4) + f4 * (19 * g3) + (f0 * g1 + f1 * g0 + f2 * (19 * g4) + f3 * (19 * g3) + f4 * (19 * g2) + (f0 * g0 + f1 * (19 * g4) + f2 * (19 * g3) + f3 * (19 * g2) + f4 * (19 * g1)) / 2 ^ 51) / 2 ^ 51) / 2 ^ 51) / 2 ^ 51 from by unfold w64; omega]
  rw [show w128 (f0 * g4 + f1 * g3 + f2 * g2 + f3 * g1 + f4 * g0 + (f0 * g3 + f1 * g2 + f2 * g1 + f3 * g0 + f4 * (19 * g4) + (f0 * g2 + f1 * g1 + f2 * g0 + f3 * (19 * g4) + f4 * (19 * g3) + (f0 * g1 + f1 * g0 + f2 * (19 * g4) + f3 * (19 * g3) + f4 * (19 * g2) + (f0 * g0 + f1 * (19 * g4) + f2 * (19 * g3) + f3 * (19 * g2) + f4 * (19 * g1)) / 2 ^ 51) / 2 ^ 51) / 2 ^ 51) / 2 ^ 51) = f0 * g4 + f1 * g3 + f2 * g2 + f3 * g1 + f4 * g0 + (f0 * g3 + f1 * g2 + f2 * g1 + f3 * g0 + f4 * (19 * g4) + (f0 * g2 + f1 * g1 + f2 * g0 + f3 * (19 * g4) + f4 * (19 * g3) + (f0 * g1 + f1 * g0 + f2 * (19 * g4) + f3 * (19 * g3) + f4 * (19 * g2) + (f0 * g0 + f1 * (19 * g4) + f2 * (19 * g3) + f3 * (19 * g2) + f4 * (19 * g1)) / 2 ^ 51) / 2 ^ 51) / 2 ^ 51) / 2 ^ 51 from by unfold w128; omega]
  rw [show w64 ((f0 * g4 + f1 * g3 + f2 * g2 + f3 * g1 + f4 * g0 + (f0 * g3 + f1 * g2 + f2 * g1 + f3 * g0 + f4 * (19 * g4) + (f0 * g2 + f1 * g1 + f2 * g0 + f3 * (19 * g4) + f4 * (19 * g3) + (f0 * g1 + f1 * g0 + f2 * (19 * g4) + f3 * (19 * g3) + f4 * (19 * g2) + (f0 * g0 + f1 * (19 * g4) + f2 * (19 * g3) + f3 * (19 * g2) + f4 * (19 * g1)) / 2 ^ 51) / 2 ^ 51) / 2 ^ 51) / 2 ^ 51) / 2 ^ 51) = (f0 * g4 + f1 * g3 + f2 * g2 + f3 * g1 + f4 * g0 + (f0 * g3 + f1 * g2 + f2 * g1 + f3 * g0 + f4 * (19 * g4) + (f0 * g2 + f1 * g1 + f2 * g0 + f3 * (19 * g4) + f4 * (19 * g3) + (f0 * g1 + f1 * g0 + f2 * (19 * g4) + f3 * (19 * g3) + f4 * (19 * g2) + (f0 * g0 + f1 * (19 * g4) + f2 * (19 * g3) + f3 * (19 * g2) + f4 * (19 * g1)) / 2 ^ 51) / 2 ^ 51) / 2 ^ 51) / 2 ^ 51) / 2 ^ 51 from by unfold w64; omega]
  rw [show w64 ((f0 * g4 + f1 * g3 + f2 * g2 + f3 * g1 + f4 * g0 + (f0 * g3 + f1 * g2 + f2 * g1 + f3 * g0 + f4 * (19 * g4) + (f0 * g2 + f1 * g1 + f2 * g0 + f3 * (19 * g4) + f4 * (19 * g3) + (f0 * g1 + f1 * g0 + f2 * (19 * g4) + f3 * (19 * g3) + f4 * (19 * g2) + (f0 * g0 + f1 * (19 * g4) + f2 * (19 * g3) + f3 * (19 * g2) + f4 * (19 * g1)) / 2 ^ 51) / 2 ^ 51) / 2 ^ 51) / 2 ^ 51) / 2 ^ 51 * 19) = (f0 * g4 + f1 * g3 + f2 * g2 + f3 * g1 + f4 * g0 + (f0 * g3 + f1 * g2 + f2 * g1 + f3 * g0 + f4 * (19 * g4) + (f0 * g2 + f1 * g1 + f2 * g0 + f3 * (19 * g4) + f4 * (19 * g3) + (f0 * g1 + f1 * g0 + f2 * (19 * g4) + f3 * (19 * g3) + f4 * (19 * g2) + (f0 * g0 + f1 * (19 * g4) + f2 * (19 * g3) + f3 * (19 * g2) + f4 * (19 * g1)) / 2 ^ 51) / 2 ^ 51) / 2 ^ 51) / 2 ^ 51) / 2 ^ 51 * 19 from by unfold w64; omega]
  rw [show w64 ((f0 * g0 + f1 * (19 * g4) + f2 * (19 * g3) + f3 * (19 * g2) + f4 * (19 * g1)) % 2 ^ 51 + (f0 * g4 + f1 * g3 + f2 * g2 + f3 * g1 + f4 * g0 + (f0 * g3 + f1 * g2 + f2 * g1 + f3 * g0 + f4 * (19 * g4) + (f0 * g2 + f1 * g1 + f2 * g0 + f3 * (19 * g4) + f4 * (19 * g3) + (f0 * g1 + f1 * g0 + f2 * (19 * g4) + f3 * (19 * g3) + f4 * (19 * g2) + (f0 * g0 + f1 * (19 * g4) + f2 * (19 * g3) + f3 * (19 * g2) + f4 * (19 * g1)) / 2 ^ 51) / 2 ^ 51) / 2 ^ 51) / 2 ^ 51) / 2 ^ 51 * 19) = (f0 * g0 + f1 * (19 * g4) + f2 * (19 * g3) + f3 * (19 * g2) + f4 * (19 * g1)) % 2 ^ 51 + (f0 * g4 + f1 * g3 + f2 * g2 + f3 * g1 + f4 * g0 + (f0 * g3 + f1 * g2 + f2 * g1 + f3 * g0 + f4 * (19 * g4) + (f0 * g2 + f1 * g1 + f2 * g0 + f3 * (19 * g4) + f4 * (19 * g3) + (f0 * g1 + f1 * g0 + f2 * (19 * g4) + f3 * (19 * g3) + f4 * (19 * g2) + (f0 * g0 + f1 * (19 * g4) + f2 * (19 * g3) + f3 * (19 * g2) + f4 * (19 * g1)) / 2 ^ 51) / 2 ^ 51) / 2 ^ 51) / 2 ^ 51) / 2 ^ 51 * 19 from by unfold w64; omega]
  rw [show w64 ((f0 * g1 + f1 * g0 + f2 * (19 * g4) + f3 * (19 * g3) + f4 * (19 * g2) + (f0 * g0 + f1 * (19 * g4) + f2 * (19 * g3) + f3 * (19 * g2) + f4 * (19 * g1)) / 2 ^ 51) % 2 ^ 51 + ((f0 * g0 + f1 * (19 * g4) + f2 * (19 * g3) + f3 * (19 * g2) + f4 * (19 * g1)) % 2 ^ 51 + (f0 * g4 + f1 * g3 + f2 * g2 + f3 * g1 + f4 * g0 + (f0 * g3 + f1 * g2 + f2 * g1 + f3 * g0 + f4 * (19 * g4) + (f0 * g2 + f1 * g1 + f2 * g0 + f3 * (19 * g4) + f4 * (19 * g3) + (f0 * g1 + f1 * g0 + f2 * (19 * g4) + f3 * (19 * g3) + f4 * (19 * g2) + (f0 * g0 + f1 * (19 * g4) + f2 * (19 * g3) + f3 * (19 * g2) + f4 * (19 * g1)) / 2 ^ 51) / 2 ^ 51) / 2 ^ 51) / 2 ^ 51) / 2 ^ 51 * 19) / 2 ^ 51) = (f0 * g1 + f1 * g0 + f2 * (19 * g4) + f3 * (19 * g3) + f4 * (19 * g2) + (f0 * g0 + f1 * (19 * g4) + f2 * (19 * g3) + f3 * (19 * g2) + f4 * (19 * g1)) / 2 ^ 51) % 2 ^ 51 + ((f0 * g0 + f1 * (19 * g4) + f2 * (19 * g3) + f3 * (19 * g2) + f4 * (19 * g1)) % 2 ^ 51 + (f0 * g4 + f1 * g3 + f2 * g2 + f3 * g1 + f4 * g0 + (f0 * g3 + f1 * g2 + f2 * g1 + f3 * g0 + f4 * (19 * g4) + (f0 * g2 + f1 * g1 + f2 * g0 + f3 * (19 * g4) + f4 * (19 * g3) + (f0 * g1 + f1 * g0 + f2 * (19 * g4) + f3 * (19 * g3) + f4 * (19 * g2) + (f0 * g0 + f1 * (19 * g4) + f2 * (19 * g3) + f3 * (19 * g2) + f4 * (19 * g1)) / 2 ^ 51) / 2 ^ 51) / 2 ^ 51) / 2 ^ 51) / 2 ^ 51 * 19) / 2 ^ 51 from by unfold w64; omega]
  rw [show w64 ((f0 * g2 + f1 * g1 + f2 * g0 + f3 * (19 * g4) + f4 * (19 * g3) + (f0 * g1 + f1 * g0 + f2 * (19 * g4) + f3 * (19 * g3) + f4 * (19 * g2) + (f0 * g0 + f1 * (19 * g4) + f2 * (19 * g3) + f3 * (19 * g2) + f4 * (19 * g1)) / 2 ^ 51) / 2 ^ 51) % 2 ^ 51 + ((f0 * g1 + f1 * g0 + f2 * (19 * g4) + f3 * (19 * g3) + f4 * (19 * g2) + (f0 * g0 + f1 * (19 * g4) + f2 * (19 * g3) + f3 * (19 * g2) + f4 * (19 * g1)) / 2 ^ 51) % 2 ^ 51 + ((f0 * g0 + f1 * (19 * g4) + f2 * (19 * g3) + f3 * (19 * g2) + f4 * (19 * g1)) % 2 ^ 51 + (f0 * g4 + f1 * g3 + f2 * g2 + f3 * g1 + f4 * g0 + (f0 * g3 + f1 * g2 + f2 * g1 + f3 * g0 + f4 * (19 * g4) + (f0 * g2 + f1 * g1 + f2 * g0 + f3 * (19 * g4) + f4 * (19 * g3) + (f0 * g1 + f1 * g0 + f2 * (19 * g4) + f3 * (19 * g3) + f4 * (19 * g2) + (f0 * g0 + f1 * (19 * g4) + f2 * (19 * g3) + f3 * (19 * g2) + f4 * (19 * g1)) / 2 ^ 51) / 2 ^ 51) / 2 ^ 51) / 2 ^ 51) / 2 ^ 51 * 19) / 2 ^ 51) / 2 ^ 51) = (f0 * g2 + f1 * g1 + f2 * g0 + f3 * (19 * g4) + f4 * (19 * g3) + (f0 * g1 + f1 * g0 + f2 * (19 * g4) + f3 * (19 * g3) + f4 * (19 * g2) + (f0 * g0 + f1 * (19 * g4) + f2 * (19 * g3) + f3 * (19 * g2) + f4 * (19 * g1)) / 2 ^ 51) / 2 ^ 51) % 2 ^ 51 + ((f0 * g1 + f1 * g0 + f2 * (19 * g4) + f3 * (19 * g3) + f4 * (19 * g2) + (f0 * g0 + f1 * (19 * g4) + f2 * (19 * g3) + f3 * (19 * g2) + f4 * (19 * g1)) / 2 ^ 51) % 2 ^ 51 + ((f0 * g0 + f1 * (19 * g4) + f2 * (19 * g3) + f3 * (19 * g2) + f4 * (19 * g1)) % 2 ^ 51 + (f0 * g4 + f1 * g3 + f2 * g2 + f3 * g1 + f4 * g0 + (f0 * g3 + f1 * g2 + f2 * g1 + f3 * g0 + f4 * (19 * g4) + (f0 * g2 + f1 * g1 + f2 * g0 + f3 * (19 * g4) + f4 * (19 * g3) + (f0 * g1 + f1 * g0 + f2 * (19 * g4) + f3 * (19 * g3) + f4 * (19 * g2) + (f0 * g0 + f1 * (19 * g4) + f2 * (19 * g3) + f3 * (19 * g2) + f4 * (19 * g1)) / 2 ^ 51) / 2 ^ 51) / 2 ^ 51) / 2 ^ 51) / 2 ^ 51 * 19) / 2 ^ 51) / 2 ^ 51 from by unfold w64; omega]
  generalize hS0 : f0 * g0 + f1 * (19 * g4) + f2 * (19 * g3) + f3 * (19 * g2) + f4 * (19 * g1) = H0 at *
  generalize hS1 : f0 * g1 + f1 * g0 + f2 * (19 * g4) + f3 * (19 * g3) + f4 * (19 * g2) = H1 at *
  generalize hS2 : f0 * g2 + f1 * g1 + f2 * g0 + f3 * (19 * g4) + f4 * (19 * g3) = H2 at *
  generalize hS3 : f0 * g3 + f1 * g2 + f2 * g1 + f3 * g0 + f4 * (19 * g4) = H3 at *
  generalize hS4 : f0 * g4 + f1 * g3 + f2 * g2 + f3 * g1 + f4 * g0 = H4 at *
  generalize hP : (f0 + f1 * 2 ^ 51 + f2 * 2 ^ 102 + f3 * 2 ^ 153 + f4 * 2 ^ 204) * (g0 + g1 * 2 ^ 51 + g2 * 2 ^ 102 + g3 * 2 ^ 153 + g4 * 2 ^ 204) = P at *
  have d0 := Nat.div_add_mod H0 (2 ^ 51)
  have d1 := Nat.div_add_mod (H1 + H0 / 2 ^ 51) (2 ^ 51)
  have d2 := Nat.div_add_mod (H2 + (H1 + H0 / 2 ^ 51) / 2 ^ 51) (2 ^ 51)
  have d3 := Nat.div_add_mod (H3 + (H2 + (H1 + H0 / 2 ^ 51) / 2 ^ 51) / 2 ^ 51) (2 ^ 51)
  have d4 := Nat.div_add_mod (H4 + (H3 + (H2 + (H1 + H0 / 2 ^ 51) / 2 ^ 51) / 2 ^ 51) / 2 ^ 51) (2 ^ 51)
  have e0 := Nat.div_add_mod (H0 % 2 ^ 51 + (H4 + (H3 + (H2 + (H1 + H0 / 2 ^ 51) / 2 ^ 51) / 2 ^ 51) / 2 ^ 51) / 2 ^ 51 * 19) (2 ^ 51)
  have e1 := Nat.div_add_mod ((H1 + H0 / 2 ^ 51) % 2 ^ 51 + (H0 % 2 ^ 51 + (H4 + (H3 + (H2 + (H1 + H0 / 2 ^ 51) / 2 ^ 51) / 2 ^ 51) / 2 ^ 51) / 2 ^ 51 * 19) / 2 ^ 51) (2 ^ 51)
  refine ⟨?_, ?_, ?_, ?_, ?_, ?_⟩
  · have hTot : (H0 % 2 ^ 51 + (H4 + (H3 + (H2 + (H1 + H0 / 2 ^ 51) / 2 ^ 51) / 2 ^ 51) / 2 ^ 51) / 2 ^ 51 * 19) % 2 ^ 51 + ((H1 + H0 / 2 ^ 51) % 2 ^ 51 + (H0 % 2 ^ 51 + (H4 + (H3 + (H2 + (H1 + H0 / 2 ^ 51) / 2 ^ 51) / 2 ^ 51) / 2 ^ 51) / 2 ^ 51 * 19) / 2 ^ 51) % 2 ^ 51 * 2 ^ 51 + ((H2 + (H1 + H0 / 2 ^ 51) / 2 ^ 51) % 2 ^ 51 + ((H1 + H0 / 2 ^ 51) % 2 ^ 51 + (H0 % 2 ^ 51 + (H4 + (H3 + (H2 + (H1 + H0 / 2 ^ 51) / 2 ^ 51) / 2 ^ 51) / 2 ^ 51) / 2 ^ 51 * 19) / 2 ^ 51) / 2 ^ 51) * 2 ^ 102 + (H3 + (H2 + (H1 + H0 / 2 ^ 51) / 2 ^ 51) / 2 ^ 51) % 2 ^ 51 * 2 ^ 153 + (H4 + (H3 + (H2 + (H1 + H0 / 2 ^ 51) / 2 ^ 51) / 2 ^ 51) / 2 ^ 51) % 2 ^ 51 * 2 ^ 204 +
        2 ^ 255 * (f1 * g4 + f2 * g3 + f3 * g2 + f4 * g1 + (f2 * g4 + f3 * g3 + f4 * g2) * 2 ^ 51 + (f3 * g4 + f4 * g3) * 2 ^ 102 + f4 * g4 * 2 ^ 153 + (H4 + (H3 + (H2 + (H1 + H0 / 2 ^ 51) / 2 ^ 51) / 2 ^ 51) / 2 ^ 51) / 2 ^ 51) = P + 19 * (f1 * g4 + f2 * g3 + f3 * g2 + f4 * g1 + (f2 * g4 + f3 * g3 + f4 * g2) * 2 ^ 51 + (f3 * g4 + f4 * g3) * 2 ^ 102 + f4 * g4 * 2 ^ 153 + (H4 + (H3 + (H2 + (H1 + H0 / 2 ^ 51) / 2 ^ 51) / 2 ^ 51) / 2 ^ 51) / 2 ^ 51) := by
      zify at d0 d1 d2 d3 d4 e0 e1 hMident ⊢
      linear_combination hMident + d0 + 2 ^ 51 * d1 + 2 ^ 102 * d2 +
        2 ^ 153 * d3 + 2 ^ 204 * d4 + e0 + 2 ^ 51 * e1
    have hTot2 : (H0 % 2 ^ 51 + (H4 + (H3 + (H2 + (H1 + H0 / 2 ^ 51) / 2 ^ 51) / 2 ^ 51) / 2 ^ 51) / 2 ^ 51 * 19) % 2 ^ 51 + ((H1 + H0 / 2 ^ 51) % 2 ^ 51 + (H0 % 2 ^ 51 + (H4 + (H3 + (H2 + (H1 + H0 / 2 ^ 51) / 2 ^ 51) / 2 ^ 51) / 2 ^ 51) / 2 ^ 51 * 19) / 2 ^ 51) % 2 ^ 51 * 2 ^ 51 + ((H2 + (H1 + H0 / 2 ^ 51) / 2 ^ 51) % 2 ^ 51 + ((H1 + H0 / 2 ^ 51) % 2 ^ 51 + (H0 % 2 ^ 51 + (H4 + (H3 + (H2 + (H1 + H0 / 2 ^ 51) / 2 ^ 51) / 2 ^ 51) / 2 ^ 51) / 2 ^ 51 * 19) / 2 ^ 51) / 2 ^ 51) * 2 ^ 102 + (H3 + (H2 + (H1 + H0 / 2 ^ 51) / 2 ^ 51) / 2 ^ 51) % 2 ^ 51 * 2 ^ 153 + (H4 + (H3 + (H2 + (H1 + H0 / 2 ^ 51) / 2 ^ 51) / 2 ^ 51) / 2 ^ 51) % 2 ^ 51 * 2 ^ 204 +
        pEd * (f1 * g4 + f2 * g3 + f3 * g2 + f4 * g1 + (f2 * g4 + f3 * g3 + f4 * g2) * 2 ^ 51 + (f3 * g4 + f4 * g3) * 2 ^ 102 + f4 * g4 * 2 ^ 153 + (H4 + (H3 + (H2 + (H1 + H0 / 2 ^ 51) / 2 ^ 51) / 2 ^ 51) / 2 ^ 51) / 2 ^ 51) = P := by
      simp only [pEd]; omega
    rw [← hTot2, Nat.add_mul_mod_self_left]
  · omega
  · omega
  · omega
  · omega
  · omega

set_option maxHeartbeats 3200000 in
/-- One step of `FieldElement::square_times` squares the value modulo `p` and
returns limbs below `2 ^ 52` whenever the input has limbs below `2 ^ 52`. -/
theorem squareStep_spec (f0 f1 f2 f3 f4 : Nat)
    (a0 : f0 < 2 ^ 52) (a1 : f1 < 2 ^ 52) (a2 : f2 < 2 ^ 52)
    (a3 : f3 < 2 ^ 52) (a4 : f4 < 2 ^ 52) :
    (FieldElement.squareStep ⟨f0, f1, f2, f3, f4⟩).val % pEd =
      (FieldElement.val ⟨f0, f1, f2, f3, f4⟩ *
        FieldElement.val ⟨f0, f1, f2, f3, f4⟩) % pEd ∧
    (FieldElement.squareStep ⟨f0, f1, f2, f3, f4⟩).l0 < 2 ^ 51 + 1 ∧
    (FieldElement.squareStep ⟨f0, f1, f2, f3, f4⟩).l1 < 2 ^ 51 + 1 ∧
    (FieldElement.squareStep ⟨f0, f1, f2, f3, f4⟩).l2 < 2 ^ 51 + 1 ∧
    (FieldElement.squareStep ⟨f0, f1, f2, f3, f4⟩).l3 < 2 ^ 51 + 1 ∧
    (FieldElement.squareStep ⟨f0, f1, f2, f3, f4⟩).l4 < 2 ^ 51 + 1 := by
  have q0 : f0 * f0 ≤ (2 ^ 52 - 1) * (2 ^ 52 - 1) :=
    Nat.mul_le_mul (by omega) (by omega)
  have q1 : f0 * f1 ≤ (2 ^ 52 - 1) * (2 ^ 52 - 1) :=
    Nat.mul_le_mul (by omega) (by omega)
  have q2 : f1 * f1 ≤ (2 ^ 52 - 1) * (2 ^ 52 - 1) :=
    Nat.mul_le_mul (by omega) (by omega)
  have q3 : f0 * f2 ≤ (2 ^ 52 - 1) * (2 ^ 52 - 1) :=
    Nat.mul_le_mul (by omega) (by omega)
  have q4 : f0 * f3 ≤ (2 ^ 52 - 1) * (2 ^ 52 - 1) :=
    Nat.mul_le_mul (by omega) (by omega)
  have q5 : f1 * f2 ≤ (2 ^ 52 - 1) * (2 ^ 52 - 1) :=
    Nat.mul_le_mul (by omega) (by omega)
  have q6 : f2 * f2 ≤ (2 ^ 52 - 1) * (2 ^ 52 - 1) :=
    Nat.mul_le_mul (by omega) (by omega)
  have q7 : f0 * f4 ≤ (2 ^ 52 - 1) * (2 ^ 52 - 1) :=
    Nat.mul_le_mul (by omega) (by omega)
  have q8 : f1 * f3 ≤ (2 ^ 52 - 1) * (2 ^ 52 - 1) :=
    Nat.mul_le_mul (by omega) (by omega)
  have r0 : f1 * (19 * f4) ≤ (2 ^ 52 - 1) * (19 * (2 ^ 52 - 1)) :=
    Nat.mul_le_mul (by omega) (by omega)
  have r1 : f2 * (19 * f3) ≤ (2 ^ 52 - 1) * (19 * (2 ^ 52 - 1)) :=
    Nat.mul_le_mul (by omega) (by omega)
  have r2 : f3 * (19 * f3) ≤ (2 ^ 52 - 1) * (19 * (2 ^ 52 - 1)) :=
    Nat.mul_le_mul (by omega) (by omega)
  have r3 : f2 * (19 * f4) ≤ (2 ^ 52 - 1) * (19 * (2 ^ 52 - 1)) :=
    Nat.mul_le_mul (by omega) (by omega)
  have r4 : f4 * (19 * f3) ≤ (2 ^ 52 - 1) * (19 * (2 ^ 52 - 1)) :=
    Nat.mul_le_mul (by omega) (by omega)
  have r5 : f4 * (19 * f4) ≤ (2 ^ 52 - 1) * (19 * (2 ^ 52 - 1)) :=
    Nat.mul_le_mul (by omega) (by omega)
  have hMident : f0 * f0 + 2 * (f1 * (19 * f4) + f2 * (19 * f3)) +
      (f3 * (19 * f3) + 2 * (f0 * f1 + f2 * (19 * f4))) * 2 ^ 51 + (f1 * f1 + 2 * (f0 * f2 + f4 * (19 * f3))) * 2 ^ 102 +
      (f4 * (19 * f4) + 2 * (f0 * f3 + f1 * f2)) * 2 ^ 153 + (f2 * f2 + 2 * (f0 * f4 + f1 * f3)) * 2 ^ 204 +
      2 ^ 255 * (2 * (f1 * f4) + 2 * (f2 * f3) + (2 * (f2 * f4) + f3 * f3) * 2 ^ 51 + 2 * (f3 * f4) * 2 ^ 102 + f4 * f4 * 2 ^ 153) =
      (f0 + f1 * 2 ^ 51 + f2 * 2 ^ 102 + f3 * 2 ^ 153 + f4 * 2 ^ 204) * (f0 + f1 * 2 ^ 51 + f2 * 2 ^ 102 + f3 * 2 ^ 153 + f4 * 2 ^ 204) + 19 * (2 * (f1 * f4) + 2 * (f2 * f3) + (2 * (f2 * f4) + f3 * f3) * 2 ^ 51 + 2 * (f3 * f4) * 2 ^ 102 + f4 * f4 * 2 ^ 153) := by
    ring
  simp only [FieldElement.squareStep, FieldElement.val, m6464,
    Nat.shiftRight_eq_div_pow, and_mask_eq_mod, w64_mod51, w128_mod51]
  rw [show w64 (19 * f3) = 19 * f3 from by unfold w64; omega]
  rw [show w64 (19 * f4) = 19 * f4 from by unfold w64; omega]
  rw [show w128 (f0 * f0 + 2 * (f1 * (19 * f4) + f2 * (19 * f3))) = f0 * f0 + 2 * (f1 * (19 * f4) + f2 * (19 * f3)) from by unfold w128; omega]
  rw [show w128 (f3 * (19 * f3) + 2 * (f0 * f1 + f2 * (19 * f4))) = f3 * (19 * f3) + 2 * (f0 * f1 + f2 * (19 * f4)) from by unfold w128; omega]
  rw [show w128 (f1 * f1 + 2 * (f0 * f2 + f4 * (19 * f3))) = f1 * f1 + 2 * (f0 * f2 + f4 * (19 * f3)) from by unfold w128; omega]
  rw [show w128 (f4 * (19 * f4) + 2 * (f0 * f3 + f1 * f2)) = f4 * (19 * f4) + 2 * (f0 * f3 + f1 * f2) from by unfold w128; omega]
  rw [show w128 (f2 * f2 + 2 * (f0 * f4 + f1 * f3)) = f2 * f2 + 2 * (f0 * f4 + f1 * f3) from by unfold w128; omega]
  rw [show w64 ((f0 * f0 + 2 * (f1 * (19 * f4) + f2 * (19 * f3))) / 2 ^ 51) = (f0 * f0 + 2 * (f1 * (19 * f4) + f2 * (19 * f3))) / 2 ^ 51 from by unfold w64; omega]
  rw [show w128 (f3 * (19 * f3) + 2 * (f0 * f1 + f2 * (19 * f4)) + (f0 * f0 + 2 * (f1 * (19 * f4) + f2 * (19 * f3))) / 2 ^ 51) = f3 * (19 * f3) + 2 * (f0 * f1 + f2 * (19 * f4)) + (f0 * f0 + 2 * (f1 * (19 * f4) + f2 * (19 * f3))) / 2 ^ 51 from by unfold w128; omega]
  rw [show w64 ((f3 * (19 * f3) + 2 * (f0 * f1 + f2 * (19 * f4)) + (f0 * f0 + 2 * (f1 * (19 * f4) + f2 * (19 * f3))) / 2 ^ 51) / 2 ^ 51) = (f3 * (19 * f3) + 2 * (f0 * f1 + f2 * (19 * f4)) + (f0 * f0 + 2 * (f1 * (19 * f4) + f2 * (19 * f3))) / 2 ^ 51) / 2 ^ 51 from by unfold w64; omega]
  rw [show w128 (f1 * f1 + 2 * (f0 * f2 + f4 * (19 * f3)) + (f3 * (19 * f3) + 2 * (f0 * f1 + f2 * (19 * f4)) + (f0 * f0 + 2 * (f1 * (19 * f4) + f2 * (19 * f3))) / 2 ^ 51) / 2 ^ 51) = f1 * f1 + 2 * (f0 * f2 + f4 * (19 * f3)) + (f3 * (19 * f3) + 2 * (f0 * f1 + f2 * (19 * f4)) + (f0 * f0 + 2 * (f1 * (19 * f4) + f2 * (19 * f3))) / 2 ^ 51) / 2 ^ 51 from by unfold w128; omega]
  rw [show w64 ((f1 * f1 + 2 * (f0 * f2 + f4 * (19 * f3)) + (f3 * (19 * f3) + 2 * (f0 * f1 + f2 * (19 * f4)) + (f0 * f0 + 2 * (f1 * (19 * f4) + f2 * (19 * f3))) / 2 ^ 51) / 2 ^ 51) / 2 ^ 51) = (f1 * f1 + 2 * (f0 * f2 + f4 * (19 * f3)) + (f3 * (19 * f3) + 2 * (f0 * f1 + f2 * (19 * f4)) + (f0 * f0 + 2 * (f1 * (19 * f4) + f2 * (19 * f3))) / 2 ^ 51) / 2 ^ 51) / 2 ^ 51 from by unfold w64; omega]
  rw [show w128 (f4 * (19 * f4) + 2 * (f0 * f3 + f1 * f2) + (f1 * f1 + 2 * (f0 * f2 + f4 * (19 * f3)) + (f3 * (19 * f3) + 2 * (f0 * f1 + f2 * (19 * f4)) + (f0 * f0 + 2 * (f1 * (19 * f4) + f2 * (19 * f3))) / 2 ^ 51) / 2 ^ 51) / 2 ^ 51) = f4 * (19 * f4) + 2 * (f0 * f3 + f1 * f2) + (f1 * f1 + 2 * (f0 * f2 + f4 * (19 * f3)) + (f3 * (19 * f3) + 2 * (f0 * f1 + f2 * (19 * f4)) + (f0 * f0 + 2 * (f1 * (19 * f4) + f2 * (19 * f3))) / 2 ^ 51) / 2 ^ 51) / 2 ^ 51 from by unfold w128; omega]
  rw [show w64 ((f4 * (19 * f4) + 2 * (f0 * f3 + f1 * f2) + (f1 * f1 + 2 * (f0 * f2 + f4 * (19 * f3)) + (f3 * (19 * f3) + 2 * (f0 * f1 + f2 * (19 * f4)) + (f0 * f0 + 2 * (f1 * (19 * f4) + f2 * (19 * f3))) / 2 ^ 51) / 2 ^ 51) / 2 ^ 51) / 2 ^ 51) = (f4 * (19 * f4) + 2 * (f0 * f3 + f1 * f2) + (f1 * f1 + 2 * (f0 * f2 + f4 * (19 * f3)) + (f3 * (19 * f3) + 2 * (f0 * f1 + f2 * (19 * f4)) + (f0 * f0 + 2 * (f1 * (19 * f4) + f2 * (19 * f3))) / 2 ^ 51) / 2 ^ 51) / 2 ^ 51) / 2 ^ 51 from by unfold w64; omega]
  rw [show w128 (f2 * f2 + 2 * (f0 * f4 + f1 * f3) + (f4 * (19 * f4) + 2 * (f0 * f3 + f1 * f2) + (f1 * f1 + 2 * (f0 * f2 + f4 * (19 * f3)) + (f3 * (19 * f3) + 2 * (f0 * f1 + f2 * (19 * f4)) + (f0 * f0 + 2 * (f1 * (19 * f4) + f2 * (19 * f3))) / 2 ^ 51) / 2 ^ 51) / 2 ^ 51) / 2 ^ 51) = f2 * f2 + 2 * (f0 * f4 + f1 * f3) + (f4 * (19 * f4) + 2 * (f0 * f3 + f1 * f2) + (f1 * f1 + 2 * (f0 * f2 + f4 * (19 * f3)) + (f3 * (19 * f3) + 2 * (f0 * f1 + f2 * (19 * f4)) + (f0 * f0 + 2 * (f1 * (19 * f4) + f2 * (19 * f3))) / 2 ^ 51) / 2 ^ 51) / 2 ^ 51) / 2 ^ 51 from by unfold w128; omega]
  rw [show w64 ((f2 * f2 + 2 * (f0 * f4 + f1 * f3) + (f4 * (19 * f4) + 2 * (f0 * f3 + f1 * f2) + (f1 * f1 + 2 * (f0 * f2 + f4 * (19 * f3)) + (f3 * (19 * f3) + 2 * (f0 * f1 + f2 * (19 * f4)) + (f0 * f0 + 2 * (f1 * (19 * f4) + f2 * (19 * f3))) / 2 ^ 51) / 2 ^ 51) / 2 ^ 51) / 2 ^ 51) / 2 ^ 51) = (f2 * f2 + 2 * (f0 * f4 + f1 * f3) + (f4 * (19 * f4) + 2 * (f0 * f3 + f1 * f2) + (f1 * f1 + 2 * (f0 * f2 + f4 * (19 * f3)) + (f3 * (19 * f3) + 2 * (f0 * f1 + f2 * (19 * f4)) + (f0 * f0 + 2 * (f1 * (19 * f4) + f2 * (19 * f3))) / 2 ^ 51) / 2 ^ 51) / 2 ^ 51) / 2 ^ 51) / 2 ^ 51 from by unfold w64; omega]
  rw [show w64 ((f2 * f2 + 2 * (f0 * f4 + f1 * f3) + (f4 * (19 * f4) + 2 * (f0 * f3 + f1 * f2) + (f1 * f1 + 2 * (f0 * f2 + f4 * (19 * f3)) + (f3 * (19 * f3) + 2 * (f0 * f1 + f2 * (19 * f4)) + (f0 * f0 + 2 * (f1 * (19 * f4) + f2 * (19 * f3))) / 2 ^ 51) / 2 ^ 51) / 2 ^ 51) / 2 ^ 51) / 2 ^ 51 * 19) = (f2 * f2 + 2 * (f0 * f4 + f1 * f3) + (f4 * (19 * f4) + 2 * (f0 * f3 + f1 * f2) + (f1 * f1 + 2 * (f0 * f2 + f4 * (19 * f3)) + (f3 * (19 * f3) + 2 * (f0 * f1 + f2 * (19 * f4)) + (f0 * f0 + 2 * (f1 * (19 * f4) + f2 * (19 * f3))) / 2 ^ 51) / 2 ^ 51) / 2 ^ 51) / 2 ^ 51) / 2 ^ 51 * 19 from by unfold w64; omega]
  rw [show w64 ((f0 * f0 + 2 * (f1 * (19 * f4) + f2 * (19 * f3))) % 2 ^ 51 + (f2 * f2 + 2 * (f0 * f4 + f1 * f3) + (f4 * (19 * f4) + 2 * (f0 * f3 + f1 * f2) + (f1 * f1 + 2 * (f0 * f2 + f4 * (19 * f3)) + (f3 * (19 * f3) + 2 * (f0 * f1 + f2 * (19 * f4)) + (f0 * f0 + 2 * (f1 * (19 * f4) + f2 * (19 * f3))) / 2 ^ 51) / 2 ^ 51) / 2 ^ 51) / 2 ^ 51) / 2 ^ 51 * 19) = (f0 * f0 + 2 * (f1 * (19 * f4) + f2 * (19 * f3))) % 2 ^ 51 + (f2 * f2 + 2 * (f0 * f4 + f1 * f3) + (f4 * (19 * f4) + 2 * (f0 * f3 + f1 * f2) + (f1 * f1 + 2 * (f0 * f2 + f4 * (19 * f3)) + (f3 * (19 * f3) + 2 * (f0 * f1 + f2 * (19 * f4)) + (f0 * f0 + 2 * (f1 * (19 * f4) + f2 * (19 * f3))) / 2 ^ 51) / 2 ^ 51) / 2 ^ 51) / 2 ^ 51) / 2 ^ 51 * 19 from by unfold w64; omega]
  rw [show w64 ((f3 * (19 * f3) + 2 * (f0 * f1 + f2 * (19 * f4)) + (f0 * f0 + 2 * (f1 * (19 * f4) + f2 * (19 * f3))) / 2 ^ 51) % 2 ^ 51 + ((f0 * f0 + 2 * (f1 * (19 * f4) + f2 * (19 * f3))) % 2 ^ 51 + (f2 * f2 + 2 * (f0 * f4 + f1 * f3) + (f4 * (19 * f4) + 2 * (f0 * f3 + f1 * f2) + (f1 * f1 + 2 * (f0 * f2 + f4 * (19 * f3)) + (f3 * (19 * f3) + 2 * (f0 * f1 + f2 * (19 * f4)) + (f0 * f0 + 2 * (f1 * (19 * f4) + f2 * (19 * f3))) / 2 ^ 51) / 2 ^ 51) / 2 ^ 51) / 2 ^ 51) / 2 ^ 51 * 19) / 2 ^ 51) = (f3 * (19 * f3) + 2 * (f0 * f1 + f2 * (19 * f4)) + (f0 * f0 + 2 * (f1 * (19 * f4) + f2 * (19 * f3))) / 2 ^ 51) % 2 ^ 51 + ((f0 * f0 + 2 * (f1 * (19 * f4) + f2 * (19 * f3))) % 2 ^ 51 + (f2 * f2 + 2 * (f0 * f4 + f1 * f3) + (f4 * (19 * f4) + 2 * (f0 * f3 + f1 * f2) + (f1 * f1 + 2 * (f0 * f2 + f4 * (19 * f3)) + (f3 * (19 * f3) + 2 * (f0 * f1 + f2 * (19 * f4)) + (f0 * f0 + 2 * (f1 * (19 * f4) + f2 * (19 * f3))) / 2 ^ 51) / 2 ^ 51) / 2 ^ 51) / 2 ^ 51) / 2 ^ 51 * 19) / 2 ^ 51 from by unfold w64; omega]
  rw [show w64 ((f1 * f1 + 2 * (f0 * f2 + f4 * (19 * f3)) + (f3 * (19 * f3) + 2 * (f0 * f1 + f2 * (19 * f4)) + (f0 * f0 + 2 * (f1 * (19 * f4) + f2 * (19 * f3))) / 2 ^ 51) / 2 ^ 51) % 2 ^ 51 + ((f3 * (19 * f3) + 2 * (f0 * f1 + f2 * (19 * f4)) + (f0 * f0 + 2 * (f1 * (19 * f4) + f2 * (19 * f3))) / 2 ^ 51) % 2 ^ 51 + ((f0 * f0 + 2 * (f1 * (19 * f4) + f2 * (19 * f3))) % 2 ^ 51 + (f2 * f2 + 2 * (f0 * f4 + f1 * f3) + (f4 * (19 * f4) + 2 * (f0 * f3 + f1 * f2) + (f1 * f1 + 2 * (f0 * f2 + f4 * (19 * f3)) + (f3 * (19 * f3) + 2 * (f0 * f1 + f2 * (19 * f4)) + (f0 * f0 + 2 * (f1 * (19 * f4) + f2 * (19 * f3))) / 2 ^ 51) / 2 ^ 51) / 2 ^ 51) / 2 ^ 51) / 2 ^ 51 * 19) / 2 ^ 51) / 2 ^ 51) = (f1 * f1 + 2 * (f0 * f2 + f4 * (19 * f3)) + (f3 * (19 * f3) + 2 * (f0 * f1 + f2 * (19 * f4)) + (f0 * f0 + 2 * (f1 * (19 * f4) + f2 * (19 * f3))) / 2 ^ 51) / 2 ^ 51) % 2 ^ 51 + ((f3 * (19 * f3) + 2 * (f0 * f1 + f2 * (19 * f4)) + (f0 * f0 + 2 * (f1 * (19 * f4) + f2 * (19 * f3))) / 2 ^ 51) % 2 ^ 51 + ((f0 * f0 + 2 * (f1 * (19 * f4) + f2 * (19 * f3))) % 2 ^ 51 + (f2 * f2 + 2 * (f0 * f4 + f1 * f3) + (f4 * (19 * f4) + 2 * (f0 * f3 + f1 * f2) + (f1 * f1 + 2 * (f0 * f2 + f4 * (19 * f3)) + (f3 * (19 * f3) + 2 * (f0 * f1 + f2 * (19 * f4)) + (f0 * f0 + 2 * (f1 * (19 * f4) + f2 * (19 * f3))) / 2 ^ 51) / 2 ^ 51) / 2 ^ 51) / 2 ^ 51) / 2 ^ 51 * 19) / 2 ^ 51) / 2 ^ 51 from by unfold w64; omega]
  generalize hS0 : f0 * f0 + 2 * (f1 * (19 * f4) + f2 * (19 * f3)) = H0 at *
  generalize hS1 : f3 * (19 * f3) + 2 * (f0 * f1 + f2 * (19 * f4)) = H1 at *
  generalize hS2 : f1 * f1 + 2 * (f0 * f2 + f4 * (19 * f3)) = H2 at *
  generalize hS3 : f4 * (19 * f4) + 2 * (f0 * f3 + f1 * f2) = H3 at *
  generalize hS4 : f2 * f2 + 2 * (f0 * f4 + f1 * f3) = H4 at *
  generalize hP : (f0 + f1 * 2 ^ 51 + f2 * 2 ^ 102 + f3 * 2 ^ 153 + f4 * 2 ^ 204) * (f0 + f1 * 2 ^ 51 + f2 * 2 ^ 102 + f3 * 2 ^ 153 + f4 * 2 ^ 204) = P at *
  have d0 := Nat.div_add_mod H0 (2 ^ 51)
  have d1 := Nat.div_add_mod (H1 + H0 / 2 ^ 51) (2 ^ 51)
  have d2 := Nat.div_add_mod (H2 + (H1 + H0 / 2 ^ 51) / 2 ^ 51) (2 ^ 51)
  have d3 := Nat.div_add_mod (H3 + (H2 + (H1 + H0 / 2 ^ 51) / 2 ^ 51) / 2 ^ 51) (2 ^ 51)
  have d4 := Nat.div_add_mod (H4 + (H3 + (H2 + (H1 + H0 / 2 ^ 51) / 2 ^ 51) / 2 ^ 51) / 2 ^ 51) (2 ^ 51)
  have e0 := Nat.div_add_mod (H0 % 2 ^ 51 + (H4 + (H3 + (H2 + (H1 + H0 / 2 ^ 51) / 2 ^ 51) / 2 ^ 51) / 2 ^ 51) / 2 ^ 51 * 19) (2 ^ 51)
  have e1 := Nat.div_add_mod ((H1 + H0 / 2 ^ 51) % 2 ^ 51 + (H0 % 2 ^ 51 + (H4 + (H3 + (H2 + (H1 + H0 / 2 ^ 51) / 2 ^ 51) / 2 ^ 51) / 2 ^ 51) / 2 ^ 51 * 19) / 2 ^ 51) (2 ^ 51)
  refine ⟨?_, ?_, ?_, ?_, ?_, ?_⟩
  · have hTot : (H0 % 2 ^ 51 + (H4 + (H3 + (H2 + (H1 + H0 / 2 ^ 51) / 2 ^ 51) / 2 ^ 51) / 2 ^ 51) / 2 ^ 51 * 19) % 2 ^ 51 + ((H1 + H0 / 2 ^ 51) % 2 ^ 51 + (H0 % 2 ^ 51 + (H4 + (H3 + (H2 + (H1 + H0 / 2 ^ 51) / 2 ^ 51) / 2 ^ 51) / 2 ^ 51) / 2 ^ 51 * 19) / 2 ^ 51) % 2 ^ 51 * 2 ^ 51 + ((H2 + (H1 + H0 / 2 ^ 51) / 2 ^ 51) % 2 ^ 51 + ((H1 + H0 / 2 ^ 51) % 2 ^ 51 + (H0 % 2 ^ 51 + (H4 + (H3 + (H2 + (H1 + H0 / 2 ^ 51) / 2 ^ 51) / 2 ^ 51) / 2 ^ 51) / 2 ^ 51 * 19) / 2 ^ 51) / 2 ^ 51) * 2 ^ 102 + (H3 + (H2 + (H1 + H0 / 2 ^ 51) / 2 ^ 51) / 2 ^ 51) % 2 ^ 51 * 2 ^ 153 + (H4 + (H3 + (H2 + (H1 + H0 / 2 ^ 51) / 2 ^ 51) / 2 ^ 51) / 2 ^ 51) % 2 ^ 51 * 2 ^ 204 +
        2 ^ 255 * (2 * (f1 * f4) + 2 * (f2 * f3) + (2 * (f2 * f4) + f3 * f3) * 2 ^ 51 + 2 * (f3 * f4) * 2 ^ 102 + f4 * f4 * 2 ^ 153 + (H4 + (H3 + (H2 + (H1 + H0 / 2 ^ 51) / 2 ^ 51) / 2 ^ 51) / 2 ^ 51) / 2 ^ 51) = P + 19 * (2 * (f1 * f4) + 2 * (f2 * f3) + (2 * (f2 * f4) + f3 * f3) * 2 ^ 51 + 2 * (f3 * f4) * 2 ^ 102 + f4 * f4 * 2 ^ 153 + (H4 + (H3 + (H2 + (H1 + H0 / 2 ^ 51) / 2 ^ 51) / 2 ^ 51) / 2 ^ 51) / 2 ^ 51) := by
      zify at d0 d1 d2 d3 d4 e0 e1 hMident ⊢
      linear_combination hMident + d0 + 2 ^ 51 * d1 + 2 ^ 102 * d2 +
        2 ^ 153 * d3 + 2 ^ 204 * d4 + e0 + 2 ^ 51 * e1
    have hTot2 : (H0 % 2 ^ 51 + (H4 + (H3 + (H2 + (H1 + H0 / 2 ^ 51) / 2 ^ 51) / 2 ^ 51) / 2 ^ 51) / 2 ^ 51 * 19) % 2 ^ 51 + ((H1 + H0 / 2 ^ 51) % 2 ^ 51 + (H0 % 2 ^ 51 + (H4 + (H3 + (H2 + (H1 + H0 / 2 ^ 51) / 2 ^ 51) / 2 ^ 51) / 2 ^ 51) / 2 ^ 51 * 19) / 2 ^ 51) % 2 ^ 51 * 2 ^ 51 + ((H2 + (H1 + H0 / 2 ^ 51) / 2 ^ 51) % 2 ^ 51 + ((H1 + H0 / 2 ^ 51) % 2 ^ 51 + (H0 % 2 ^ 51 + (H4 + (H3 + (H2 + (H1 + H0 / 2 ^ 51) / 2 ^ 51) / 2 ^ 51) / 2 ^ 51) / 2 ^ 51 * 19) / 2 ^ 51) / 2 ^ 51) * 2 ^ 102 + (H3 + (H2 + (H1 + H0 / 2 ^ 51) / 2 ^ 51) / 2 ^ 51) % 2 ^ 51 * 2 ^ 153 + (H4 + (H3 + (H2 + (H1 + H0 / 2 ^ 51) / 2 ^ 51) / 2 ^ 51) / 2 ^ 51) % 2 ^ 51 * 2 ^ 204 +
        pEd * (2 * (f1 * f4) + 2 * (f2 * f3) + (2 * (f2 * f4) + f3 * f3) * 2 ^ 51 + 2 * (f3 * f4) * 2 ^ 102 + f4 * f4 * 2 ^ 153 + (H4 + (H3 + (H2 + (H1 + H0 / 2 ^ 51) / 2 ^ 51) / 2 ^ 51) / 2 ^ 51) / 2 ^ 51) = P := by
      simp only [pEd]; omega
    rw [← hTot2, Nat.add_mul_mod_self_left]
  · omega
  · omega
  · omega
  · omega
  · omega

theorem powMod_correct : ∀ (fuel a b n : Nat), 0 < n → b < 2 ^ fuel →
    powMod fuel a b n = a ^ b % n := by
  intro fuel
  induction fuel with
  | zero =>
    intro a b n hn hb
    simp at hb
    subst hb
    simp [powMod]
  | succ k ih =>
    intro a b n hn hb
    unfold powMod
    by_cases h0 : b = 0
    · simp [h0]
    · simp only [h0, if_false]
      have hrec := ih (a * a % n) (b / 2) n hn (by omega)
      rw [hrec, Nat.pow_mod, Nat.mod_mod_of_dvd _ (dvd_refl n)]
      rw [← Nat.pow_mod]
      have hsplit : (a * a) ^ (b / 2) = a ^ (2 * (b / 2)) := by
        rw [two_mul, pow_add, ← mul_pow]
      by_cases h1 : b % 2 = 1
      · rw [if_pos h1, hsplit]
        have hb2 : b = 2 * (b / 2) + 1 := by omega
        conv_rhs => rw [hb2]
        rw [pow_succ, Nat.mul_mod (a ^ (2 * (b / 2))) a n]
      · rw [if_neg h1, hsplit]
        have hb2 : b = 2 * (b / 2) := by omega
        conv_rhs => rw [hb2]

theorem zmodPow_eq (n : Nat) (hn : 0 < n) (a e : Nat) (he : e < 2 ^ 256) :
    ((a : Nat) : ZMod n) ^ e = ((powMod 256 a e n : Nat) : ZMod n) := by
  rw [powMod_correct 256 a e n hn he, ← Nat.cast_pow, ZMod.natCast_mod]

theorem pratt_one (n g : Nat) (hn : 1 < n) (he : n - 1 < 2 ^ 256)
    (hv : powMod 256 g (n - 1) n = 1) : ((g : Nat) : ZMod n) ^ (n - 1) = 1 := by
  rw [zmodPow_eq n (by omega) g (n - 1) he, hv]
  exact Nat.cast_one

theorem pratt_step (n g e : Nat) (hn : 1 < n) (he : e < 2 ^ 256)
    (hv : powMod 256 g e n % n ≠ 1) : ((g : Nat) : ZMod n) ^ e ≠ 1 := by
  haveI : Fact (1 < n) := ⟨hn⟩
  rw [zmodPow_eq n (by omega) g e he]
  intro h
  have hval := congrArg ZMod.val h
  rw [ZMod.val_natCast, ZMod.val_one] at hval
  exact hv hval

/-- Pratt certificate: `1923133` is prime (generator `2`). -/
theorem prime_1923133 : Nat.Prime 1923133 := by
  have hf1 : Nat.Prime 3 := by norm_num
  have hf2 : Nat.Prime 43 := by norm_num
  have hf3 : Nat.Prime 3727 := by norm_num
  refine lucas_primality _ ((2 : Nat) : ZMod 1923133)
    (pratt_one _ 2 (by norm_num) (by norm_num) (by decide)) ?_
  intro q hq hdvd
  have hfac : q ∣ 2 * 2 * 3 * 43 * 3727 := by
    rwa [show (1923133 : Nat) - 1 = 2 * 2 * 3 * 43 * 3727 from by norm_num] at hdvd
  rcases (Nat.Prime.dvd_mul hq).mp hfac with hfaca | hfaca
  · rcases (Nat.Prime.dvd_mul hq).mp hfaca with hfacaa | hfacaa
    · rcases (Nat.Prime.dvd_mul hq).mp hfacaa with hfacaaa | hfacaaa
      · rcases (Nat.Prime.dvd_mul hq).mp hfacaaa with hfacaaaa | hfacaaaa
        · rw [(Nat.prime_dvd_prime_iff_eq hq Nat.prime_two).mp hfacaaaa]
          exact pratt_step _ 2 _ (by norm_num) (by decide) (by decide)
        · rw [(Nat.prime_dvd_prime_iff_eq hq Nat.prime_two).mp hfacaaaa]
          exact pratt_step _ 2 _ (by norm_num) (by decide) (by decide)
      · rw [(Nat.prime_dvd_prime_iff_eq hq hf1).mp hfacaaa]
        exact pratt_step _ 2 _ (by norm_num) (by decide) (by decide)
    · rw [(Nat.prime_dvd_prime_iff_eq hq hf2).mp hfacaa]
      exact pratt_step _ 2 _ (by norm_num) (by decide) (by decide)
  · rw [(Nat.prime_dvd_prime_iff_eq hq hf3).mp hfaca]
    exact pratt_step _ 2 _ (by norm_num) (by decide) (by decide)

/-- Pratt certificate: `8574133` is prime (generator `2`). -/
theorem prime_8574133 : Nat.Prime 8574133 := by
  have hf1 : Nat.Prime 3 := by norm_num
  have hf2 : Nat.Prime 7 := by norm_num
  have hf3 : Nat.Prime 103 := by norm_num
  have hf4 : Nat.Prime 991 := by norm_num
  refine lucas_primality _ ((2 : Nat) : ZMod 8574133)
    (pratt_one _ 2 (by norm_num) (by norm_num) (by decide)) ?_
  intro q hq hdvd
  have hfac : q ∣ 2 * 2 * 3 * 7 * 103 * 991 := by
    rwa [show (8574133 : Nat) - 1 = 2 * 2 * 3 * 7 * 103 * 991 from by norm_num] at hdvd
  rcases (Nat.Prime.dvd_mul hq).mp hfac with hfaca | hfaca
  · rcases (Nat.Prime.dvd_mul hq).mp hfaca with hfacaa | hfacaa
    · rcases (Nat.Prime.dvd_mul hq).mp hfacaa with hfacaaa | hfacaaa
      · rcases (Nat.Prime.dvd_mul hq).mp hfacaaa with hfacaaaa | hfacaaaa
        · rcases (Nat.Prime.dvd_mul hq).mp hfacaaaa with hfacaaaaa | hfacaaaaa
          · rw [(Nat.prime_dvd_prime_iff_eq hq Nat.prime_two).mp hfacaaaaa]
            exact pratt_step _ 2 _ (by norm_num) (by decide) (by decide)
          · rw [(Nat.prime_dvd_prime_iff_eq hq Nat.prime_two).mp hfacaaaaa]
            exact pratt_step _ 2 _ (by norm_num) (by decide) (by decide)
        · rw [(Nat.prime_dvd_prime_iff_eq hq hf1).mp hfacaaaa]
          exact pratt_step _ 2 _ (by norm_num) (by decide) (by decide)
      · rw [(Nat.prime_dvd_prime_iff_eq hq hf2).mp hfacaaa]
        exact pratt_step _ 2 _ (by norm_num) (by decide) (by decide)
    · rw [(Nat.prime_dvd_prime_iff_eq hq hf3).mp hfacaa]
      exact pratt_step _ 2 _ (by norm_num) (by decide) (by decide)
  · rw [(Nat.prime_dvd_prime_iff_eq hq hf4).mp hfaca]
    exact pratt_step _ 2 _ (by norm_num) (by decide) (by decide)

/-- Pratt certificate: `2773320623` is prime (generator `5`). -/
theorem prime_2773320623 : Nat.Prime 2773320623 := by
  have hf1 : Nat.Prime 2437 := by norm_num
  have hf2 : Nat.Prime 569003 := by norm_num
  refine lucas_primality _ ((5 : Nat) : ZMod 2773320623)
    (pratt_one _ 5 (by norm_num) (by norm_num) (by decide)) ?_
  intro q hq hdvd
  have hfac : q ∣ 2 * 2437 * 569003 := by
    rwa [show (2773320623 : Nat) - 1 = 2 * 2437 * 569003 from by norm_num] at hdvd
  rcases (Nat.Prime.dvd_mul hq).mp hfac with hfaca | hfaca
  · rcases (Nat.Prime.dvd_mul hq).mp hfaca with hfacaa | hfacaa
    · rw [(Nat.prime_dvd_prime_iff_eq hq Nat.prime_two).mp hfacaa]
      exact pratt_step _ 5 _ (by norm_num) (by decide) (by decide)
    · rw [(Nat.prime_dvd_prime_iff_eq hq hf1).mp hfacaa]
      exact pratt_step _ 5 _ (by norm_num) (by decide) (by decide)
  · rw [(Nat.prime_dvd_prime_iff_eq hq hf2).mp hfaca]
    exact pratt_step _ 5 _ (by norm_num) (by decide) (by decide)

/-- Pratt certificate: `72106336199` is prime (generator `7`). -/
theorem prime_72106336199 : Nat.Prime 72106336199 := by
  have hf1 : Nat.Prime 13 := by norm_num
  refine lucas_primality _ ((7 : Nat) : ZMod 72106336199)
    (pratt_one _ 7 (by norm_num) (by norm_num) (by decide)) ?_
  intro q hq hdvd
  have hfac : q ∣ 2 * 13 * 2773320623 := by
    rwa [show (72106336199 : Nat) - 1 = 2 * 13 * 2773320623 from by norm_num] at hdvd
  rcases (Nat.Prime.dvd_mul hq).mp hfac with hfaca | hfaca
  · rcases (Nat.Prime.dvd_mul hq).mp hfaca with hfacaa | hfacaa
    · rw [(Nat.prime_dvd_prime_iff_eq hq Nat.prime_two).mp hfacaa]
      exact pratt_step _ 7 _ (by norm_num) (by decide) (by decide)
    · rw [(Nat.prime_dvd_prime_iff_eq hq hf1).mp hfacaa]
      exact pratt_step _ 7 _ (by norm_num) (by decide) (by decide)
  · rw [(Nat.prime_dvd_prime_iff_eq hq prime_2773320623).mp hfaca]
    exact pratt_step _ 7 _ (by norm_num) (by decide) (by decide)

/-- Pratt certificate: `1919519569386763` is prime (generator `2`). -/
theorem prime_1919519569386763 : Nat.Prime 1919519569386763 := by
  have hf1 : Nat.Prime 3 := by norm_num
  have hf2 : Nat.Prime 7 := by norm_num
  have hf3 : Nat.Prime 19 := by norm_num
  have hf4 : Nat.Prime 47 := by norm_num
  have hf5 : Nat.Prime 127 := by norm_num
  refine lucas_primality _ ((2 : Nat) : ZMod 1919519569386763)
    (pratt_one _ 2 (by norm_num) (by norm_num) (by decide)) ?_
  intro q hq hdvd
  have hfac : q ∣ 2 * 3 * 7 * 19 * 47 * 47 * 127 * 8574133 := by
    rwa [show (1919519569386763 : Nat) - 1 = 2 * 3 * 7 * 19 * 47 * 47 * 127 * 8574133 from by norm_num] at hdvd
  rcases (Nat.Prime.dvd_mul hq).mp hfac with hfaca | hfaca
  · rcases (Nat.Prime.dvd_mul hq).mp hfaca with hfacaa | hfacaa
    · rcases (Nat.Prime.dvd_mul hq).mp hfacaa with hfacaaa | hfacaaa
      · rcases (Nat.Prime.dvd_mul hq).mp hfacaaa with hfacaaaa | hfacaaaa
        · rcases (Nat.Prime.dvd_mul hq).mp hfacaaaa with hfacaaaaa | hfacaaaaa
          · rcases (Nat.Prime.dvd_mul hq).mp hfacaaaaa with hfacaaaaaa | hfacaaaaaa
            · rcases (Nat.Prime.dvd_mul hq).mp hfacaaaaaa with hfacaaaaaaa | hfacaaaaaaa
              · rw [(Nat.prime_dvd_prime_iff_eq hq Nat.prime_two).mp hfacaaaaaaa]
                exact pratt_step _ 2 _ (by norm_num) (by decide) (by decide)
              · rw [(Nat.prime_dvd_prime_iff_eq hq hf1).mp hfacaaaaaaa]
                exact pratt_step _ 2 _ (by norm_num) (by decide) (by decide)
            · rw [(Nat.prime_dvd_prime_iff_eq hq hf2).mp hfacaaaaaa]
              exact pratt_step _ 2 _ (by norm_num) (by decide) (by decide)
          · rw [(Nat.prime_dvd_prime_iff_eq hq hf3).mp hfacaaaaa]
            exact pratt_step _ 2 _ (by norm_num) (by decide) (by decide)
        · rw [(Nat.prime_dvd_prime_iff_eq hq hf4).mp hfacaaaa]
          exact pratt_step _ 2 _ (by norm_num) (by decide) (by decide)
      · rw [(Nat.prime_dvd_prime_iff_eq hq hf4).mp hfacaaa]
        exact pratt_step _ 2 _ (by norm_num) (by decide) (by decide)
    · rw [(Nat.prime_dvd_prime_iff_eq hq hf5).mp hfacaa]
      exact pratt_step _ 2 _ (by norm_num) (by decide) (by decide)
  · rw [(Nat.prime_dvd_prime_iff_eq hq prime_8574133).mp hfaca]
    exact pratt_step _ 2 _ (by norm_num) (by decide) (by decide)

/-- Pratt certificate: `31757755568855353` is prime (generator `10`). -/
theorem prime_31757755568855353 : Nat.Prime 31757755568855353 := by
  have hf1 : Nat.Prime 3 := by norm_num
  have hf2 : Nat.Prime 31 := by norm_num
  have hf3 : Nat.Prime 107 := by norm_num
  have hf4 : Nat.Prime 223 := by norm_num
  have hf5 : Nat.Prime 4153 := by norm_num
  have hf6 : Nat.Prime 430751 := by norm_num
  refine lucas_primality _ ((10 : Nat) : ZMod 31757755568855353)
    (pratt_one _ 10 (by norm_num) (by norm_num) (by decide)) ?_
  intro q hq hdvd
  have hfac : q ∣ 2 * 2 * 2 * 3 * 31 * 107 * 223 * 4153 * 430751 := by
    rwa [show (31757755568855353 : Nat) - 1 = 2 * 2 * 2 * 3 * 31 * 107 * 223 * 4153 * 430751 from by norm_num] at hdvd
  rcases (Nat.Prime.dvd_mul hq).mp hfac with hfaca | hfaca
  · rcases (Nat.Prime.dvd_mul hq).mp hfaca with hfacaa | hfacaa
    · rcases (Nat.Prime.dvd_mul hq).mp hfacaa with hfacaaa | hfacaaa
      · rcases (Nat.Prime.dvd_mul hq).mp hfacaaa with hfacaaaa | hfacaaaa
        · rcases (Nat.Prime.dvd_mul hq).mp hfacaaaa with hfacaaaaa | hfacaaaaa
          · rcases (Nat.Prime.dvd_mul hq).mp hfacaaaaa with hfacaaaaaa | hfacaaaaaa
            · rcases (Nat.Prime.dvd_mul hq).mp hfacaaaaaa with hfacaaaaaaa | hfacaaaaaaa
              · rcases (Nat.Prime.dvd_mul hq).mp hfacaaaaaaa with hfacaaaaaaaa | hfacaaaaaaaa
                · rw [(Nat.prime_dvd_prime_iff_eq hq Nat.prime_two).mp hfacaaaaaaaa]
                  exact pratt_step _ 10 _ (by norm_num) (by decide) (by decide)
                · rw [(Nat.prime_dvd_prime_iff_eq hq Nat.prime_two).mp hfacaaaaaaaa]
                  exact pratt_step _ 10 _ (by norm_num) (by decide) (by decide)
              · rw [(Nat.prime_dvd_prime_iff_eq hq Nat.prime_two).mp hfacaaaaaaa]
                exact pratt_step _ 10 _ (by norm_num) (by decide) (by decide)
            · rw [(Nat.prime_dvd_prime_iff_eq hq hf1).mp hfacaaaaaa]
              exact pratt_step _ 10 _ (by norm_num) (by decide) (by decide)
          · rw [(Nat.prime_dvd_prime_iff_eq hq hf2).mp hfacaaaaa]
            exact pratt_step _ 10 _ (by norm_num) (by decide) (by decide)
        · rw [(Nat.prime_dvd_prime_iff_eq hq hf3).mp hfacaaaa]
          exact pratt_step _ 10 _ (by norm_num) (by decide) (by decide)
      · rw [(Nat.prime_dvd_prime_iff_eq hq hf4).mp hfacaaa]
        exact pratt_step _ 10 _ (by norm_num) (by decide) (by decide)
    · rw [(Nat.prime_dvd_prime_iff_eq hq hf5).mp hfacaa]
      exact pratt_step _ 10 _ (by norm_num) (by decide) (by decide)
  · rw [(Nat.prime_dvd_prime_iff_eq hq hf6).mp hfaca]
    exact pratt_step _ 10 _ (by norm_num) (by decide) (by decide)

/-- Pratt certificate: `75445702479781427272750846543864801` is prime (generator `7`). -/
theorem prime_75445702479781427272750846543864801 : Nat.Prime 75445702479781427272750846543864801 := by
  have hf1 : Nat.Prime 3 := by norm_num
  have hf2 : Nat.Prime 5 := by norm_num
  have hf3 : Nat.Prime 75707 := by norm_num
  refine lucas_primality _ ((7 : Nat) : ZMod 75445702479781427272750846543864801)
    (pratt_one _ 7 (by norm_num) (by norm_num) (by decide)) ?_
  intro q hq hdvd
  have hfac : q ∣ 2 * 2 * 2 * 2 * 2 * 3 * 3 * 5 * 5 * 75707 * 72106336199 * 1919519569386763 := by
    rwa [show (75445702479781427272750846543864801 : Nat) - 1 = 2 * 2 * 2 * 2 * 2 * 3 * 3 * 5 * 5 * 75707 * 72106336199 * 1919519569386763 from by norm_num] at hdvd
  rcases (Nat.Prime.dvd_mul hq).mp hfac with hfaca | hfaca
  · rcases (Nat.Prime.dvd_mul hq).mp hfaca with hfacaa | hfacaa
    · rcases (Nat.Prime.dvd_mul hq).mp hfacaa with hfacaaa | hfacaaa
      · rcases (Nat.Prime.dvd_mul hq).mp hfacaaa with hfacaaaa | hfacaaaa
        · rcases (Nat.Prime.dvd_mul hq).mp hfacaaaa with hfacaaaaa | hfacaaaaa
          · rcases (Nat.Prime.dvd_mul hq).mp hfacaaaaa with hfacaaaaaa | hfacaaaaaa
            · rcases (Nat.Prime.dvd_mul hq).mp hfacaaaaaa with hfacaaaaaaa | hfacaaaaaaa
              · rcases (Nat.Prime.dvd_mul hq).mp hfacaaaaaaa with hfacaaaaaaaa | hfacaaaaaaaa
                · rcases (Nat.Prime.dvd_mul hq).mp hfacaaaaaaaa with hfacaaaaaaaaa | hfacaaaaaaaaa
                  · rcases (Nat.Prime.dvd_mul hq).mp hfacaaaaaaaaa with hfacaaaaaaaaaa | hfacaaaaaaaaaa
                    · rcases (Nat.Prime.dvd_mul hq).mp hfacaaaaaaaaaa with hfacaaaaaaaaaaa | hfacaaaaaaaaaaa
                      · rw [(Nat.prime_dvd_prime_iff_eq hq Nat.prime_two).mp hfacaaaaaaaaaaa]
                        exact pratt_step _ 7 _ (by norm_num) (by decide) (by decide)
                      · rw [(Nat.prime_dvd_prime_iff_eq hq Nat.prime_two).mp hfacaaaaaaaaaaa]
                        exact pratt_step _ 7 _ (by norm_num) (by decide) (by decide)
                    · rw [(Nat.prime_dvd_prime_iff_eq hq Nat.prime_two).mp hfacaaaaaaaaaa]
                      exact pratt_step _ 7 _ (by norm_num) (by decide) (by decide)
                  · rw [(Nat.prime_dvd_prime_iff_eq hq Nat.prime_two).mp hfacaaaaaaaaa]
                    exact pratt_step _ 7 _ (by norm_num) (by decide) (by decide)
                · rw [(Nat.prime_dvd_prime_iff_eq hq Nat.prime_two).mp hfacaaaaaaaa]
                  exact pratt_step _ 7 _ (by norm_num) (by decide) (by decide)
              · rw [(Nat.prime_dvd_prime_iff_eq hq hf1).mp hfacaaaaaaa]
                exact pratt_step _ 7 _ (by norm_num) (by decide) (by decide)
            · rw [(Nat.prime_dvd_prime_iff_eq hq hf1).mp hfacaaaaaa]
              exact pratt_step _ 7 _ (by norm_num) (by decide) (by decide)
          · rw [(Nat.prime_dvd_prime_iff_eq hq hf2).mp hfacaaaaa]
            exact pratt_step _ 7 _ (by norm_num) (by decide) (by decide)
        · rw [(Nat.prime_dvd_prime_iff_eq hq hf2).mp hfacaaaa]
          exact pratt_step _ 7 _ (by norm_num) (by decide) (by decide)
      · rw [(Nat.prime_dvd_prime_iff_eq hq hf3).mp hfacaaa]
        exact pratt_step _ 7 _ (by norm_num) (by decide) (by decide)
    · rw [(Nat.prime_dvd_prime_iff_eq hq prime_72106336199).mp hfacaa]
      exact pratt_step _ 7 _ (by norm_num) (by decide) (by decide)
  · rw [(Nat.prime_dvd_prime_iff_eq hq prime_1919519569386763).mp hfaca]
    exact pratt_step _ 7 _ (by norm_num) (by decide) (by decide)

/-- Pratt certificate: `74058212732561358302231226437062788676166966415465897661863160754340907` is prime (generator `2`). -/
theorem prime_74058212732561358302231226437062788676166966415465897661863160754340907 : Nat.Prime 74058212732561358302231226437062788676166966415465897661863160754340907 := by
  have hf1 : Nat.Prime 3 := by norm_num
  have hf2 : Nat.Prime 353 := by norm_num
  have hf3 : Nat.Prime 57467 := by norm_num
  have hf4 : Nat.Prime 132049 := by norm_num
  refine lucas_primality _ ((2 : Nat) : ZMod 74058212732561358302231226437062788676166966415465897661863160754340907)
    (pratt_one _ 2 (by norm_num) (by norm_num) (by decide)) ?_
  intro q hq hdvd
  have hfac : q ∣ 2 * 3 * 353 * 57467 * 132049 * 1923133 * 31757755568855353 * 75445702479781427272750846543864801 := by
    rwa [show (74058212732561358302231226437062788676166966415465897661863160754340907 : Nat) - 1 = 2 * 3 * 353 * 57467 * 132049 * 1923133 * 31757755568855353 * 75445702479781427272750846543864801 from by norm_num] at hdvd
  rcases (Nat.Prime.dvd_mul hq).mp hfac with hfaca | hfaca
  · rcases (Nat.Prime.dvd_mul hq).mp hfaca with hfacaa | hfacaa
    · rcases (Nat.Prime.dvd_mul hq).mp hfacaa with hfacaaa | hfacaaa
      · rcases (Nat.Prime.dvd_mul hq).mp hfacaaa with hfacaaaa | hfacaaaa
        · rcases (Nat.Prime.dvd_mul hq).mp hfacaaaa with hfacaaaaa | hfacaaaaa
          · rcases (Nat.Prime.dvd_mul hq).mp hfacaaaaa with hfacaaaaaa | hfacaaaaaa
            · rcases (Nat.Prime.dvd_mul hq).mp hfacaaaaaa with hfacaaaaaaa | hfacaaaaaaa
              · rw [(Nat.prime_dvd_prime_iff_eq hq Nat.prime_two).mp hfacaaaaaaa]
                exact pratt_step _ 2 _ (by norm_num) (by decide) (by decide)
              · rw [(Nat.prime_dvd_prime_iff_eq hq hf1).mp hfacaaaaaaa]
                exact pratt_step _ 2 _ (by norm_num) (by decide) (by decide)
            · rw [(Nat.prime_dvd_prime_iff_eq hq hf2).mp hfacaaaaaa]
              exact pratt_step _ 2 _ (by norm_num) (by decide) (by decide)
          · rw [(Nat.prime_dvd_prime_iff_eq hq hf3).mp hfacaaaaa]
            exact pratt_step _ 2 _ (by norm_num) (by decide) (by decide)
        · rw [(Nat.prime_dvd_prime_iff_eq hq hf4).mp hfacaaaa]
          exact pratt_step _ 2 _ (by norm_num) (by decide) (by decide)
      · rw [(Nat.prime_dvd_prime_iff_eq hq prime_1923133).mp hfacaaa]
        exact pratt_step _ 2 _ (by norm_num) (by decide) (by decide)
    · rw [(Nat.prime_dvd_prime_iff_eq hq prime_31757755568855353).mp hfacaa]
      exact pratt_step _ 2 _ (by norm_num) (by decide) (by decide)
  · rw [(Nat.prime_dvd_prime_iff_eq hq prime_75445702479781427272750846543864801).mp hfaca]
    exact pratt_step _ 2 _ (by norm_num) (by decide) (by decide)

/-- Pratt certificate: `57896044618658097711785492504343953926634992332820282019728792003956564819949` is prime (generator `2`). -/
theorem prime_p25519 : Nat.Prime 57896044618658097711785492504343953926634992332820282019728792003956564819949 := by
  have hf1 : Nat.Prime 3 := by norm_num
  have hf2 : Nat.Prime 65147 := by norm_num
  refine lucas_primality _ ((2 : Nat) : ZMod 57896044618658097711785492504343953926634992332820282019728792003956564819949)
    (pratt_one _ 2 (by norm_num) (by norm_num) (by decide)) ?_
  intro q hq hdvd
  have hfac : q ∣ 2 * 2 * 3 * 65147 * 74058212732561358302231226437062788676166966415465897661863160754340907 := by
    rwa [show (57896044618658097711785492504343953926634992332820282019728792003956564819949 : Nat) - 1 = 2 * 2 * 3 * 65147 * 74058212732561358302231226437062788676166966415465897661863160754340907 from by norm_num] at hdvd
  rcases (Nat.Prime.dvd_mul hq).mp hfac with hfaca | hfaca
  · rcases (Nat.Prime.dvd_mul hq).mp hfaca with hfacaa | hfacaa
    · rcases (Nat.Prime.dvd_mul hq).mp hfacaa with hfacaaa | hfacaaa
      · rcases (Nat.Prime.dvd_mul hq).mp hfacaaa with hfacaaaa | hfacaaaa
        · rw [(Nat.prime_dvd_prime_iff_eq hq Nat.prime_two).mp hfacaaaa]
          exact pratt_step _ 2 _ (by norm_num) (by decide) (by decide)
        · rw [(Nat.prime_dvd_prime_iff_eq hq Nat.prime_two).mp hfacaaaa]
          exact pratt_step _ 2 _ (by norm_num) (by decide) (by decide)
      · rw [(Nat.prime_dvd_prime_iff_eq hq hf1).mp hfacaaa]
        exact pratt_step _ 2 _ (by norm_num) (by decide) (by decide)
    · rw [(Nat.prime_dvd_prime_iff_eq hq hf2).mp hfacaa]
      exact pratt_step _ 2 _ (by norm_num) (by decide) (by decide)
  · rw [(Nat.prime_dvd_prime_iff_eq hq prime_74058212732561358302231226437062788676166966415465897661863160754340907).mp hfaca]
    exact pratt_step _ 2 _ (by norm_num) (by decide) (by decide)

/-- `p = 2 ^ 255 - 19` is prime. -/
theorem pEd_prime : Nat.Prime pEd := by
  rw [show pEd =
    57896044618658097711785492504343953926634992332820282019728792003956564819949
    from by norm_num [pEd]]
  exact prime_p25519

theorem good_mul (f g : FieldElement) (hf : good f) (hg : good g) :
    good (f.mul g) ∧ toZ (f.mul g) = toZ f * toZ g := by
  obtain ⟨f0, f1, f2, f3, f4⟩ := f
  obtain ⟨g0, g1, g2, g3, g4⟩ := g
  obtain ⟨hf0, hf1, hf2, hf3, hf4⟩ := hf
  obtain ⟨hg0, hg1, hg2, hg3, hg4⟩ := hg
  obtain ⟨hval, h0, h1, h2, h3, h4⟩ :=
    mul_spec f0 f1 f2 f3 f4 g0 g1 g2 g3 g4 hf0 hf1 hf2 hf3 hf4 hg0 hg1 hg2 hg3 hg4
  refine ⟨⟨by omega, by omega, by omega, by omega, by omega⟩, ?_⟩
  unfold toZ
  rw [← ZMod.natCast_mod, hval, ZMod.natCast_mod, Nat.cast_mul]

theorem good_squareStep (f : FieldElement) (hf : good f) :
    good (FieldElement.squareStep f) ∧
      toZ (FieldElement.squareStep f) = toZ f ^ 2 := by
  obtain ⟨f0, f1, f2, f3, f4⟩ := f
  obtain ⟨hf0, hf1, hf2, hf3, hf4⟩ := hf
  obtain ⟨hval, h0, h1, h2, h3, h4⟩ := squareStep_spec f0 f1 f2 f3 f4 hf0 hf1 hf2 hf3 hf4
  refine ⟨⟨by omega, by omega, by omega, by omega, by omega⟩, ?_⟩
  unfold toZ
  rw [← ZMod.natCast_mod, hval, ZMod.natCast_mod, Nat.cast_mul, sq]

theorem good_square_times (f : FieldElement) (n : Nat) (hf : good f) :
    good (f.square_times n) ∧ toZ (f.square_times n) = toZ f ^ (2 ^ n) := by
  induction n generalizing f with
  | zero =>
    exact ⟨hf, by simp [FieldElement.square_times]⟩
  | succ k ih =>
    obtain ⟨hstep, hz⟩ := good_squareStep f hf
    obtain ⟨hg, hzrec⟩ := ih (FieldElement.squareStep f) hstep
    refine ⟨hg, ?_⟩
    show toZ ((FieldElement.squareStep f).square_times k) = _
    rw [hzrec, hz, ← pow_mul, pow_succ, Nat.mul_comm (2 ^ k) 2]

theorem good_square (f : FieldElement) (hf : good f) :
    good f.square ∧ toZ f.square = toZ f ^ 2 := by
  have h := good_square_times f 1 hf
  rw [pow_one] at h
  exact h

theorem step_mul (x y : FieldElement) (b : ZMod pEd) (i j : Nat)
    (hx : good x ∧ toZ x = b ^ i) (hy : good y ∧ toZ y = b ^ j) :
    good (x.mul y) ∧ toZ (x.mul y) = b ^ (i + j) := by
  obtain ⟨hg, hz⟩ := good_mul x y hx.1 hy.1
  exact ⟨hg, by rw [hz, hx.2, hy.2, pow_add]⟩

theorem step_square (x : FieldElement) (b : ZMod pEd) (i : Nat)
    (hx : good x ∧ toZ x = b ^ i) :
    good x.square ∧ toZ x.square = b ^ (i * 2) := by
  obtain ⟨hg, hz⟩ := good_square x hx.1
  exact ⟨hg, by rw [hz, hx.2, ← pow_mul]⟩

theorem step_square_times (x : FieldElement) (b : ZMod pEd) (i n : Nat)
    (hx : good x ∧ toZ x = b ^ i) :
    good (x.square_times n) ∧ toZ (x.square_times n) = b ^ (i * 2 ^ n) := by
  obtain ⟨hg, hz⟩ := good_square_times x n hx.1
  exact ⟨hg, by rw [hz, hx.2, ← pow_mul]⟩

/-- `FieldElement::pow22501` returns `(f^11, f^(2^250 - 1))` in the field. -/
theorem pow22501_spec (f : FieldElement) (hf : good f) :
    ∃ u v, f.pow22501 = (u, v) ∧ good u ∧ good v ∧
      toZ u = toZ f ^ 11 ∧ toZ v = toZ f ^ (2 ^ 250 - 1) := by
  unfold FieldElement.pow22501
  lift_lets
  extract_lets a1 a2 a3 a4 a5 a6 a7 a8 a9 a10 a11 a12 a13 a14 a15 a16 a17 a18 a19 a20 a21 a22 a23 a24 a25 a26 a27
  have h0 : good f ∧ toZ f = toZ f ^ 1 := ⟨hf, (pow_one _).symm⟩
  have h1 : good a1 ∧ toZ a1 = toZ f ^ 2 :=
    step_square f (toZ f) 1 h0
  have h2 : good a2 ∧ toZ a2 = toZ f ^ 4 :=
    step_square a1 (toZ f) 2 h1
  have h3 : good a3 ∧ toZ a3 = toZ f ^ 8 :=
    step_square a2 (toZ f) 4 h2
  have h4 : good a4 ∧ toZ a4 = toZ f ^ 9 :=
    step_mul f a3 (toZ f) 1 8 h0 h3
  have h5 : good a5 ∧ toZ a5 = toZ f ^ 11 :=
    step_mul a1 a4 (toZ f) 2 9 h1 h4
  have h6 : good a6 ∧ toZ a6 = toZ f ^ 22 :=
    step_square a5 (toZ f) 11 h5
  have h7 : good a7 ∧ toZ a7 = toZ f ^ 31 :=
    step_mul a4 a6 (toZ f) 9 22 h4 h6
  have h8 : good a8 ∧ toZ a8 = toZ f ^ 62 :=
    step_square a7 (toZ f) 31 h7
  have h9 : good a9 ∧ toZ a9 = toZ f ^ 992 :=
    step_square_times a8 (toZ f) 62 4 h8
  have h10 : good a10 ∧ toZ a10 = toZ f ^ 1023 :=
    step_mul a9 a7 (toZ f) 992 31 h9 h7
  have h11 : good a11 ∧ toZ a11 = toZ f ^ 2046 :=
    step_square a10 (toZ f) 1023 h10
  have h12 : good a12 ∧ toZ a12 = toZ f ^ 1047552 :=
    step_square_times a11 (toZ f) 2046 9 h11
  have h13 : good a13 ∧ toZ a13 = toZ f ^ 1048575 :=
    step_mul a12 a10 (toZ f) 1047552 1023 h12 h10
  have h14 : good a14 ∧ toZ a14 = toZ f ^ 2097150 :=
    step_square a13 (toZ f) 1048575 h13
  have h15 : good a15 ∧ toZ a15 = toZ f ^ 1099510579200 :=
    step_square_times a14 (toZ f) 2097150 19 h14
  have h16 : good a16 ∧ toZ a16 = toZ f ^ 1099511627775 :=
    step_mul a13 a15 (toZ f) 1048575 1099510579200 h13 h15
  have h17 : good a17 ∧ toZ a17 = toZ f ^ 2199023255550 :=
    step_square a16 (toZ f) 1099511627775 h16
  have h18 : good a18 ∧ toZ a18 = toZ f ^ 1125899906841600 :=
    step_square_times a17 (toZ f) 2199023255550 9 h17
  have h19 : good a19 ∧ toZ a19 = toZ f ^ 1125899906842623 :=
    step_mul a18 a10 (toZ f) 1125899906841600 1023 h18 h10
  have h20 : good a20 ∧ toZ a20 = toZ f ^ 2251799813685246 :=
    step_square a19 (toZ f) 1125899906842623 h19
  have h21 : good a21 ∧ toZ a21 = toZ f ^ 1267650600228228275596796362752 :=
    step_square_times a20 (toZ f) 2251799813685246 49 h20
  have h22 : good a22 ∧ toZ a22 = toZ f ^ 1267650600228229401496703205375 :=
    step_mul a21 a19 (toZ f) 1267650600228228275596796362752 1125899906842623 h21 h19
  have h23 : good a23 ∧ toZ a23 = toZ f ^ 2535301200456458802993406410750 :=
    step_square a22 (toZ f) 1267650600228229401496703205375 h22
  have h24 : good a24 ∧ toZ a24 = toZ f ^ 1606938044258990275541962092339894951921974764381296132096000 :=
    step_square_times a23 (toZ f) 2535301200456458802993406410750 99 h23
  have h25 : good a25 ∧ toZ a25 = toZ f ^ 1606938044258990275541962092341162602522202993782792835301375 :=
    step_mul a24 a22 (toZ f) 1606938044258990275541962092339894951921974764381296132096000 1267650600228229401496703205375 h24 h22
  have h26 : good a26 ∧ toZ a26 = toZ f ^ 3213876088517980551083924184682325205044405987565585670602750 :=
    step_square a25 (toZ f) 1606938044258990275541962092341162602522202993782792835301375 h25
  have h27 : good a27 ∧ toZ a27 = toZ f ^ 1809251394333065553493296640760748560207343510400633813116523624223735808000 :=
    step_square_times a26 (toZ f) 3213876088517980551083924184682325205044405987565585670602750 49 h26
  have hv : good (a27.mul a19) ∧ toZ (a27.mul a19) = toZ f ^ (2 ^ 250 - 1) :=
    step_mul a27 a19 (toZ f) 1809251394333065553493296640760748560207343510400633813116523624223735808000 1125899906842623 h27 h19
  exact ⟨a5, a27.mul a19, rfl, h5.1, hv.1, h5.2, hv.2⟩

/-- `FieldElement::invert` computes `f^(p - 2) = f^(2^255 - 21)` in the field. -/
theorem invert_spec (f : FieldElement) (hf : good f) :
    good f.invert ∧ toZ f.invert = toZ f ^ (2 ^ 255 - 21) := by
  obtain ⟨u, v, hp, hgu, hgv, hzu, hzv⟩ := pow22501_spec f hf
  unfold FieldElement.invert
  rw [hp]
  have hv0 : good v ∧ toZ v = toZ f ^ 1809251394333065553493296640760748560207343510400633813116524750123642650623 := ⟨hgv, hzv⟩
  have hb1 : good v.square ∧ toZ v.square = toZ f ^ 3618502788666131106986593281521497120414687020801267626233049500247285301246 :=
    step_square v (toZ f) 1809251394333065553493296640760748560207343510400633813116524750123642650623 hv0
  have hb2 : good v.square.square ∧ toZ v.square.square = toZ f ^ 7237005577332262213973186563042994240829374041602535252466099000494570602492 :=
    step_square v.square (toZ f) 3618502788666131106986593281521497120414687020801267626233049500247285301246 hb1
  have hb3 : good v.square.square.square ∧ toZ v.square.square.square = toZ f ^ 14474011154664524427946373126085988481658748083205070504932198000989141204984 :=
    step_square v.square.square (toZ f) 7237005577332262213973186563042994240829374041602535252466099000494570602492 hb2
  have hb4 : good v.square.square.square.square ∧ toZ v.square.square.square.square = toZ f ^ 28948022309329048855892746252171976963317496166410141009864396001978282409968 :=
    step_square v.square.square.square (toZ f) 14474011154664524427946373126085988481658748083205070504932198000989141204984 hb3
  have hb5 : good v.square.square.square.square.square ∧ toZ v.square.square.square.square.square = toZ f ^ 57896044618658097711785492504343953926634992332820282019728792003956564819936 :=
    step_square v.square.square.square.square (toZ f) 28948022309329048855892746252171976963317496166410141009864396001978282409968 hb4
  have hu0 : good u ∧ toZ u = toZ f ^ 11 := ⟨hgu, hzu⟩
  have hfin : good (u.mul (v.square.square.square.square.square)) ∧
      toZ (u.mul (v.square.square.square.square.square)) =
        toZ f ^ (2 ^ 255 - 21) :=
    step_mul u (v.square.square.square.square.square) (toZ f) 11 57896044618658097711785492504343953926634992332820282019728792003956564819936 hu0 hb5
  exact hfin

/-- `FieldElement::pow22523` computes `f^(2^252 - 3)` in the field. -/
theorem pow22523_spec (f : FieldElement) (hf : good f) :
    good f.pow22523 ∧ toZ f.pow22523 = toZ f ^ (2 ^ 252 - 3) := by
  obtain ⟨u, v, hp, hgu, hgv, hzu, hzv⟩ := pow22501_spec f hf
  unfold FieldElement.pow22523
  rw [hp]
  have hv0 : good v ∧ toZ v = toZ f ^ 1809251394333065553493296640760748560207343510400633813116524750123642650623 := ⟨hgv, hzv⟩
  have hb1 : good v.square ∧ toZ v.square = toZ f ^ 3618502788666131106986593281521497120414687020801267626233049500247285301246 :=
    step_square v (toZ f) 1809251394333065553493296640760748560207343510400633813116524750123642650623 hv0
  have hb2 : good v.square.square ∧ toZ v.square.square = toZ f ^ 7237005577332262213973186563042994240829374041602535252466099000494570602492 :=
    step_square v.square (toZ f) 3618502788666131106986593281521497120414687020801267626233049500247285301246 hb1
  have hf1 : good f ∧ toZ f = toZ f ^ 1 := ⟨hf, (pow_one _).symm⟩
  have hfin : good (f.mul v.square.square) ∧
      toZ (f.mul v.square.square) = toZ f ^ (2 ^ 252 - 3) :=
    step_mul f v.square.square (toZ f) 1 7237005577332262213973186563042994240829374041602535252466099000494570602492 hf1 hb2
  exact hfin

/-- Record-level extensionality of `encode` for good field elements. -/
theorem encode_ext_good (f g : FieldElement) (hf : good f) (hg : good g)
    (h : f.val % pEd = g.val % pEd) :
    FieldElement.encode f = FieldElement.encode g := by
  obtain ⟨f0, f1, f2, f3, f4⟩ := f
  obtain ⟨g0, g1, g2, g3, g4⟩ := g
  obtain ⟨hf0, hf1, hf2, hf3, hf4⟩ := hf
  obtain ⟨hg0, hg1, hg2, hg3, hg4⟩ := hg
  exact encode_ext f0 f1 f2 f3 f4 g0 g1 g2 g3 g4 hf0 hf1 hf2 hf3 hf4
    hg0 hg1 hg2 hg3 hg4 h

/-- The canonical residue of a product with an inverse: `toZ`-level equality
to `1` forces the canonical value to be `1`. -/
theorem toZ_eq_one_val (x : FieldElement) (h : toZ x = 1) :
    x.val % pEd = 1 := by
  haveI : Fact (1 < pEd) := ⟨by norm_num [pEd]⟩
  have hval := congrArg ZMod.val h
  rw [toZ] at hval
  rw [ZMod.val_natCast, ZMod.val_one] at hval
  exact hval

/-- C7: for every field element `a` (limbs below `2 ^ 52`) that is not
congruent to `0` modulo `p = 2 ^ 255 - 19`, the product `a * a.invert()`
represents the field element `1`: its canonical value is `1` and its 32-byte
encoding equals the encoding of the constant one.  `invert` computes
`a ^ (p - 2) = a ^ (2 ^ 255 - 21)` via the `pow22501` chain (which returns
`(a^11, a^(2^250 - 1))`), five further squarings and one multiplication. -/
theorem C7_invert_mul_one (l0 l1 l2 l3 l4 : Nat)
    (b0 : l0 < 2 ^ 52) (b1 : l1 < 2 ^ 52) (b2 : l2 < 2 ^ 52)
    (b3 : l3 < 2 ^ 52) (b4 : l4 < 2 ^ 52)
    (hnz : FieldElement.val ⟨l0, l1, l2, l3, l4⟩ % pEd ≠ 0) :
    (FieldElement.mul ⟨l0, l1, l2, l3, l4⟩
        (FieldElement.invert ⟨l0, l1, l2, l3, l4⟩)).val % pEd = 1 ∧
    FieldElement.encode (FieldElement.mul ⟨l0, l1, l2, l3, l4⟩
        (FieldElement.invert ⟨l0, l1, l2, l3, l4⟩)) =
      FieldElement.encode FieldOne ∧
    toZ (FieldElement.invert ⟨l0, l1, l2, l3, l4⟩) =
      toZ ⟨l0, l1, l2, l3, l4⟩ ^ (2 ^ 255 - 21) := by
  haveI : Fact (Nat.Prime pEd) := ⟨pEd_prime⟩
  have hgood : good ⟨l0, l1, l2, l3, l4⟩ := ⟨b0, b1, b2, b3, b4⟩
  obtain ⟨hginv, hzinv⟩ := invert_spec ⟨l0, l1, l2, l3, l4⟩ hgood
  obtain ⟨hgmul, hzmul⟩ :=
    good_mul ⟨l0, l1, l2, l3, l4⟩ (FieldElement.invert ⟨l0, l1, l2, l3, l4⟩)
      hgood hginv
  have hznz : toZ ⟨l0, l1, l2, l3, l4⟩ ≠ 0 := by
    rw [toZ]
    intro h
    rw [ZMod.natCast_zmod_eq_zero_iff_dvd] at h
    exact hnz (Nat.mod_eq_zero_of_dvd h)
  have hone : toZ (FieldElement.mul ⟨l0, l1, l2, l3, l4⟩
      (FieldElement.invert ⟨l0, l1, l2, l3, l4⟩)) = 1 := by
    rw [hzmul, hzinv]
    rw [show (1 : ZMod pEd) = toZ ⟨l0, l1, l2, l3, l4⟩ ^ (pEd - 1) from
      (ZMod.pow_card_sub_one_eq_one hznz).symm]
    rw [show pEd - 1 = 1 + (2 ^ 255 - 21) from by norm_num [pEd], pow_add, pow_one]
  have hval1 := toZ_eq_one_val _ hone
  refine ⟨hval1, ?_, hzinv⟩
  apply encode_ext_good _ _ hgmul (by norm_num [good, FieldOne])
  rw [hval1]
  norm_num [FieldElement.val, FieldOne, pEd]


theorem tight_good (f : FieldElement) (h : tight f) : good f := by
  obtain ⟨l0, l1, l2, l3, l4⟩ := f
  simp only [tight, good] at *
  omega

theorem tight_mul (f g : FieldElement) (hf : good f) (hg : good g) :
    tight (f.mul g) := by
  obtain ⟨f0, f1, f2, f3, f4⟩ := f
  obtain ⟨g0, g1, g2, g3, g4⟩ := g
  obtain ⟨hf0, hf1, hf2, hf3, hf4⟩ := hf
  obtain ⟨hg0, hg1, hg2, hg3, hg4⟩ := hg
  obtain ⟨hval, h0, h1, h2, h3, h4⟩ :=
    mul_spec f0 f1 f2 f3 f4 g0 g1 g2 g3 g4 hf0 hf1 hf2 hf3 hf4 hg0 hg1 hg2 hg3 hg4
  exact ⟨by omega, by omega, by omega, by omega, by omega⟩

theorem tight_squareStep (f : FieldElement) (hf : good f) :
    tight (FieldElement.squareStep f) := by
  obtain ⟨f0, f1, f2, f3, f4⟩ := f
  obtain ⟨hf0, hf1, hf2, hf3, hf4⟩ := hf
  obtain ⟨hval, h0, h1, h2, h3, h4⟩ := squareStep_spec f0 f1 f2 f3 f4 hf0 hf1 hf2 hf3 hf4
  exact ⟨by omega, by omega, by omega, by omega, by omega⟩

theorem sub64_eq (x y : Nat) (hy : y ≤ x) (hx : x < 2 ^ 64) : sub64 x y = x - y := by
  unfold sub64
  omega

/-- `FieldElement::sub` subtracts in the field and returns tight limbs, for a
good left operand and a tight right operand. -/
theorem sub_spec (f g : FieldElement) (hf : good f) (hg : tight g) :
    tight (f.sub g) ∧ toZ (f.sub g) = toZ f - toZ g := by
  obtain ⟨f0, f1, f2, f3, f4⟩ := f
  obtain ⟨g0, g1, g2, g3, g4⟩ := g
  obtain ⟨hf0, hf1, hf2, hf3, hf4⟩ := hf
  obtain ⟨hg0, hg1, hg2, hg3, hg4⟩ := hg
  simp only [good, tight] at hf0 hf1 hf2 hf3 hf4 hg0 hg1 hg2 hg3 hg4 ⊢
  unfold FieldElement.sub
  rw [show w64 (FieldElement.l0 ⟨f0, f1, f2, f3, f4⟩ + TwoP0) = f0 + TwoP0 from by
        unfold w64 TwoP0; dsimp only; omega,
      show w64 (FieldElement.l1 ⟨f0, f1, f2, f3, f4⟩ + TwoP1234) = f1 + TwoP1234 from by
        unfold w64 TwoP1234; dsimp only; omega,
      show w64 (FieldElement.l2 ⟨f0, f1, f2, f3, f4⟩ + TwoP1234) = f2 + TwoP1234 from by
        unfold w64 TwoP1234; dsimp only; omega,
      show w64 (FieldElement.l3 ⟨f0, f1, f2, f3, f4⟩ + TwoP1234) = f3 + TwoP1234 from by
        unfold w64 TwoP1234; dsimp only; omega,
      show w64 (FieldElement.l4 ⟨f0, f1, f2, f3, f4⟩ + TwoP1234) = f4 + TwoP1234 from by
        unfold w64 TwoP1234; dsimp only; omega]
  rw [sub64_eq (f0 + TwoP0) (FieldElement.l0 ⟨g0, g1, g2, g3, g4⟩)
        (by unfold TwoP0; dsimp only; omega) (by unfold TwoP0; omega),
      sub64_eq (f1 + TwoP1234) (FieldElement.l1 ⟨g0, g1, g2, g3, g4⟩)
        (by unfold TwoP1234; dsimp only; omega) (by unfold TwoP1234; omega),
      sub64_eq (f2 + TwoP1234) (FieldElement.l2 ⟨g0, g1, g2, g3, g4⟩)
        (by unfold TwoP1234; dsimp only; omega) (by unfold TwoP1234; omega),
      sub64_eq (f3 + TwoP1234) (FieldElement.l3 ⟨g0, g1, g2, g3, g4⟩)
        (by unfold TwoP1234; dsimp only; omega) (by unfold TwoP1234; omega),
      sub64_eq (f4 + TwoP1234) (FieldElement.l4 ⟨g0, g1, g2, g3, g4⟩)
        (by unfold TwoP1234; dsimp only; omega) (by unfold TwoP1234; omega)]
  dsimp only
  obtain ⟨hval, hm0, hm1, hm2, hm3, hm4⟩ := reduce_spec
    ⟨f0 + TwoP0 - g0, f1 + TwoP1234 - g1, f2 + TwoP1234 - g2,
     f3 + TwoP1234 - g3, f4 + TwoP1234 - g4⟩
    (by dsimp only; unfold TwoP0; omega) (by dsimp only; unfold TwoP1234; omega)
    (by dsimp only; unfold TwoP1234; omega) (by dsimp only; unfold TwoP1234; omega)
    (by dsimp only; unfold TwoP1234; omega)
  refine ⟨⟨by omega, by omega, by omega, by omega, by omega⟩, ?_⟩
  unfold toZ
  rw [← ZMod.natCast_mod, hval, ZMod.natCast_mod]
  have hdv : FieldElement.val ⟨f0 + TwoP0 - g0, f1 + TwoP1234 - g1,
      f2 + TwoP1234 - g2, f3 + TwoP1234 - g3, f4 + TwoP1234 - g4⟩ +
      FieldElement.val ⟨g0, g1, g2, g3, g4⟩ =
      FieldElement.val ⟨f0, f1, f2, f3, f4⟩ + 2 * pEd := by
    simp only [FieldElement.val]
    unfold TwoP0 TwoP1234 pEd
    omega
  have hcast := congrArg (fun n : Nat => (n : ZMod pEd)) hdv
  push_cast at hcast
  rw [ZMod.natCast_self] at hcast
  linear_combination hcast

/-- `FieldElement::negate` negates in the field and returns tight limbs. -/
theorem negate_spec (f : FieldElement) (hf : tight f) :
    tight f.negate ∧ toZ f.negate = - toZ f := by
  obtain ⟨f0, f1, f2, f3, f4⟩ := f
  obtain ⟨hf0, hf1, hf2, hf3, hf4⟩ := hf
  simp only [tight] at hf0 hf1 hf2 hf3 hf4 ⊢
  unfold FieldElement.negate
  rw [sub64_eq TwoP0 (FieldElement.l0 ⟨f0, f1, f2, f3, f4⟩)
        (by unfold TwoP0; dsimp only; omega) (by unfold TwoP0; omega),
      sub64_eq TwoP1234 (FieldElement.l1 ⟨f0, f1, f2, f3, f4⟩)
        (by unfold TwoP1234; dsimp only; omega) (by unfold TwoP1234; omega),
      sub64_eq TwoP1234 (FieldElement.l2 ⟨f0, f1, f2, f3, f4⟩)
        (by unfold TwoP1234; dsimp only; omega) (by unfold TwoP1234; omega),
      sub64_eq TwoP1234 (FieldElement.l3 ⟨f0, f1, f2, f3, f4⟩)
        (by unfold TwoP1234; dsimp only; omega) (by unfold TwoP1234; omega),
      sub64_eq TwoP1234 (FieldElement.l4 ⟨f0, f1, f2, f3, f4⟩)
        (by unfold TwoP1234; dsimp only; omega) (by unfold TwoP1234; omega)]
  dsimp only
  obtain ⟨hval, hm0, hm1, hm2, hm3, hm4⟩ := reduce_spec
    ⟨TwoP0 - f0, TwoP1234 - f1, TwoP1234 - f2, TwoP1234 - f3, TwoP1234 - f4⟩
    (by dsimp only; unfold TwoP0; omega) (by dsimp only; unfold TwoP1234; omega)
    (by dsimp only; unfold TwoP1234; omega) (by dsimp only; unfold TwoP1234; omega)
    (by dsimp only; unfold TwoP1234; omega)
  refine ⟨⟨by omega, by omega, by omega, by omega, by omega⟩, ?_⟩
  unfold toZ
  rw [← ZMod.natCast_mod, hval, ZMod.natCast_mod]
  have hdv : FieldElement.val ⟨TwoP0 - f0, TwoP1234 - f1, TwoP1234 - f2,
      TwoP1234 - f3, TwoP1234 - f4⟩ + FieldElement.val ⟨f0, f1, f2, f3, f4⟩ =
      2 * pEd := by
    simp only [FieldElement.val]
    unfold TwoP0 TwoP1234 pEd
    omega
  have hcast := congrArg (fun n : Nat => (n : ZMod pEd)) hdv
  push_cast at hcast
  rw [ZMod.natCast_self] at hcast
  linear_combination hcast

/-- `FieldElement::add` is exact limb-wise addition for small limbs. -/
theorem add_eq (f g : FieldElement)
    (h0 : f.l0 + g.l0 < 2 ^ 64) (h1 : f.l1 + g.l1 < 2 ^ 64)
    (h2 : f.l2 + g.l2 < 2 ^ 64) (h3 : f.l3 + g.l3 < 2 ^ 64)
    (h4 : f.l4 + g.l4 < 2 ^ 64) :
    f.add g = ⟨f.l0 + g.l0, f.l1 + g.l1, f.l2 + g.l2, f.l3 + g.l3, f.l4 + g.l4⟩ := by
  unfold FieldElement.add
  rw [show w64 (f.l0 + g.l0) = f.l0 + g.l0 from by unfold w64; omega,
      show w64 (f.l1 + g.l1) = f.l1 + g.l1 from by unfold w64; omega,
      show w64 (f.l2 + g.l2) = f.l2 + g.l2 from by unfold w64; omega,
      show w64 (f.l3 + g.l3) = f.l3 + g.l3 from by unfold w64; omega,
      show w64 (f.l4 + g.l4) = f.l4 + g.l4 from by unfold w64; omega]

/-- `FieldElement::add` adds in the field (good inputs). -/
theorem add_spec (f g : FieldElement) (hf : good f) (hg : good g) :
    ((f.add g).l0 < 2 ^ 53 ∧ (f.add g).l1 < 2 ^ 53 ∧ (f.add g).l2 < 2 ^ 53 ∧
      (f.add g).l3 < 2 ^ 53 ∧ (f.add g).l4 < 2 ^ 53) ∧
    toZ (f.add g) = toZ f + toZ g := by
  obtain ⟨f0, f1, f2, f3, f4⟩ := f
  obtain ⟨g0, g1, g2, g3, g4⟩ := g
  obtain ⟨hf0, hf1, hf2, hf3, hf4⟩ := hf
  obtain ⟨hg0, hg1, hg2, hg3, hg4⟩ := hg
  dsimp only at hf0 hf1 hf2 hf3 hf4 hg0 hg1 hg2 hg3 hg4
  rw [add_eq _ _ (by show f0 + g0 < 2 ^ 64; omega) (by show f1 + g1 < 2 ^ 64; omega)
    (by show f2 + g2 < 2 ^ 64; omega) (by show f3 + g3 < 2 ^ 64; omega)
    (by show f4 + g4 < 2 ^ 64; omega)]
  refine ⟨⟨by show f0 + g0 < 2 ^ 53; omega, by show f1 + g1 < 2 ^ 53; omega,
    by show f2 + g2 < 2 ^ 53; omega, by show f3 + g3 < 2 ^ 53; omega,
    by show f4 + g4 < 2 ^ 53; omega⟩, ?_⟩
  unfold toZ
  have hdv : FieldElement.val ⟨f0 + g0, f1 + g1, f2 + g2, f3 + g3, f4 + g4⟩ =
      FieldElement.val ⟨f0, f1, f2, f3, f4⟩ + FieldElement.val ⟨g0, g1, g2, g3, g4⟩ := by
    simp only [FieldElement.val]
    ring
  rw [hdv, Nat.cast_add]

/-- `FieldElement::is_zero` decides vanishing of the represented value. -/
theorem is_zero_iff (f : FieldElement)
    (b0 : f.l0 < 2 ^ 53) (b1 : f.l1 < 2 ^ 53) (b2 : f.l2 < 2 ^ 53)
    (b3 : f.l3 < 2 ^ 53) (b4 : f.l4 < 2 ^ 53) :
    (FieldElement.is_zero f = true) ↔ toZ f = 0 := by
  obtain ⟨l0, l1, l2, l3, l4⟩ := f
  dsimp only at b0 b1 b2 b3 b4
  unfold FieldElement.is_zero toZ
  rw [decide_eq_true_iff]
  constructor
  · intro h
    have hv := encode_val l0 l1 l2 l3 l4 b0 b1 b2 b3 b4
    rw [h] at hv
    have hz : leVal (List.replicate 32 0) = 0 := by decide
    rw [ZMod.natCast_zmod_eq_zero_iff_dvd]
    exact Nat.dvd_of_mod_eq_zero (by omega)
  · intro h
    rw [ZMod.natCast_zmod_eq_zero_iff_dvd] at h
    have hv0 : FieldElement.val ⟨l0, l1, l2, l3, l4⟩ % pEd = 0 :=
      Nat.mod_eq_zero_of_dvd h
    rw [encode_digits l0 l1 l2 l3 l4 b0 b1 b2 b3 b4]
    simp only [hv0]
    decide

/-- `FieldElement::is_negative` is the parity of the canonical value. -/
theorem is_negative_spec (f : FieldElement)
    (b0 : f.l0 < 2 ^ 53) (b1 : f.l1 < 2 ^ 53) (b2 : f.l2 < 2 ^ 53)
    (b3 : f.l3 < 2 ^ 53) (b4 : f.l4 < 2 ^ 53) :
    FieldElement.is_negative f = f.val % pEd % 2 := by
  obtain ⟨l0, l1, l2, l3, l4⟩ := f
  dsimp only at b0 b1 b2 b3 b4
  unfold FieldElement.is_negative
  rw [encode_digits l0 l1 l2 l3 l4 b0 b1 b2 b3 b4]
  rw [show List.range 32 = 0 :: [1, 2, 3, 4, 5, 6, 7, 8, 9, 10, 11, 12, 13, 14, 15, 16, 17, 18, 19, 20, 21, 22, 23, 24, 25, 26, 27, 28, 29, 30, 31] from by decide]
  simp only [List.map_cons, List.getD_cons_zero]
  rw [Nat.and_one_is_mod]
  rw [show (256 : Nat) ^ 0 = 1 from rfl, Nat.div_one,
    Nat.mod_mod_of_dvd _ (by norm_num : (2 : Nat) ∣ 256)]

/-- C2: the S-range gate of `verify` does not reject `S = ℓ`.  `Lconst` (the
byte table the source compares against) is stored big-endian while the loop
indexes the little-endian `S` from index 31 down, so `check_lt_l` on the
32-byte little-endian encoding of the group order `ℓ` returns `false` — the
signature is NOT rejected with `InvalidSignature` — although the spec demands
that every `S ≥ ℓ` be rejected.  Adding `ℓ` to the `S` of any valid signature
therefore yields a distinct 64-byte signature that passes the range gate. -/
theorem C2_range_gate_accepts_l :
    check_lt_l (bytesLE lOrder 32) = false ∧
    leVal (bytesLE lOrder 32) = lOrder ∧
    (bytesLE lOrder 32).length = 32 ∧
    (∀ b ∈ bytesLE lOrder 32, b < 256) ∧
    (∀ pk message sig : List Nat, check_lt_l ((sig.drop 32).take 32) = false →
      ∀ A, P3.decode pk = some A →
      PublicKey.verify pk message sig ≠ Except.error Error.InvalidSignature) := by
  refine ⟨by decide, by decide, by decide, by decide, ?_⟩
  intro pk message sig hgate A hA
  unfold PublicKey.verify
  simp only [hgate, hA, Bool.false_eq_true, if_false]
  split <;> simp

theorem C7_invert_mul_one_witness :
    (FieldElement.mul ⟨2, 0, 0, 0, 0⟩ (FieldElement.invert ⟨2, 0, 0, 0, 0⟩)).val % pEd = 1 ∧
    FieldElement.encode (FieldElement.mul ⟨2, 0, 0, 0, 0⟩
        (FieldElement.invert ⟨2, 0, 0, 0, 0⟩)) =
      FieldElement.encode FieldOne ∧
    toZ (FieldElement.invert ⟨2, 0, 0, 0, 0⟩) = toZ ⟨2, 0, 0, 0, 0⟩ ^ (2 ^ 255 - 21) :=
  C7_invert_mul_one 2 0 0 0 0 (by norm_num) (by norm_num) (by norm_num) (by norm_num)
    (by norm_num) (by decide)

theorem C9_from_bytes_length_only_witness :
    PublicKey.from_bytes (List.replicate 32 0) = Except.ok (List.replicate 32 0) ∧
    PublicKey.from_bytes [0] = Except.error Error.InvalidPublicKey ∧
    Signature.from_bytes (List.replicate 64 0) = Except.ok (List.replicate 64 0) ∧
    Keypair.from_bytes [0] = Except.error Error.InvalidKeypair :=
  ⟨(C9_from_bytes_length_only.1 (List.replicate 32 0)).1.mpr (by decide),
   (C9_from_bytes_length_only.1 [0]).2.2.2.2.1 (by decide),
   (C9_from_bytes_length_only.1 (List.replicate 64 0)).2.2.1.mpr (by decide),
   (C9_from_bytes_length_only.1 [0]).2.2.2.2.2.2.2 (by decide)⟩

end Ed25519Fun
